import Mathlib

/-!
# Ray/geometry intersection core of the ray tracer

A shallow embedding of `source/Utils.h` (the hit tests of `dae::GeometryUtils`, the
light functions of `dae::LightUtils` and the OBJ parser of `dae::Utils`) and, from
`source/Renderer.cpp`, of `Renderer::CycleLightMode` and of the per-light loop of
`Renderer::Render`.

Scalars: the hit tests are embedded twice, from the same source lines.

* On the operations of `float` (section "The arithmetic of `float`", namespace
  `Fp`).  An arithmetic `FloatArith F` is a type of values with the conversion of a
  constant, unary minus, `+ - * /`, `sqrtf`, `abs`, `<` and `<=`; nothing is assumed
  of the operations but that `a < b` and `b < a` never hold together.  `binary32` is
  the arithmetic of IEEE-754 single precision: a value is a NaN, an infinity or a
  rational that single precision holds, and every operation returns the exact
  result rounded to nearest, ties to even, with subnormals, overflow and the NaN
  rules.  What is proved of a test for every arithmetic, or for `binary32`, is
  proved of the code as it runs; the statements about the values a test records
  (a point, a parameter `t`, barycentric weights) are made on this embedding.
* In exact arithmetic (the first sections).  `float` is an arbitrary linearly
  ordered field `K` (no rounding, no overflow) and `sqrtf` a parameter of the
  functions that call it, of which the theorems state what they need at the
  arguments where it is called.  These definitions are the tests on the arithmetic
  `exactArith` (theorems `HitTest_Sphere_exactArith` and the like).  They carry the
  statements that depend on the branches taken and on the fields written only,
  and the theorems marked "in exact arithmetic", which say what holds of the
  geometry where nothing is rounded.  The slab test in exact arithmetic keeps the
  IEEE-754 special values of a division by zero.

Every definition is computable and can be run at `K = ℚ` and at `binary32`.  The
file stream of the parser is embedded by its observable state: the characters left
and the bits `eofbit`, `failbit`.
-/

namespace dae

/-! ## Linear algebra (Math.h, Vector3) -/

/-- Modelled from the spec: the 3-vector of the linear-algebra library (`Math.h` /
`Vector3`, not among the source files), three scalar components. -/
@[ext]
structure Vector3 (K : Type) where
  x : K
  y : K
  z : K
deriving DecidableEq

variable {K : Type} [LinearOrderedField K]

namespace Vector3

/-- Modelled from the spec: component-wise vector addition of the linear-algebra
library (`operator+` of `Vector3`). -/
def add (a b : Vector3 K) : Vector3 K := ⟨a.x + b.x, a.y + b.y, a.z + b.z⟩

/-- Modelled from the spec: component-wise vector subtraction of the linear-algebra
library (`operator-` of `Vector3`). -/
def sub (a b : Vector3 K) : Vector3 K := ⟨a.x - b.x, a.y - b.y, a.z - b.z⟩

/-- Modelled from the spec: scaling of a vector by a scalar, the library's
`scalar * vector` and `vector * scalar`. -/
def scale (s : K) (a : Vector3 K) : Vector3 K := ⟨s * a.x, s * a.y, s * a.z⟩

instance : Add (Vector3 K) := ⟨add⟩
instance : Sub (Vector3 K) := ⟨sub⟩
instance : HMul K (Vector3 K) (Vector3 K) := ⟨scale⟩
instance : HMul (Vector3 K) K (Vector3 K) := ⟨fun a s => scale s a⟩

/-- Modelled from the spec: the dot product `Vector3::Dot` of the linear-algebra
library. -/
def Dot (a b : Vector3 K) : K := a.x * b.x + a.y * b.y + a.z * b.z

/-- Modelled from the spec: the cross product `Vector3::Cross` of the
linear-algebra library. -/
def Cross (a b : Vector3 K) : Vector3 K :=
  ⟨a.y * b.z - a.z * b.y, a.z * b.x - a.x * b.z, a.x * b.y - a.y * b.x⟩

/-- Modelled from the spec: `Vector3::SqrMagnitude`, the squared length. -/
def SqrMagnitude (a : Vector3 K) : K := a.x * a.x + a.y * a.y + a.z * a.z

/-- Modelled from the spec: `Vector3::Magnitude`, the length, the library square
root `sqrtf` of the squared length. -/
def Magnitude (sqrtf : K → K) (a : Vector3 K) : K := sqrtf (SqrMagnitude a)

/-- Modelled from the spec: `Vector3::Normalized`, the vector divided by its
length. -/
def Normalized (sqrtf : K → K) (a : Vector3 K) : Vector3 K :=
  ⟨a.x / Magnitude sqrtf a, a.y / Magnitude sqrtf a, a.z / Magnitude sqrtf a⟩

end Vector3

/-- The square `Square(x)` of `Math.h`. -/
def Square (x : K) : K := x * x

/-- The constant `FLT_EPSILON` of `<cfloat>` for IEEE single precision, `2⁻²³`. -/
def FLT_EPSILON : K := 1 / 8388608

/-- The constant `FLT_MAX` of `<cfloat>` for IEEE single precision,
`(2²⁴ − 1) · 2¹⁰⁴`. -/
def FLT_MAX : K := 16777215 * 2 ^ 104

/-- What a value `v` has to be for `sqrtf` to have returned the square root of `x`:
the non-negative number whose square is `x`. -/
def IsSqrt (v x : K) : Prop := 0 ≤ v ∧ v * v = x

/-! ## Data types (DataTypes.h) -/

/-- Modelled from the spec: `Ray` of `DataTypes.h`: origin, direction and the
parametric interval `min`, `max`. -/
structure Ray (K : Type) where
  origin : Vector3 K
  direction : Vector3 K
  min : K
  max : K
deriving DecidableEq

/-- Modelled from the spec: `HitRecord` of `DataTypes.h`, the mutable result of an
intersection query.  `materialIndex` is an `unsigned char`. -/
@[ext]
structure HitRecord (K : Type) where
  origin : Vector3 K
  normal : Vector3 K
  t : K
  didHit : Bool
  materialIndex : Nat
deriving DecidableEq

/-- Modelled from the spec: the default-constructed record `HitRecord{}`:
`didHit = false` and `t` at the sentinel maximal value. -/
def HitRecord.fresh : HitRecord K :=
  { origin := ⟨0, 0, 0⟩, normal := ⟨0, 0, 0⟩, t := FLT_MAX, didHit := false, materialIndex := 0 }

/-- Modelled from the spec: `Sphere` of `DataTypes.h`. -/
structure Sphere (K : Type) where
  origin : Vector3 K
  radius : K
  materialIndex : Nat
deriving DecidableEq

/-- Modelled from the spec: `Plane` of `DataTypes.h`. -/
structure Plane (K : Type) where
  origin : Vector3 K
  normal : Vector3 K
  materialIndex : Nat
deriving DecidableEq

/-- Modelled from the spec: the enumeration `TriangleCullMode` of `DataTypes.h`. -/
inductive TriangleCullMode where
  | FrontFaceCulling
  | BackFaceCulling
  | NoCulling
deriving DecidableEq, Repr

/-- Modelled from the spec: `Triangle` of `DataTypes.h`. -/
structure Triangle (K : Type) where
  v0 : Vector3 K
  v1 : Vector3 K
  v2 : Vector3 K
  normal : Vector3 K
  cullMode : TriangleCullMode
  materialIndex : Nat
deriving DecidableEq

/-! ## Sphere and plane hit tests (Utils.h, lines 14-94) -/

/-- `GeometryUtils::HitTest_Sphere` (Utils.h 14-51).  The record passed by
reference is returned next to the boolean result. -/
def HitTest_Sphere (sqrtf : K → K) (sphere : Sphere K) (ray : Ray K)
    (hitRecord : HitRecord K) (_ignoreHitRecord : Bool) : Bool × HitRecord K :=
  let cameraToSphere : Vector3 K := ray.origin - sphere.origin
  let b : K := Vector3.Dot ((2 : K) * ray.direction) cameraToSphere
  let c : K := Vector3.Dot cameraToSphere cameraToSphere - Square sphere.radius
  let discriminant : K := Square b - 4 * c
  let hitRecord : HitRecord K := { hitRecord with didHit := decide (discriminant > 0) }
  if hitRecord.didHit = false then (false, hitRecord) else
  let t : K := (-b - sqrtf discriminant) * (1 / 2)
  let hitRecord : HitRecord K := { hitRecord with didHit := decide (t > ray.min ∧ t < ray.max) }
  if hitRecord.didHit = false then (false, hitRecord) else
  let t : K := if t < ray.min then (-b + sqrtf discriminant) * (1 / 2) else t
  let hitRecord : HitRecord K := { hitRecord with origin := ray.origin + t * ray.direction }
  let hitRecord : HitRecord K :=
    { hitRecord with normal := Vector3.Normalized sqrtf (hitRecord.origin - sphere.origin) }
  let hitRecord : HitRecord K := { hitRecord with t := t }
  let hitRecord : HitRecord K := { hitRecord with materialIndex := sphere.materialIndex }
  (true, hitRecord)

/-- `GeometryUtils::HitTest_Plane` (Utils.h 61-88). -/
def HitTest_Plane (plane : Plane K) (ray : Ray K) (hitRecord : HitRecord K)
    (_ignoreHitRecord : Bool) : Bool × HitRecord K :=
  let unitProjection : K := Vector3.Dot ray.direction plane.normal
  if unitProjection ≥ 0 then (false, hitRecord) else
  let height : K := Vector3.Dot (plane.origin - ray.origin) plane.normal
  let t : K := height / unitProjection
  let hitRecord : HitRecord K := { hitRecord with didHit := decide (t > ray.min ∧ t < ray.max) }
  if hitRecord.didHit = false then (false, hitRecord) else
  let hitRecord : HitRecord K := { hitRecord with origin := ray.origin + t * ray.direction }
  let hitRecord : HitRecord K := { hitRecord with normal := plane.normal }
  let hitRecord : HitRecord K := { hitRecord with materialIndex := plane.materialIndex }
  let hitRecord : HitRecord K := { hitRecord with t := t }
  (true, hitRecord)

/-! ## Triangle hit tests (Utils.h, lines 152-301) -/

/-- `GeometryUtils::HitTest_Triangle_Moller` on a `Triangle` (Utils.h 152-221). -/
def HitTest_Triangle_Moller (triangle : Triangle K) (ray : Ray K) (hitRecord : HitRecord K)
    (ignoreHitRecord : Bool) : Bool × HitRecord K :=
  let normalViewDot : K := Vector3.Dot triangle.normal ray.direction
  let normalViewDot : K := if ignoreHitRecord then normalViewDot * (-1) else normalViewDot
  let culled : Bool :=
    match triangle.cullMode with
    | TriangleCullMode.FrontFaceCulling => decide (normalViewDot ≤ 0)
    | TriangleCullMode.BackFaceCulling => decide (normalViewDot ≥ 0)
    | TriangleCullMode.NoCulling => decide (|normalViewDot| < FLT_EPSILON)
  if culled then (false, hitRecord) else
  let edge1 : Vector3 K := triangle.v1 - triangle.v0
  let edge2 : Vector3 K := triangle.v2 - triangle.v0
  let pVec : Vector3 K := Vector3.Cross ray.direction edge2
  let det : K := Vector3.Dot edge1 pVec
  if det > -FLT_EPSILON ∧ det < FLT_EPSILON then (false, hitRecord) else
  let invDet : K := 1 / det
  let tVec : Vector3 K := ray.origin - triangle.v0
  let u : K := Vector3.Dot tVec pVec * invDet
  if u < 0 ∨ u > 1 then (false, hitRecord) else
  let qVec : Vector3 K := Vector3.Cross tVec edge1
  let v : K := Vector3.Dot ray.direction qVec * invDet
  if v < 0 ∨ u + v > 1 then (false, hitRecord) else
  let t : K := Vector3.Dot edge2 qVec * invDet
  if t < ray.min ∨ t > ray.max then (false, hitRecord) else
  let hitRecord : HitRecord K :=
    { hitRecord with origin := ((1 - u - v) * triangle.v0 + u * triangle.v1) + v * triangle.v2 }
  let hitRecord : HitRecord K := { hitRecord with didHit := true }
  let hitRecord : HitRecord K := { hitRecord with normal := triangle.normal }
  let hitRecord : HitRecord K := { hitRecord with materialIndex := triangle.materialIndex }
  let hitRecord : HitRecord K := { hitRecord with t := t }
  (true, hitRecord)

/-- `GeometryUtils::HitTest_Triangle_Moller` on raw vertices (Utils.h 223-294), the
overload the mesh test calls for each face. -/
def HitTest_Triangle_Moller_raw (v0 v1 v2 normal : Vector3 K) (cullmode : TriangleCullMode)
    (materialIndex : Nat) (ray : Ray K) (hitRecord : HitRecord K)
    (ignoreHitRecord : Bool) : Bool × HitRecord K :=
  let normalViewDot : K := Vector3.Dot normal ray.direction
  let normalViewDot : K := if ignoreHitRecord then normalViewDot * (-1) else normalViewDot
  let culled : Bool :=
    match cullmode with
    | TriangleCullMode.FrontFaceCulling => decide (normalViewDot ≤ 0)
    | TriangleCullMode.BackFaceCulling => decide (normalViewDot ≥ 0)
    | TriangleCullMode.NoCulling => decide (|normalViewDot| < FLT_EPSILON)
  if culled then (false, hitRecord) else
  let edge1 : Vector3 K := v1 - v0
  let edge2 : Vector3 K := v2 - v0
  let pVec : Vector3 K := Vector3.Cross ray.direction edge2
  let det : K := Vector3.Dot edge1 pVec
  if |det| < FLT_EPSILON then (false, hitRecord) else
  let invDet : K := 1 / det
  let tVec : Vector3 K := ray.origin - v0
  let u : K := Vector3.Dot tVec pVec * invDet
  if u < 0 ∨ u > 1 then (false, hitRecord) else
  let qVec : Vector3 K := Vector3.Cross tVec edge1
  let v : K := Vector3.Dot ray.direction qVec * invDet
  if v < 0 ∨ u + v > 1 then (false, hitRecord) else
  let t : K := Vector3.Dot edge2 qVec * invDet
  if t < ray.min ∨ t > ray.max then (false, hitRecord) else
  let hitRecord : HitRecord K := { hitRecord with origin := ((1 - u - v) * v0 + u * v1) + v * v2 }
  let hitRecord : HitRecord K := { hitRecord with didHit := true }
  let hitRecord : HitRecord K := { hitRecord with normal := normal }
  let hitRecord : HitRecord K := { hitRecord with materialIndex := materialIndex }
  let hitRecord : HitRecord K := { hitRecord with t := t }
  (true, hitRecord)

/-- The boolean any-hit overload `GeometryUtils::HitTest_Triangle(triangle, ray)`
(Utils.h 297-301): the Möller–Trumbore test on a temporary record with
`ignoreHitRecord = true`. -/
def HitTest_Triangle_anyHit (triangle : Triangle K) (ray : Ray K) : Bool :=
  let temp : HitRecord K := HitRecord.fresh
  (HitTest_Triangle_Moller triangle ray temp true).1

/-! ## Triangle mesh (Utils.h, lines 305-377) -/

/-- Modelled from the spec: `TriangleMesh` of `DataTypes.h`: the flat arrays, the
world-space copies and the world-space bounding box.  `indices` is a
`std::vector<int>`. -/
structure TriangleMesh (K : Type) where
  positions : List (Vector3 K)
  normals : List (Vector3 K)
  indices : List Int
  materialIndex : Nat
  cullMode : TriangleCullMode
  transformedPositions : List (Vector3 K)
  transformedNormals : List (Vector3 K)
  transformedMinAABB : Vector3 K
  transformedMaxAABB : Vector3 K

/-- A `float` that is either finite or one of the IEEE-754 special values.  The slab
test divides by the components of the ray direction, which may be zero, and the
code relies on what IEEE-754 then returns. -/
inductive FloatVal (K : Type) where
  | nan
  | negInf
  | posInf
  | finite (v : K)
deriving DecidableEq

namespace FloatVal

/-- IEEE-754 quotient of two finite floats (rounding aside): `0/0` is NaN and a
non-zero number over zero is an infinity of the sign of the numerator (a zero
divisor is taken as `+0`). -/
def div (a b : K) : FloatVal K :=
  if b = 0 then (if a = 0 then nan else if 0 < a then posInf else negInf)
  else finite (a / b)

/-- IEEE-754 `a < b`: false as soon as one side is NaN. -/
def lt : FloatVal K → FloatVal K → Bool
  | nan, _ => false
  | _, nan => false
  | negInf, negInf => false
  | negInf, _ => true
  | _, negInf => false
  | posInf, _ => false
  | finite _, posInf => true
  | finite a, finite b => decide (a < b)

/-- IEEE-754 `a >= b`: false as soon as one side is NaN. -/
def ge : FloatVal K → FloatVal K → Bool
  | nan, _ => false
  | _, nan => false
  | a, b => !(lt a b)

/-- The function `std::min(a, b)`, which is `(b < a) ? b : a`. -/
def min (a b : FloatVal K) : FloatVal K := if lt b a then b else a

/-- The function `std::max(a, b)`, which is `(a < b) ? b : a`. -/
def max (a b : FloatVal K) : FloatVal K := if lt a b then b else a

end FloatVal

/-- `GeometryUtils::SlabTest_TriangleMesh` (Utils.h 305-326). -/
def SlabTest_TriangleMesh (mesh : TriangleMesh K) (ray : Ray K) : Bool :=
  let tx1 := FloatVal.div (mesh.transformedMinAABB.x - ray.origin.x) ray.direction.x
  let tx2 := FloatVal.div (mesh.transformedMaxAABB.x - ray.origin.x) ray.direction.x
  let tmin := FloatVal.min tx1 tx2
  let tmax := FloatVal.max tx1 tx2
  let ty1 := FloatVal.div (mesh.transformedMinAABB.y - ray.origin.y) ray.direction.y
  let ty2 := FloatVal.div (mesh.transformedMaxAABB.y - ray.origin.y) ray.direction.y
  let tmin := FloatVal.max tmin (FloatVal.min ty1 ty2)
  let tmax := FloatVal.min tmax (FloatVal.max ty1 ty2)
  let tz1 := FloatVal.div (mesh.transformedMinAABB.z - ray.origin.z) ray.direction.z
  let tz2 := FloatVal.div (mesh.transformedMaxAABB.z - ray.origin.z) ray.direction.z
  let tmin := FloatVal.max tmin (FloatVal.min tz1 tz2)
  let tmax := FloatVal.min tmax (FloatVal.max tz1 tz2)
  FloatVal.lt (FloatVal.finite 0) tmax && FloatVal.ge tmax tmin

/-- Element `i` of a `std::vector` indexed by an `int`; `none` where the C++ access
is out of range. -/
def vectorAt {α : Type} (xs : List α) (i : Int) : Option α :=
  if i < 0 then none else xs[i.toNat]?

/-- The four references taken at the head of the loop body of
`HitTest_TriangleMesh` (Utils.h 344-353): the three world-space vertices of face
`index` and its world-space normal; `none` where an access is out of range. -/
def meshFace (mesh : TriangleMesh K) (index : Nat) :
    Option (Vector3 K × Vector3 K × Vector3 K × Vector3 K) :=
  let offset : Nat := index * 3
  match mesh.indices[offset]?, mesh.indices[offset + 1]?, mesh.indices[offset + 2]? with
  | some i0, some i1, some i2 =>
    match vectorAt mesh.transformedPositions i0, vectorAt mesh.transformedPositions i1,
      vectorAt mesh.transformedPositions i2, mesh.transformedNormals[index]? with
    | some v0, some v1, some v2, some normal => some (v0, v1, v2, normal)
    | _, _, _, _ => none
  | _, _, _ => none

/-- The face loop of `HitTest_TriangleMesh` (Utils.h 342-368) with `remaining`
iterations left, the next one at `index`.  `some (b, r)` is a return of `b` (or the
end of the loop with `didHit = b`) with the caller's record at `r`. -/
def meshLoop (mesh : TriangleMesh K) (ray : Ray K) (ignoreHitRecord : Bool) :
    Nat → Nat → HitRecord K → HitRecord K → Bool → Option (Bool × HitRecord K)
  | 0, _, _, hitRecord, didHit => some (didHit, hitRecord)
  | remaining + 1, index, temp, hitRecord, didHit =>
    match meshFace mesh index with
    | none => none
    | some (v0, v1, v2, normal) =>
      let r := HitTest_Triangle_Moller_raw v0 v1 v2 normal mesh.cullMode mesh.materialIndex
        ray temp ignoreHitRecord
      if r.1 then
        if ignoreHitRecord then some (true, hitRecord)
        else if r.2.t < hitRecord.t then meshLoop mesh ray ignoreHitRecord remaining (index + 1) r.2 r.2 true
        else meshLoop mesh ray ignoreHitRecord remaining (index + 1) r.2 hitRecord didHit
      else meshLoop mesh ray ignoreHitRecord remaining (index + 1) r.2 hitRecord didHit

/-- `GeometryUtils::HitTest_TriangleMesh` (Utils.h 328-371); `none` where the C++
reads a vector out of range. -/
def HitTest_TriangleMesh (mesh : TriangleMesh K) (ray : Ray K) (hitRecord : HitRecord K)
    (ignoreHitRecord : Bool) : Option (Bool × HitRecord K) :=
  if SlabTest_TriangleMesh mesh ray = false then some (false, hitRecord) else
  let temp : HitRecord K := HitRecord.fresh
  let didHit : Bool := false
  meshLoop mesh ray ignoreHitRecord mesh.normals.length 0 temp hitRecord didHit

/-! ## Lighting mode (Renderer.cpp, lines 128-135) -/

/-- Modelled from the spec: the enumeration `LightingMode` of `Renderer.h`, an
`enum class` over `int`; a value is its underlying integer. -/
abbrev LightingMode : Type := Int

/-- Modelled from the spec: first enumerator of `LightingMode`. -/
def LightingMode.ObservedArea : LightingMode := 0

/-- Modelled from the spec: second enumerator of `LightingMode`. -/
def LightingMode.Radiance : LightingMode := 1

/-- Modelled from the spec: third enumerator of `LightingMode`. -/
def LightingMode.BRDF : LightingMode := 2

/-- Modelled from the spec: fourth and last enumerator of `LightingMode`. -/
def LightingMode.Combined : LightingMode := 3

/-- `Renderer::CycleLightMode` (Renderer.cpp 128-135) as a function of the member
`m_LightingMode`; `%` is the truncating remainder of C++. -/
def CycleLightMode (m_LightingMode : LightingMode) : LightingMode :=
  let modeIndex : Int := m_LightingMode
  let modeIndex : Int := modeIndex + 1
  let modeIndex : Int := Int.tmod modeIndex LightingMode.Combined
  modeIndex


/-! ## The quantities of the specification and the inputs of the examples -/

/-- The coefficient `b = 2·D·(O−C)` of the sphere quadratic, as the specification
writes it. -/
def sphereB (sphere : Sphere K) (ray : Ray K) : K :=
  2 * Vector3.Dot ray.direction (ray.origin - sphere.origin)

/-- The coefficient `c = |O−C|² − r²` of the sphere quadratic, as the specification
writes it. -/
def sphereC (sphere : Sphere K) (ray : Ray K) : K :=
  Vector3.SqrMagnitude (ray.origin - sphere.origin) - sphere.radius ^ 2

/-- The discriminant `b² − 4c` of the sphere quadratic, as the specification writes
it. -/
def sphereDiscriminant (sphere : Sphere K) (ray : Ray K) : K :=
  sphereB sphere ray ^ 2 - 4 * sphereC sphere ray

/-- The analytic near root `t0 = (−b − √discriminant)/2`, as the specification
writes it. -/
def sphereNearRoot (sqrtf : K → K) (sphere : Sphere K) (ray : Ray K) : K :=
  (-sphereB sphere ray - sqrtf (sphereDiscriminant sphere ray)) / 2

/-- A square root on the two arguments met by `rayTowardsUnitSphere` on
`unitSphere`: the discriminant `4` and the squared radius `1`. -/
def sqrtf_4_1 (x : ℚ) : ℚ := if x = 4 then 2 else 1

/-- The unit sphere at the world origin. -/
def unitSphere : Sphere ℚ := { origin := ⟨0, 0, 0⟩, radius := 1, materialIndex := 7 }

/-- A ray along `+z` from five units in front of the unit sphere. -/
def rayTowardsUnitSphere : Ray ℚ :=
  { origin := ⟨0, 0, -5⟩, direction := ⟨0, 0, 1⟩, min := 1 / 10000, max := 1000 }

/-- The cull mode with the facing reversed; `NoCulling` has no facing. -/
def reverseCullMode : TriangleCullMode → TriangleCullMode
  | TriangleCullMode.FrontFaceCulling => TriangleCullMode.BackFaceCulling
  | TriangleCullMode.BackFaceCulling => TriangleCullMode.FrontFaceCulling
  | TriangleCullMode.NoCulling => TriangleCullMode.NoCulling

/-- The triangle `(0,0,0)`, `(1,0,0)`, `(0,1,0)` with normal `+z`. -/
def unitTriangle (cullMode : TriangleCullMode) : Triangle ℚ :=
  { v0 := ⟨0, 0, 0⟩, v1 := ⟨1, 0, 0⟩, v2 := ⟨0, 1, 0⟩, normal := ⟨0, 0, 1⟩,
    cullMode := cullMode, materialIndex := 3 }

/-- A ray along `+z` that crosses `unitTriangle` in `(1/4, 1/4, 0)` at `t = 1`. -/
def rayThroughUnitTriangle : Ray ℚ :=
  { origin := ⟨1 / 4, 1 / 4, -1⟩, direction := ⟨0, 0, 1⟩, min := 1 / 10000, max := 1000 }

/-- The plane `z = 0` facing `−z`. -/
def groundPlane : Plane ℚ := { origin := ⟨0, 0, 0⟩, normal := ⟨0, 0, -1⟩, materialIndex := 2 }

/-- A record left by an earlier, nearer primitive: a hit at `t = 1/2`. -/
def nearRecord : HitRecord ℚ :=
  { origin := ⟨9, 9, 9⟩, normal := ⟨1, 0, 0⟩, t := 1 / 2, didHit := true, materialIndex := 1 }

/-- The centroid `(v0 + v1 + v2)/3` of a triangle. -/
def Triangle.centroid (triangle : Triangle K) : Vector3 K :=
  (1 / 3 : K) * ((triangle.v0 + triangle.v1) + triangle.v2)

/-- The barycentric coordinate `u` as the Möller–Trumbore test computes it
(Utils.h 179-196). -/
def mollerU (triangle : Triangle K) (ray : Ray K) : K :=
  Vector3.Dot (ray.origin - triangle.v0) (Vector3.Cross ray.direction (triangle.v2 - triangle.v0))
    * (1 / Vector3.Dot (triangle.v1 - triangle.v0)
        (Vector3.Cross ray.direction (triangle.v2 - triangle.v0)))

/-- The barycentric coordinate `v` as the Möller–Trumbore test computes it
(Utils.h 179-204). -/
def mollerV (triangle : Triangle K) (ray : Ray K) : K :=
  Vector3.Dot ray.direction (Vector3.Cross (ray.origin - triangle.v0) (triangle.v1 - triangle.v0))
    * (1 / Vector3.Dot (triangle.v1 - triangle.v0)
        (Vector3.Cross ray.direction (triangle.v2 - triangle.v0)))

/-- A triangle of non-zero area whose edge cross product `(0, 0, 9·2⁻²⁷)` is shorter
than `FLT_EPSILON = 2⁻²³`; its normal is `+z` and its centroid `(2⁻¹³, 2⁻¹⁴, 0)`. -/
def smallTriangle : Triangle ℚ :=
  { v0 := ⟨0, 0, 0⟩, v1 := ⟨3 / 8192, 0, 0⟩, v2 := ⟨0, 3 / 16384, 0⟩, normal := ⟨0, 0, 1⟩,
    cullMode := TriangleCullMode.NoCulling, materialIndex := 3 }

/-- A square root on the one argument met on `smallTriangle`, the squared length
`(9·2⁻²⁷)²` of its edge cross product. -/
def sqrtf_small (x : ℚ) : ℚ := if x = (9 / 134217728) * (9 / 134217728) then 9 / 134217728 else 1

/-- The ray from one unit above the centroid of `smallTriangle` straight down its
normal. -/
def rayOntoSmallTriangle : Ray ℚ :=
  { origin := ⟨1 / 8192, 1 / 16384, 1⟩, direction := ⟨0, 0, -1⟩, min := 1 / 10000, max := 1000 }

/-- The ray from two units above the centroid of `unitTriangle` straight down its
normal. -/
def rayOntoUnitTriangle : Ray ℚ :=
  { origin := ⟨1 / 3, 1 / 3, 2⟩, direction := ⟨0, 0, -1⟩, min := 1 / 10000, max := 1000 }

/-- The parameter `t = dot(planeOrigin − rayOrigin, normal) / dot(direction, normal)`
of the ray/plane intersection, as the specification writes it. -/
def planeT (plane : Plane K) (ray : Ray K) : K :=
  Vector3.Dot (plane.origin - ray.origin) plane.normal / Vector3.Dot ray.direction plane.normal

/-- The centre `(transformedMinAABB + transformedMaxAABB)/2` of the world-space
bounding box of a mesh. -/
def boxCentre (mesh : TriangleMesh K) : Vector3 K :=
  (1 / 2 : K) * (mesh.transformedMinAABB + mesh.transformedMaxAABB)

/-- The value is `−∞` or a finite number not above `τ`. -/
def FloatVal.AtMost : FloatVal K → K → Prop
  | FloatVal.negInf, _ => True
  | FloatVal.finite a, τ => a ≤ τ
  | _, _ => False

/-- The value is `+∞` or a finite number not below `τ`. -/
def FloatVal.AtLeast : FloatVal K → K → Prop
  | FloatVal.posInf, _ => True
  | FloatVal.finite a, τ => τ ≤ a
  | _, _ => False

/-- A mesh without faces whose world-space bounding box is the cube `[−1, 1]³`. -/
def cubeBoxMesh : TriangleMesh ℚ :=
  { positions := [], normals := [], indices := [], materialIndex := 0,
    cullMode := TriangleCullMode.NoCulling, transformedPositions := [],
    transformedNormals := [], transformedMinAABB := ⟨-1, -1, -1⟩,
    transformedMaxAABB := ⟨1, 1, 1⟩ }

/-- A mesh without faces whose world-space bounding box is flat on the x axis: the
square `{0} × [−1, 1]²`, the box of a mesh that lies in the plane `x = 0`. -/
def flatBoxMesh : TriangleMesh ℚ :=
  { positions := [], normals := [], indices := [], materialIndex := 0,
    cullMode := TriangleCullMode.NoCulling, transformedPositions := [],
    transformedNormals := [], transformedMinAABB := ⟨0, -1, -1⟩,
    transformedMaxAABB := ⟨0, 1, 1⟩ }

/-- A ray from `(0, 0, −5)` along `−z`, away from the cube `[−1, 1]³`. -/
def rayAwayFromCube : Ray ℚ :=
  { origin := ⟨0, 0, -5⟩, direction := ⟨0, 0, -1⟩, min := 1 / 10000, max := 1000 }

/-- A ray in the plane `x = 0` from `(0, 5, 0)` along `−y`, towards the centre of the
box of `flatBoxMesh`. -/
def rayInPlaneOfFlatBox : Ray ℚ :=
  { origin := ⟨0, 5, 0⟩, direction := ⟨0, -1, 0⟩, min := 1 / 10000, max := 1000 }

/-- The intersection of the ray with face `index` of the mesh, if the Möller–Trumbore
test of that face (closest-hit form, on a fresh record) reports one. -/
def faceHit (mesh : TriangleMesh K) (ray : Ray K) (index : Nat) : Option (HitRecord K) :=
  match meshFace mesh index with
  | none => none
  | some (v0, v1, v2, normal) =>
    let r := HitTest_Triangle_Moller_raw v0 v1 v2 normal mesh.cullMode mesh.materialIndex ray
      HitRecord.fresh false
    if r.1 then some r.2 else none

/-- A mesh of two faces: the unit triangle lifted to `z = 1` first, the unit triangle
in `z = 0` second. -/
def twoFaceMesh : TriangleMesh ℚ :=
  { positions := [⟨0, 0, 1⟩, ⟨1, 0, 1⟩, ⟨0, 1, 1⟩, ⟨0, 0, 0⟩, ⟨1, 0, 0⟩, ⟨0, 1, 0⟩],
    normals := [⟨0, 0, 1⟩, ⟨0, 0, 1⟩],
    indices := [0, 1, 2, 3, 4, 5],
    materialIndex := 4,
    cullMode := TriangleCullMode.NoCulling,
    transformedPositions := [⟨0, 0, 1⟩, ⟨1, 0, 1⟩, ⟨0, 1, 1⟩, ⟨0, 0, 0⟩, ⟨1, 0, 0⟩, ⟨0, 1, 0⟩],
    transformedNormals := [⟨0, 0, 1⟩, ⟨0, 0, 1⟩],
    transformedMinAABB := ⟨0, 0, 0⟩,
    transformedMaxAABB := ⟨1, 1, 1⟩ }

/-- A square root on the two arguments met by `rayOfLengthTwo` on `unitSphere`: the
discriminant `196` and the squared distance `4` of the recorded point. -/
def sqrtf_196_4 (x : ℚ) : ℚ := if x = 196 then 14 else 2

/-- A ray from `(0, 0, −4)` along `+z` whose direction has length two. -/
def rayOfLengthTwo : Ray ℚ :=
  { origin := ⟨0, 0, -4⟩, direction := ⟨0, 0, 2⟩, min := 1 / 10000, max := 1000 }

/-- Modelled from the spec: the colour `ColorRGB` of the maths library, three
channels. -/
@[ext]
structure ColorRGB (K : Type) where
  r : K
  g : K
  b : K
deriving DecidableEq

/-- Modelled from the spec: channel-wise sum of two colours (`operator+`, `+=`). -/
def ColorRGB.add (a c : ColorRGB K) : ColorRGB K := ⟨a.r + c.r, a.g + c.g, a.b + c.b⟩

/-- Modelled from the spec: a colour times a scalar (`operator*`, `*=`). -/
def ColorRGB.scale (a : ColorRGB K) (s : K) : ColorRGB K := ⟨a.r * s, a.g * s, a.b * s⟩

instance : Add (ColorRGB K) := ⟨ColorRGB.add⟩
instance : HMul (ColorRGB K) K (ColorRGB K) := ⟨ColorRGB.scale⟩

/-- Modelled from the spec: the enumeration `LightType` of `DataTypes.h`. -/
inductive LightType where
  | Point
  | Directional
deriving DecidableEq, Repr

/-- Modelled from the spec: `Light` of `DataTypes.h`: origin, colour, intensity and
type. -/
structure Light (K : Type) where
  origin : Vector3 K
  color : ColorRGB K
  intensity : K
  type : LightType
deriving DecidableEq

/-- `LightUtils::GetDirectionToLight` (Utils.h 385-389). -/
def GetDirectionToLight (light : Light K) (origin : Vector3 K) : Vector3 K :=
  light.origin - origin

/-- `LightUtils::GetRadiance` (Utils.h 391-402). -/
def GetRadiance (light : Light K) (target : Vector3 K) : ColorRGB K :=
  match light.type with
  | LightType.Point =>
    light.color * (light.intensity / Vector3.SqrMagnitude (light.origin - target))
  | LightType.Directional => light.color * light.intensity

/-- The quantity the cull step looks at: `dot(normal, direction)` for a closest-hit
query and `−dot(normal, direction)` for a shadow query (`ignoreHitRecord`). -/
def cullDot (normal : Vector3 K) (ray : Ray K) (ignoreHitRecord : Bool) : K :=
  if ignoreHitRecord then -(Vector3.Dot normal ray.direction)
  else Vector3.Dot normal ray.direction

/-- The cull-mode policy as the specification writes it: front-face culling discards
when `d ≤ 0`, back-face culling when `d ≥ 0`, no culling when `|d| < epsilon`. -/
def cullStepRejects (cullMode : TriangleCullMode) (d : K) : Bool :=
  match cullMode with
  | TriangleCullMode.FrontFaceCulling => decide (d ≤ 0)
  | TriangleCullMode.BackFaceCulling => decide (d ≥ 0)
  | TriangleCullMode.NoCulling => decide (|d| < FLT_EPSILON)

/-- The determinant `det = dot(edge1, cross(direction, edge2))` of the
Möller–Trumbore test (Utils.h 179-186). -/
def mollerDet (triangle : Triangle K) (ray : Ray K) : K :=
  Vector3.Dot (triangle.v1 - triangle.v0) (Vector3.Cross ray.direction (triangle.v2 - triangle.v0))

/-- The ray parameter `t` as the Möller–Trumbore test computes it (Utils.h 179-208). -/
def mollerT (triangle : Triangle K) (ray : Ray K) : K :=
  Vector3.Dot (triangle.v2 - triangle.v0)
      (Vector3.Cross (ray.origin - triangle.v0) (triangle.v1 - triangle.v0))
    * (1 / Vector3.Dot (triangle.v1 - triangle.v0)
        (Vector3.Cross ray.direction (triangle.v2 - triangle.v0)))

/-- The steps of the Möller–Trumbore test after the cull step accept the ray
(Utils.h 188-212): the determinant is not within `FLT_EPSILON` of zero, `u` and `v`
are barycentric coordinates of a point of the triangle and `t` is not outside
`[min, max]`. -/
def mollerAccepts (triangle : Triangle K) (ray : Ray K) : Prop :=
  ¬ (|mollerDet triangle ray| < FLT_EPSILON)
  ∧ ¬ (mollerU triangle ray < 0 ∨ mollerU triangle ray > 1)
  ∧ ¬ (mollerV triangle ray < 0 ∨ mollerU triangle ray + mollerV triangle ray > 1)
  ∧ ¬ (mollerT triangle ray < ray.min ∨ mollerT triangle ray > ray.max)

instance (triangle : Triangle K) (ray : Ray K) : Decidable (mollerAccepts triangle ray) := by
  unfold mollerAccepts
  infer_instance

/-- The ray through `unitTriangle` whose interval ends exactly at the triangle,
`max = 1`. -/
def rayEndingOnUnitTriangle : Ray ℚ :=
  { origin := ⟨1 / 4, 1 / 4, -1⟩, direction := ⟨0, 0, 1⟩, min := 1 / 10000, max := 1 }

/-! ## The per-light loop of Render (Renderer.cpp, lines 73-105) -/

/-- Modelled from the spec: the constant `colors::White`, `(1, 1, 1)`. -/
def colors_White : ColorRGB K := ⟨1, 1, 1⟩

/-- The shadow ray `lightRay` built at the head of the per-light loop
(Renderer.cpp 76-78). -/
def lightRayOf (sqrtf : K → K) (closestHit : HitRecord K) (light : Light K) : Ray K :=
  let lightDirection : Vector3 K := GetDirectionToLight light closestHit.origin
  let length : K := Vector3.Magnitude sqrtf lightDirection - FLT_EPSILON
  { origin := closestHit.origin + closestHit.normal * (FLT_EPSILON : K),
    direction := Vector3.Normalized sqrtf lightDirection,
    min := FLT_EPSILON,
    max := length }

/-- One iteration of the per-light loop of `Renderer::Render` (Renderer.cpp 73-105)
as a function of the accumulated `finalColor`.  `DoesHit` is `Scene::DoesHit`, whose
body is not among the sources; `none` inside stands for `continue`. -/
def renderLight (sqrtf : K → K) (DoesHit : Ray K → Bool) (m_LightingMode : LightingMode)
    (m_EnableShadows : Bool) (closestHit : HitRecord K) (finalColor : ColorRGB K)
    (light : Light K) : ColorRGB K :=
  let lightRay : Ray K := lightRayOf sqrtf closestHit light
  let observedArea : K := Vector3.Dot lightRay.direction closestHit.normal
  let afterSwitch : Option (ColorRGB K) :=
    if m_LightingMode = LightingMode.ObservedArea then
      if observedArea < 0 then none
      else some (finalColor + (colors_White : ColorRGB K) * observedArea)
    else if m_LightingMode = LightingMode.Radiance then
      some (finalColor + GetRadiance light closestHit.origin)
    else if m_LightingMode = LightingMode.BRDF then some finalColor
    else if m_LightingMode = LightingMode.Combined then
      if observedArea < 0 then none
      else some (finalColor + GetRadiance light closestHit.origin * observedArea)
    else some finalColor
  match afterSwitch with
  | none => finalColor
  | some finalColor =>
    if (DoesHit lightRay && m_EnableShadows) = true then finalColor * (1 / 2 : K)
    else finalColor

/-- The per-light loop of `Renderer::Render` over the lights of the scene. -/
def renderLights (sqrtf : K → K) (DoesHit : Ray K → Bool) (m_LightingMode : LightingMode)
    (m_EnableShadows : Bool) (closestHit : HitRecord K) (finalColor : ColorRGB K)
    (lights : List (Light K)) : ColorRGB K :=
  lights.foldl (renderLight sqrtf DoesHit m_LightingMode m_EnableShadows closestHit) finalColor

/-- `GeometryUtils::HitTest_Triangle` with a record (Utils.h 98-150): the
intersection with the plane of the triangle, then one sign test per edge. -/
def HitTest_Triangle (triangle : Triangle K) (ray : Ray K) (hitRecord : HitRecord K)
    (ignoreHitRecord : Bool) : Bool × HitRecord K :=
  let normalViewDot : K := Vector3.Dot triangle.normal ray.direction
  let normalViewDot : K := if ignoreHitRecord then normalViewDot * (-1) else normalViewDot
  let culled : Bool :=
    match triangle.cullMode with
    | TriangleCullMode.FrontFaceCulling => decide (normalViewDot ≤ 0)
    | TriangleCullMode.BackFaceCulling => decide (normalViewDot ≥ 0)
    | TriangleCullMode.NoCulling => decide (|normalViewDot| < FLT_EPSILON)
  if culled then (false, hitRecord) else
  let L : Vector3 K := triangle.v0 - ray.origin
  let t : K := Vector3.Dot L triangle.normal / Vector3.Dot ray.direction triangle.normal
  if t < ray.min ∨ t > ray.max then (false, hitRecord) else
  let intersection : Vector3 K := ray.origin + ray.direction * t
  let vertexVec : List (Vector3 K) := [triangle.v0, triangle.v1, triangle.v2]
  let nrVertices : Nat := vertexVec.length
  let outside : Bool := (List.range nrVertices).any (fun index =>
    let e : Vector3 K :=
      vertexVec.getD ((index + 1) % nrVertices) triangle.v0 - vertexVec.getD index triangle.v0
    let p : Vector3 K := intersection - vertexVec.getD index triangle.v0
    decide (Vector3.Dot (Vector3.Cross e p) triangle.normal < 0))
  if outside then (false, hitRecord) else
  let hitRecord : HitRecord K := { hitRecord with origin := intersection }
  let hitRecord : HitRecord K := { hitRecord with didHit := true }
  let hitRecord : HitRecord K := { hitRecord with normal := triangle.normal }
  let hitRecord : HitRecord K := { hitRecord with materialIndex := triangle.materialIndex }
  let hitRecord : HitRecord K := { hitRecord with t := t }
  (true, hitRecord)

/-! ## The OBJ parser (Utils.h, lines 410-476) -/

/-- The state of a `std::ifstream` that the parser can observe: the characters not
yet extracted and the state bits `eofbit` and `failbit`. -/
structure IfStream where
  rest : List Char
  eofbit : Bool
  failbit : Bool
deriving DecidableEq

/-- The line feed character, the delimiter of `ignore`. -/
def lineFeed : Char := Char.ofNat 10

/-- The function `isspace` of the C locale: space, tab, line feed, vertical tab, form
feed and carriage return. -/
def isSpace (c : Char) : Bool := c.toNat = 32 || (9 ≤ c.toNat && c.toNat ≤ 13)

namespace IfStream

/-- The member `good()`: neither `eofbit` nor `failbit` is set. -/
def good (s : IfStream) : Bool := !s.eofbit && !s.failbit

/-- The `sentry` of a formatted input function: a stream that is not good fails;
otherwise white space is skipped, and reaching the end of the file while skipping
sets `eofbit` and `failbit`. -/
def sentry (s : IfStream) : Bool × IfStream :=
  if s.good then
    if (s.rest.dropWhile isSpace).isEmpty then
      (false, { rest := [], eofbit := true, failbit := true })
    else (true, { s with rest := s.rest.dropWhile isSpace })
  else (false, { s with failbit := true })

/-- The extraction `file >> str` of a `std::string`: when the sentry fails the string
keeps its value; otherwise it receives the characters up to the next white space,
and `eofbit` is set when the end of the file stopped the extraction. -/
def readString (s : IfStream) (str : List Char) : IfStream × List Char :=
  if s.sentry.1 then
    ({ rest := s.sentry.2.rest.dropWhile (fun c => !isSpace c),
       eofbit := (s.sentry.2.rest.dropWhile (fun c => !isSpace c)).isEmpty,
       failbit := false },
     s.sentry.2.rest.takeWhile (fun c => !isSpace c))
  else (s.sentry.2, str)

/-- The extraction `file >> x` of a `float` written as a white-space delimited
numeral: when the sentry fails the variable keeps its value; otherwise the numeral
is converted by `parseFloat` (the conversion of the standard library), and a
numeral that does not convert stores zero and sets `failbit`. -/
def readFloat {K : Type} [Zero K] (parseFloat : List Char → Option K) (s : IfStream) (x : K) :
    IfStream × K :=
  if s.sentry.1 then
    match parseFloat (s.sentry.2.rest.takeWhile (fun c => !isSpace c)) with
    | some v =>
      ({ rest := s.sentry.2.rest.dropWhile (fun c => !isSpace c),
         eofbit := (s.sentry.2.rest.dropWhile (fun c => !isSpace c)).isEmpty,
         failbit := false }, v)
    | none =>
      ({ rest := s.sentry.2.rest.dropWhile (fun c => !isSpace c),
         eofbit := (s.sentry.2.rest.dropWhile (fun c => !isSpace c)).isEmpty,
         failbit := true }, 0)
  else (s.sentry.2, x)

/-- The characters left by `ignore(n, delim)` and whether the end of the file was
reached: up to `n` characters are discarded, the delimiter included. -/
def ignoreLoop (delim : Char) : Nat → List Char → List Char × Bool
  | 0, cs => (cs, false)
  | _ + 1, [] => ([], true)
  | n + 1, c :: cs => if c = delim then (cs, false) else ignoreLoop delim n cs

/-- The member `ignore(n, delim)`: on a stream that is not good it only sets
`failbit`. -/
def ignore (s : IfStream) (n : Nat) (delim : Char) : IfStream :=
  if s.good then
    { rest := (ignoreLoop delim n s.rest).1, eofbit := (ignoreLoop delim n s.rest).2,
      failbit := false }
  else { s with failbit := true }

end IfStream

/-- The conversion `(int)x` of a `float`: truncation towards zero. -/
def truncToInt [FloorRing K] (x : K) : Int := if 0 ≤ x then ⌊x⌋ else ⌈x⌉

/-- The reading loop of `Utils::ParseOBJ` (Utils.h 416-448) with `fuel` iterations
left.  `uninit` holds the indeterminate values of the three local floats of a
branch, which are declared without an initialiser; `none` is a loop that has not
ended within the fuel. -/
def parseLoop [FloorRing K] (parseFloat : List Char → Option K) (uninit : K × K × K) :
    Nat → IfStream → List Char → List (Vector3 K) → List Int →
      Option (List (Vector3 K) × List Int)
  | 0, _, _, _, _ => none
  | fuel + 1, file, sCommand, positions, indices =>
    if file.eofbit then some (positions, indices) else
    let r := file.readString sCommand
    let file := r.1
    let sCommand := r.2
    let step : IfStream × List (Vector3 K) × List Int :=
      if sCommand = [Char.ofNat 35] then (file, positions, indices)
      else if sCommand = ['v'] then
        let rx := file.readFloat parseFloat uninit.1
        let ry := rx.1.readFloat parseFloat uninit.2.1
        let rz := ry.1.readFloat parseFloat uninit.2.2
        (rz.1, positions ++ [⟨rx.2, ry.2, rz.2⟩], indices)
      else if sCommand = ['f'] then
        let r0 := file.readFloat parseFloat uninit.1
        let r1 := r0.1.readFloat parseFloat uninit.2.1
        let r2 := r1.1.readFloat parseFloat uninit.2.2
        (r2.1, positions,
          indices ++ [truncToInt r0.2 - 1, truncToInt r1.2 - 1, truncToInt r2.2 - 1])
      else (file, positions, indices)
    let file := step.1.ignore 1000 lineFeed
    if file.eofbit then some (step.2.1, step.2.2)
    else parseLoop parseFloat uninit fuel file sCommand step.2.1 step.2.2

/-- The loop `//Precompute normals` of `Utils::ParseOBJ` (Utils.h 451-473) over the
indices not yet visited; `none` where a vector is read out of range. -/
def precomputeNormals (sqrtf : K → K) (positions : List (Vector3 K)) :
    List Int → List (Vector3 K) → Option (List (Vector3 K))
  | [], normals => some normals
  | i0 :: i1 :: i2 :: rest, normals =>
    match vectorAt positions i0, vectorAt positions i1, vectorAt positions i2 with
    | some p0, some p1, some p2 =>
      precomputeNormals sqrtf positions rest
        (normals ++ [Vector3.Normalized sqrtf (Vector3.Cross (p1 - p0) (p2 - p0))])
    | _, _, _ => none
  | _, _ => none

/-- `Utils::ParseOBJ` (Utils.h 410-476).  `file` is the text of the file, `none` when
it cannot be opened; the three output vectors are returned next to the boolean
result; `none` is undefined behaviour or a reading loop that does not end. -/
def ParseOBJ [FloorRing K] (sqrtf : K → K) (parseFloat : List Char → Option K)
    (uninit : K × K × K) (file : Option (List Char)) (positions normals : List (Vector3 K))
    (indices : List Int) : Option (Bool × List (Vector3 K) × List (Vector3 K) × List Int) :=
  match file with
  | none => some (false, positions, normals, indices)
  | some text =>
    match parseLoop parseFloat uninit (text.length + 2)
        { rest := text, eofbit := false, failbit := false } [] positions indices with
    | none => none
    | some (positions, indices) =>
      match precomputeNormals sqrtf positions indices normals with
      | none => none
      | some normals => some (true, positions, normals, indices)

/-- The conversion of a one-digit numeral, enough for the example texts. -/
def parseDigit (cs : List Char) : Option ℚ :=
  match cs with
  | [c] => if 48 ≤ c.toNat ∧ c.toNat ≤ 57 then some ((c.toNat - 48 : Nat) : ℚ) else none
  | _ => none

/-- The text of three `v` lines and one `f` line, the last line without a line feed:
`v 0 0 0`, `v 1 0 0`, `v 0 1 0`, `f 1 2 3`. -/
def objTextUnterminated : List Char :=
  ['v', Char.ofNat 32, '0', Char.ofNat 32, '0', Char.ofNat 32, '0', Char.ofNat 10,
   'v', Char.ofNat 32, '1', Char.ofNat 32, '0', Char.ofNat 32, '0', Char.ofNat 10,
   'v', Char.ofNat 32, '0', Char.ofNat 32, '1', Char.ofNat 32, '0', Char.ofNat 10,
   'f', Char.ofNat 32, '1', Char.ofNat 32, '2', Char.ofNat 32, '3']

/-- The same text with every line, the last included, ended by a line feed. -/
def objText : List Char := objTextUnterminated ++ [Char.ofNat 10]

/-! ## The arithmetic of `float`

The definitions above run the code in exact arithmetic.  The definitions of this
section run the same source lines on the operations of the type `float` itself, kept
as a parameter: an arithmetic is a type of values with the operations and the
comparisons the hit tests use.  Nothing is assumed of the operations but the one law
of `<` stated with them, so what is proved of a test for every arithmetic holds of
the rounding, overflowing, NaN-producing arithmetic of IEEE-754 single precision,
which is the instance `binary32` below. -/

/-- The operations the hit tests use on values of the C++ type `float`: the
conversion of a constant of the program text, unary minus, `+ - * /`, `sqrtf`,
`abs`, and the comparisons `<` and `<=` (`a > b` is `b < a`, `a >= b` is `b <= a`).
The one law: `a < b` and `b < a` never hold together. -/
structure FloatArith (F : Type) where
  ofRat : ℚ → F
  neg : F → F
  add : F → F → F
  sub : F → F → F
  mul : F → F → F
  div : F → F → F
  sqrtf : F → F
  abs : F → F
  lt : F → F → Bool
  le : F → F → Bool
  lt_asymm : ∀ a b : F, lt a b = true → lt b a = false

namespace Binary32

/-- Round-to-nearest, ties-to-even, of the quotient `P / Q` of two naturals to a
natural. -/
def roundNat (P Q : Nat) : Nat :=
  let n := P / Q
  let r := P % Q
  if 2 * r < Q then n else if Q < 2 * r then n + 1 else if n % 2 = 0 then n else n + 1

/-- The position of the leading bit of `n`, found in at most `fuel` halvings. -/
def log2Aux : Nat → Nat → Nat
  | 0, _ => 0
  | fuel + 1, n => if 2 ≤ n then log2Aux fuel (n / 2) + 1 else 0

/-- The position of the leading bit of a positive natural:
`2 ^ log2 n ≤ n < 2 ^ (log2 n + 1)`. -/
def log2 (n : Nat) : Nat := log2Aux n n

/-- The exponent `e` of the binade of a positive rational `p / q`:
`2 ^ e ≤ p / q < 2 ^ (e + 1)`. -/
def floorLog2 (p q : Nat) : Int :=
  let e : Int := (log2 p : Int) - (log2 q : Int)
  if p * 2 ^ (-e).toNat < q * 2 ^ e.toNat then e - 1 else e

/-- The positive rational `p / q` rounded to IEEE-754 single precision (24
significant bits, least exponent `-126`, subnormals below it), round-to-nearest,
ties-to-even; `none` where the rounded value exceeds the largest finite `float`. -/
def roundPos (p q : Nat) : Option ℚ :=
  let e : Int := max (floorLog2 p q) (-126)
  let sh : Int := e - 23
  let n : Nat := roundNat (p * 2 ^ (-sh).toNat) (q * 2 ^ sh.toNat)
  if 2 ^ 128 * 2 ^ (-sh).toNat ≤ n * 2 ^ sh.toNat then none
  else some (mkRat (n * 2 ^ sh.toNat) (2 ^ (-sh).toNat))

/-- The rational `x` rounded to IEEE-754 single precision: overflow gives an
infinity, underflow a zero (the sign of a zero is not kept). -/
def round (x : ℚ) : FloatVal ℚ :=
  if x = 0 then FloatVal.finite 0
  else
    match roundPos x.num.natAbs x.den with
    | none => if 0 < x then FloatVal.posInf else FloatVal.negInf
    | some m => FloatVal.finite (if 0 < x then m else -m)

/-- IEEE-754 unary minus. -/
def neg : FloatVal ℚ → FloatVal ℚ
  | FloatVal.nan => FloatVal.nan
  | FloatVal.negInf => FloatVal.posInf
  | FloatVal.posInf => FloatVal.negInf
  | FloatVal.finite a => FloatVal.finite (-a)

/-- IEEE-754 single-precision addition: the exact sum, rounded; `∞ + (−∞)` is NaN. -/
def add : FloatVal ℚ → FloatVal ℚ → FloatVal ℚ
  | FloatVal.nan, _ => FloatVal.nan
  | _, FloatVal.nan => FloatVal.nan
  | FloatVal.posInf, FloatVal.negInf => FloatVal.nan
  | FloatVal.negInf, FloatVal.posInf => FloatVal.nan
  | FloatVal.posInf, _ => FloatVal.posInf
  | FloatVal.negInf, _ => FloatVal.negInf
  | _, FloatVal.posInf => FloatVal.posInf
  | _, FloatVal.negInf => FloatVal.negInf
  | FloatVal.finite a, FloatVal.finite b => round (a + b)

/-- IEEE-754 single-precision subtraction, `a + (−b)`. -/
def sub (a b : FloatVal ℚ) : FloatVal ℚ := add a (neg b)

/-- The sign of a value that is not NaN, as the sign of a rational: zero counts as
positive (`+0`). -/
def sign : FloatVal ℚ → Bool
  | FloatVal.negInf => false
  | FloatVal.finite a => decide (0 ≤ a)
  | _ => true

/-- The infinity of the given sign. -/
def inf (positive : Bool) : FloatVal ℚ :=
  if positive then FloatVal.posInf else FloatVal.negInf

/-- IEEE-754 single-precision multiplication: the exact product, rounded; `0 · ∞`
is NaN. -/
def mul : FloatVal ℚ → FloatVal ℚ → FloatVal ℚ
  | FloatVal.nan, _ => FloatVal.nan
  | _, FloatVal.nan => FloatVal.nan
  | FloatVal.finite a, FloatVal.finite b => round (a * b)
  | FloatVal.finite a, b => if a = 0 then FloatVal.nan else inf (decide (0 < a) == sign b)
  | a, FloatVal.finite b => if b = 0 then FloatVal.nan else inf (sign a == decide (0 < b))
  | a, b => inf (sign a == sign b)

/-- IEEE-754 single-precision division: the exact quotient, rounded; `0 / 0` and
`∞ / ∞` are NaN, a non-zero number over zero is an infinity, a finite number over an
infinity is zero. -/
def div : FloatVal ℚ → FloatVal ℚ → FloatVal ℚ
  | FloatVal.nan, _ => FloatVal.nan
  | _, FloatVal.nan => FloatVal.nan
  | FloatVal.finite a, FloatVal.finite b =>
    if b = 0 then (if a = 0 then FloatVal.nan else inf (decide (0 < a)))
    else round (a / b)
  | FloatVal.finite _, _ => FloatVal.finite 0
  | a, FloatVal.finite b => inf (sign a == decide (0 ≤ b))
  | _, _ => FloatVal.nan

/-- The greatest `r` below `2 ^ bits` with `r * r ≤ n`, found bit by bit from the
top, starting from `r` (a multiple of `2 ^ bits`). -/
def isqrtAux (n : Nat) : Nat → Nat → Nat
  | 0, r => r
  | bits + 1, r =>
    isqrtAux n bits (if (r + 2 ^ bits) * (r + 2 ^ bits) ≤ n then r + 2 ^ bits else r)

/-- The integer square root: the greatest `r` with `r * r ≤ n`. -/
def isqrt (n : Nat) : Nat := isqrtAux n (log2 n / 2 + 1) 0

/-- The correctly rounded single-precision square root of a positive rational
`p / q`: the integer square root of `p / q` scaled by a power of four carries more
than 25 bits, so that it, or the half-integer above it where the root is not exact,
rounds as the root does. -/
def sqrtPos (p q : Nat) : FloatVal ℚ :=
  let k : Nat := 28 + log2 q
  let N : Nat := p * 4 ^ k / q
  let n : Nat := isqrt N
  let exact : Bool := decide (p * 4 ^ k % q = 0 ∧ n * n = N)
  round (mkRat (if exact then 2 * n else 2 * n + 1) (2 ^ (k + 1)))

/-- IEEE-754 `sqrtf`: NaN below zero. -/
def sqrtf : FloatVal ℚ → FloatVal ℚ
  | FloatVal.nan => FloatVal.nan
  | FloatVal.negInf => FloatVal.nan
  | FloatVal.posInf => FloatVal.posInf
  | FloatVal.finite a =>
    if a < 0 then FloatVal.nan else if a = 0 then FloatVal.finite 0
    else sqrtPos a.num.natAbs a.den

/-- The absolute value of a `float`. -/
def abs : FloatVal ℚ → FloatVal ℚ
  | FloatVal.nan => FloatVal.nan
  | FloatVal.negInf => FloatVal.posInf
  | FloatVal.posInf => FloatVal.posInf
  | FloatVal.finite a => FloatVal.finite |a|

end Binary32

namespace Fp

variable {F : Type}

/-- Modelled from the spec: `operator+` of `Vector3` on `float` components. -/
def add (A : FloatArith F) (a b : Vector3 F) : Vector3 F :=
  ⟨A.add a.x b.x, A.add a.y b.y, A.add a.z b.z⟩

/-- Modelled from the spec: `operator-` of `Vector3` on `float` components. -/
def sub (A : FloatArith F) (a b : Vector3 F) : Vector3 F :=
  ⟨A.sub a.x b.x, A.sub a.y b.y, A.sub a.z b.z⟩

/-- Modelled from the spec: `scalar * vector` of `Vector3` on `float` components. -/
def scale (A : FloatArith F) (s : F) (a : Vector3 F) : Vector3 F :=
  ⟨A.mul s a.x, A.mul s a.y, A.mul s a.z⟩

/-- Modelled from the spec: `vector * scalar` of `Vector3` on `float` components. -/
def scaleRight (A : FloatArith F) (a : Vector3 F) (s : F) : Vector3 F :=
  ⟨A.mul a.x s, A.mul a.y s, A.mul a.z s⟩

/-- Modelled from the spec: `Vector3::Dot` on `float` components, the three products
added from left to right. -/
def Dot (A : FloatArith F) (a b : Vector3 F) : F :=
  A.add (A.add (A.mul a.x b.x) (A.mul a.y b.y)) (A.mul a.z b.z)

/-- Modelled from the spec: `Vector3::Cross` on `float` components. -/
def Cross (A : FloatArith F) (a b : Vector3 F) : Vector3 F :=
  ⟨A.sub (A.mul a.y b.z) (A.mul a.z b.y), A.sub (A.mul a.z b.x) (A.mul a.x b.z),
    A.sub (A.mul a.x b.y) (A.mul a.y b.x)⟩

/-- Modelled from the spec: `Vector3::Magnitude` on `float` components. -/
def Magnitude (A : FloatArith F) (a : Vector3 F) : F := A.sqrtf (Dot A a a)

/-- Modelled from the spec: `Vector3::Normalized` on `float` components, each
component divided by the length. -/
def Normalized (A : FloatArith F) (a : Vector3 F) : Vector3 F :=
  ⟨A.div a.x (Magnitude A a), A.div a.y (Magnitude A a), A.div a.z (Magnitude A a)⟩

/-- Modelled from the spec: the square `Square(x)` of `Math.h` on a `float`. -/
def Square (A : FloatArith F) (x : F) : F := A.mul x x

/-- `GeometryUtils::HitTest_Sphere` (Utils.h 14-51) on the operations of `float`. -/
def HitTest_Sphere (A : FloatArith F) (sphere : Sphere F) (ray : Ray F)
    (hitRecord : HitRecord F) (_ignoreHitRecord : Bool) : Bool × HitRecord F :=
  let cameraToSphere : Vector3 F := sub A ray.origin sphere.origin
  let b : F := Dot A (scale A (A.ofRat 2) ray.direction) cameraToSphere
  let c : F := A.sub (Dot A cameraToSphere cameraToSphere) (Square A sphere.radius)
  let discriminant : F := A.sub (Square A b) (A.mul (A.ofRat 4) c)
  let hitRecord : HitRecord F := { hitRecord with didHit := A.lt (A.ofRat 0) discriminant }
  if hitRecord.didHit = false then (false, hitRecord) else
  let t : F := A.mul (A.sub (A.neg b) (A.sqrtf discriminant)) (A.ofRat (1 / 2))
  let hitRecord : HitRecord F := { hitRecord with didHit := A.lt ray.min t && A.lt t ray.max }
  if hitRecord.didHit = false then (false, hitRecord) else
  let t : F :=
    if A.lt t ray.min then A.mul (A.add (A.neg b) (A.sqrtf discriminant)) (A.ofRat (1 / 2)) else t
  let hitRecord : HitRecord F :=
    { hitRecord with origin := add A ray.origin (scale A t ray.direction) }
  let hitRecord : HitRecord F :=
    { hitRecord with normal := Normalized A (sub A hitRecord.origin sphere.origin) }
  let hitRecord : HitRecord F := { hitRecord with t := t }
  let hitRecord : HitRecord F := { hitRecord with materialIndex := sphere.materialIndex }
  (true, hitRecord)

/-- `GeometryUtils::HitTest_Plane` (Utils.h 61-88) on the operations of `float`. -/
def HitTest_Plane (A : FloatArith F) (plane : Plane F) (ray : Ray F) (hitRecord : HitRecord F)
    (_ignoreHitRecord : Bool) : Bool × HitRecord F :=
  let unitProjection : F := Dot A ray.direction plane.normal
  if A.le (A.ofRat 0) unitProjection then (false, hitRecord) else
  let height : F := Dot A (sub A plane.origin ray.origin) plane.normal
  let t : F := A.div height unitProjection
  let hitRecord : HitRecord F := { hitRecord with didHit := A.lt ray.min t && A.lt t ray.max }
  if hitRecord.didHit = false then (false, hitRecord) else
  let hitRecord : HitRecord F :=
    { hitRecord with origin := add A ray.origin (scale A t ray.direction) }
  let hitRecord : HitRecord F := { hitRecord with normal := plane.normal }
  let hitRecord : HitRecord F := { hitRecord with materialIndex := plane.materialIndex }
  let hitRecord : HitRecord F := { hitRecord with t := t }
  (true, hitRecord)

/-- `GeometryUtils::HitTest_Triangle` with a record (Utils.h 98-150) on the
operations of `float`: the intersection with the plane of the triangle, then one
sign test per edge. -/
def HitTest_Triangle (A : FloatArith F) (triangle : Triangle F) (ray : Ray F)
    (hitRecord : HitRecord F) (ignoreHitRecord : Bool) : Bool × HitRecord F :=
  let normalViewDot : F := Dot A triangle.normal ray.direction
  let normalViewDot : F :=
    if ignoreHitRecord then A.mul normalViewDot (A.ofRat (-1)) else normalViewDot
  let culled : Bool :=
    match triangle.cullMode with
    | TriangleCullMode.FrontFaceCulling => A.le normalViewDot (A.ofRat 0)
    | TriangleCullMode.BackFaceCulling => A.le (A.ofRat 0) normalViewDot
    | TriangleCullMode.NoCulling => A.lt (A.abs normalViewDot) (A.ofRat FLT_EPSILON)
  if culled then (false, hitRecord) else
  let L : Vector3 F := sub A triangle.v0 ray.origin
  let t : F := A.div (Dot A L triangle.normal) (Dot A ray.direction triangle.normal)
  if A.lt t ray.min || A.lt ray.max t then (false, hitRecord) else
  let intersection : Vector3 F := add A ray.origin (scaleRight A ray.direction t)
  let vertexVec : List (Vector3 F) := [triangle.v0, triangle.v1, triangle.v2]
  let nrVertices : Nat := vertexVec.length
  let outside : Bool := (List.range nrVertices).any (fun index =>
    let e : Vector3 F :=
      sub A (vertexVec.getD ((index + 1) % nrVertices) triangle.v0)
        (vertexVec.getD index triangle.v0)
    let p : Vector3 F := sub A intersection (vertexVec.getD index triangle.v0)
    A.lt (Dot A (Cross A e p) triangle.normal) (A.ofRat 0))
  if outside then (false, hitRecord) else
  let hitRecord : HitRecord F := { hitRecord with origin := intersection }
  let hitRecord : HitRecord F := { hitRecord with didHit := true }
  let hitRecord : HitRecord F := { hitRecord with normal := triangle.normal }
  let hitRecord : HitRecord F := { hitRecord with materialIndex := triangle.materialIndex }
  let hitRecord : HitRecord F := { hitRecord with t := t }
  (true, hitRecord)

/-- `GeometryUtils::HitTest_Triangle_Moller` on a `Triangle` (Utils.h 152-221) on the
operations of `float`. -/
def HitTest_Triangle_Moller (A : FloatArith F) (triangle : Triangle F) (ray : Ray F)
    (hitRecord : HitRecord F) (ignoreHitRecord : Bool) : Bool × HitRecord F :=
  let normalViewDot : F := Dot A triangle.normal ray.direction
  let normalViewDot : F :=
    if ignoreHitRecord then A.mul normalViewDot (A.ofRat (-1)) else normalViewDot
  let culled : Bool :=
    match triangle.cullMode with
    | TriangleCullMode.FrontFaceCulling => A.le normalViewDot (A.ofRat 0)
    | TriangleCullMode.BackFaceCulling => A.le (A.ofRat 0) normalViewDot
    | TriangleCullMode.NoCulling => A.lt (A.abs normalViewDot) (A.ofRat FLT_EPSILON)
  if culled then (false, hitRecord) else
  let edge1 : Vector3 F := sub A triangle.v1 triangle.v0
  let edge2 : Vector3 F := sub A triangle.v2 triangle.v0
  let pVec : Vector3 F := Cross A ray.direction edge2
  let det : F := Dot A edge1 pVec
  if A.lt (A.neg (A.ofRat FLT_EPSILON)) det && A.lt det (A.ofRat FLT_EPSILON) then
    (false, hitRecord) else
  let invDet : F := A.div (A.ofRat 1) det
  let tVec : Vector3 F := sub A ray.origin triangle.v0
  let u : F := A.mul (Dot A tVec pVec) invDet
  if A.lt u (A.ofRat 0) || A.lt (A.ofRat 1) u then (false, hitRecord) else
  let qVec : Vector3 F := Cross A tVec edge1
  let v : F := A.mul (Dot A ray.direction qVec) invDet
  if A.lt v (A.ofRat 0) || A.lt (A.ofRat 1) (A.add u v) then (false, hitRecord) else
  let t : F := A.mul (Dot A edge2 qVec) invDet
  if A.lt t ray.min || A.lt ray.max t then (false, hitRecord) else
  let hitRecord : HitRecord F :=
    { hitRecord with
      origin := add A (add A (scale A (A.sub (A.sub (A.ofRat 1) u) v) triangle.v0)
        (scale A u triangle.v1)) (scale A v triangle.v2) }
  let hitRecord : HitRecord F := { hitRecord with didHit := true }
  let hitRecord : HitRecord F := { hitRecord with normal := triangle.normal }
  let hitRecord : HitRecord F := { hitRecord with materialIndex := triangle.materialIndex }
  let hitRecord : HitRecord F := { hitRecord with t := t }
  (true, hitRecord)

/-- `GeometryUtils::HitTest_Triangle_Moller` on raw vertices (Utils.h 223-294) on the
operations of `float`. -/
def HitTest_Triangle_Moller_raw (A : FloatArith F) (v0 v1 v2 normal : Vector3 F)
    (cullmode : TriangleCullMode) (materialIndex : Nat) (ray : Ray F) (hitRecord : HitRecord F)
    (ignoreHitRecord : Bool) : Bool × HitRecord F :=
  let normalViewDot : F := Dot A normal ray.direction
  let normalViewDot : F :=
    if ignoreHitRecord then A.mul normalViewDot (A.ofRat (-1)) else normalViewDot
  let culled : Bool :=
    match cullmode with
    | TriangleCullMode.FrontFaceCulling => A.le normalViewDot (A.ofRat 0)
    | TriangleCullMode.BackFaceCulling => A.le (A.ofRat 0) normalViewDot
    | TriangleCullMode.NoCulling => A.lt (A.abs normalViewDot) (A.ofRat FLT_EPSILON)
  if culled then (false, hitRecord) else
  let edge1 : Vector3 F := sub A v1 v0
  let edge2 : Vector3 F := sub A v2 v0
  let pVec : Vector3 F := Cross A ray.direction edge2
  let det : F := Dot A edge1 pVec
  if A.lt (A.abs det) (A.ofRat FLT_EPSILON) then (false, hitRecord) else
  let invDet : F := A.div (A.ofRat 1) det
  let tVec : Vector3 F := sub A ray.origin v0
  let u : F := A.mul (Dot A tVec pVec) invDet
  if A.lt u (A.ofRat 0) || A.lt (A.ofRat 1) u then (false, hitRecord) else
  let qVec : Vector3 F := Cross A tVec edge1
  let v : F := A.mul (Dot A ray.direction qVec) invDet
  if A.lt v (A.ofRat 0) || A.lt (A.ofRat 1) (A.add u v) then (false, hitRecord) else
  let t : F := A.mul (Dot A edge2 qVec) invDet
  if A.lt t ray.min || A.lt ray.max t then (false, hitRecord) else
  let hitRecord : HitRecord F :=
    { hitRecord with
      origin := add A (add A (scale A (A.sub (A.sub (A.ofRat 1) u) v) v0) (scale A u v1))
        (scale A v v2) }
  let hitRecord : HitRecord F := { hitRecord with didHit := true }
  let hitRecord : HitRecord F := { hitRecord with normal := normal }
  let hitRecord : HitRecord F := { hitRecord with materialIndex := materialIndex }
  let hitRecord : HitRecord F := { hitRecord with t := t }
  (true, hitRecord)

/-- The function `std::min(a, b)` on `float`, which is `(b < a) ? b : a`. -/
def std_min (A : FloatArith F) (a b : F) : F := if A.lt b a then b else a

/-- The function `std::max(a, b)` on `float`, which is `(a < b) ? b : a`. -/
def std_max (A : FloatArith F) (a b : F) : F := if A.lt a b then b else a

/-- `GeometryUtils::SlabTest_TriangleMesh` (Utils.h 305-326) on the operations of
`float`. -/
def SlabTest_TriangleMesh (A : FloatArith F) (mesh : TriangleMesh F) (ray : Ray F) : Bool :=
  let tx1 : F := A.div (A.sub mesh.transformedMinAABB.x ray.origin.x) ray.direction.x
  let tx2 : F := A.div (A.sub mesh.transformedMaxAABB.x ray.origin.x) ray.direction.x
  let tmin : F := std_min A tx1 tx2
  let tmax : F := std_max A tx1 tx2
  let ty1 : F := A.div (A.sub mesh.transformedMinAABB.y ray.origin.y) ray.direction.y
  let ty2 : F := A.div (A.sub mesh.transformedMaxAABB.y ray.origin.y) ray.direction.y
  let tmin : F := std_max A tmin (std_min A ty1 ty2)
  let tmax : F := std_min A tmax (std_max A ty1 ty2)
  let tz1 : F := A.div (A.sub mesh.transformedMinAABB.z ray.origin.z) ray.direction.z
  let tz2 : F := A.div (A.sub mesh.transformedMaxAABB.z ray.origin.z) ray.direction.z
  let tmin : F := std_max A tmin (std_min A tz1 tz2)
  let tmax : F := std_min A tmax (std_max A tz1 tz2)
  A.lt (A.ofRat 0) tmax && A.le tmin tmax

/-! ### The values the tests compute -/

/-- The coefficient `b` as the sphere test computes it (Utils.h 19-20). -/
def sphereB (A : FloatArith F) (sphere : Sphere F) (ray : Ray F) : F :=
  Dot A (scale A (A.ofRat 2) ray.direction) (sub A ray.origin sphere.origin)

/-- The coefficient `c` as the sphere test computes it (Utils.h 19-21). -/
def sphereC (A : FloatArith F) (sphere : Sphere F) (ray : Ray F) : F :=
  A.sub (Dot A (sub A ray.origin sphere.origin) (sub A ray.origin sphere.origin))
    (Square A sphere.radius)

/-- The discriminant as the sphere test computes it (Utils.h 23). -/
def sphereDiscriminant (A : FloatArith F) (sphere : Sphere F) (ray : Ray F) : F :=
  A.sub (Square A (sphereB A sphere ray)) (A.mul (A.ofRat 4) (sphereC A sphere ray))

/-- The near root as the sphere test computes it (Utils.h 33). -/
def sphereNearRoot (A : FloatArith F) (sphere : Sphere F) (ray : Ray F) : F :=
  A.mul (A.sub (A.neg (sphereB A sphere ray)) (A.sqrtf (sphereDiscriminant A sphere ray)))
    (A.ofRat (1 / 2))

/-- The point `ray.origin + t * ray.direction` as the hit tests compute it
(Utils.h 45, 82). -/
def pointAt (A : FloatArith F) (ray : Ray F) (t : F) : Vector3 F :=
  add A ray.origin (scale A t ray.direction)

/-- The projection `unitProjection` as the plane test computes it (Utils.h 66). -/
def planeProjection (A : FloatArith F) (plane : Plane F) (ray : Ray F) : F :=
  Dot A ray.direction plane.normal

/-- The parameter `t` as the plane test computes it (Utils.h 73-75). -/
def planeT (A : FloatArith F) (plane : Plane F) (ray : Ray F) : F :=
  A.div (Dot A (sub A plane.origin ray.origin) plane.normal) (planeProjection A plane ray)

/-- What the cull step of the triangle tests decides (Utils.h 102-122, 156-176,
229-249): `true` where the `switch` returns false. -/
def cullStep (A : FloatArith F) (normal : Vector3 F) (cullMode : TriangleCullMode) (ray : Ray F)
    (ignoreHitRecord : Bool) : Bool :=
  let normalViewDot : F := Dot A normal ray.direction
  let normalViewDot : F :=
    if ignoreHitRecord then A.mul normalViewDot (A.ofRat (-1)) else normalViewDot
  match cullMode with
  | TriangleCullMode.FrontFaceCulling => A.le normalViewDot (A.ofRat 0)
  | TriangleCullMode.BackFaceCulling => A.le (A.ofRat 0) normalViewDot
  | TriangleCullMode.NoCulling => A.lt (A.abs normalViewDot) (A.ofRat FLT_EPSILON)

/-- The determinant `det` as the Möller–Trumbore test computes it (Utils.h 179-186). -/
def mollerDet (A : FloatArith F) (v0 v1 v2 : Vector3 F) (ray : Ray F) : F :=
  Dot A (sub A v1 v0) (Cross A ray.direction (sub A v2 v0))

/-- The coordinate `u` as the Möller–Trumbore test computes it (Utils.h 179-196). -/
def mollerU (A : FloatArith F) (v0 v1 v2 : Vector3 F) (ray : Ray F) : F :=
  A.mul (Dot A (sub A ray.origin v0) (Cross A ray.direction (sub A v2 v0)))
    (A.div (A.ofRat 1) (mollerDet A v0 v1 v2 ray))

/-- The coordinate `v` as the Möller–Trumbore test computes it (Utils.h 179-204). -/
def mollerV (A : FloatArith F) (v0 v1 v2 : Vector3 F) (ray : Ray F) : F :=
  A.mul (Dot A ray.direction (Cross A (sub A ray.origin v0) (sub A v1 v0)))
    (A.div (A.ofRat 1) (mollerDet A v0 v1 v2 ray))

/-- The parameter `t` as the Möller–Trumbore test computes it (Utils.h 179-208). -/
def mollerT (A : FloatArith F) (v0 v1 v2 : Vector3 F) (ray : Ray F) : F :=
  A.mul (Dot A (sub A v2 v0) (Cross A (sub A ray.origin v0) (sub A v1 v0)))
    (A.div (A.ofRat 1) (mollerDet A v0 v1 v2 ray))

/-- The point `(1 - u - v) * v0 + u * v1 + v * v2` as the Möller–Trumbore test
computes it (Utils.h 214). -/
def mollerPoint (A : FloatArith F) (v0 v1 v2 : Vector3 F) (ray : Ray F) : Vector3 F :=
  add A
    (add A
      (scale A (A.sub (A.sub (A.ofRat 1) (mollerU A v0 v1 v2 ray)) (mollerV A v0 v1 v2 ray)) v0)
      (scale A (mollerU A v0 v1 v2 ray) v1))
    (scale A (mollerV A v0 v1 v2 ray) v2)

/-- The determinant test of the `Triangle` variant of the Möller–Trumbore test
(Utils.h 188): `det > -FLT_EPSILON && det < FLT_EPSILON`. -/
def mollerDetNearZero (A : FloatArith F) (v0 v1 v2 : Vector3 F) (ray : Ray F) : Bool :=
  A.lt (A.neg (A.ofRat FLT_EPSILON)) (mollerDet A v0 v1 v2 ray)
    && A.lt (mollerDet A v0 v1 v2 ray) (A.ofRat FLT_EPSILON)

/-- The determinant test of the raw-vertex variant of the Möller–Trumbore test
(Utils.h 261): `abs(det) < FLT_EPSILON`. -/
def mollerDetNearZero_raw (A : FloatArith F) (v0 v1 v2 : Vector3 F) (ray : Ray F) : Bool :=
  A.lt (A.abs (mollerDet A v0 v1 v2 ray)) (A.ofRat FLT_EPSILON)

/-- The three range tests of the Möller–Trumbore test (Utils.h 197, 205, 211):
`u < 0 || u > 1.f`, `v < 0 || u + v > 1.f` and `t < ray.min || t > ray.max`; `true`
where one of them returns false. -/
def mollerOutside (A : FloatArith F) (v0 v1 v2 : Vector3 F) (ray : Ray F) : Bool :=
  (A.lt (mollerU A v0 v1 v2 ray) (A.ofRat 0) || A.lt (A.ofRat 1) (mollerU A v0 v1 v2 ray))
    || (A.lt (mollerV A v0 v1 v2 ray) (A.ofRat 0)
        || A.lt (A.ofRat 1) (A.add (mollerU A v0 v1 v2 ray) (mollerV A v0 v1 v2 ray)))
    || (A.lt (mollerT A v0 v1 v2 ray) ray.min || A.lt ray.max (mollerT A v0 v1 v2 ray))

/-- The components of a vector converted to `float`. -/
def ofVector (A : FloatArith F) (a : Vector3 ℚ) : Vector3 F :=
  ⟨A.ofRat a.x, A.ofRat a.y, A.ofRat a.z⟩

/-- A ray converted to `float`. -/
def ofRay (A : FloatArith F) (ray : Ray ℚ) : Ray F :=
  { origin := ofVector A ray.origin, direction := ofVector A ray.direction,
    min := A.ofRat ray.min, max := A.ofRat ray.max }

/-- A record converted to `float`. -/
def ofHitRecord (A : FloatArith F) (hitRecord : HitRecord ℚ) : HitRecord F :=
  { origin := ofVector A hitRecord.origin, normal := ofVector A hitRecord.normal,
    t := A.ofRat hitRecord.t, didHit := hitRecord.didHit,
    materialIndex := hitRecord.materialIndex }

/-- A sphere converted to `float`. -/
def ofSphere (A : FloatArith F) (sphere : Sphere ℚ) : Sphere F :=
  { origin := ofVector A sphere.origin, radius := A.ofRat sphere.radius,
    materialIndex := sphere.materialIndex }

/-- A plane converted to `float`. -/
def ofPlane (A : FloatArith F) (plane : Plane ℚ) : Plane F :=
  { origin := ofVector A plane.origin, normal := ofVector A plane.normal,
    materialIndex := plane.materialIndex }

/-- A triangle converted to `float`. -/
def ofTriangle (A : FloatArith F) (triangle : Triangle ℚ) : Triangle F :=
  { v0 := ofVector A triangle.v0, v1 := ofVector A triangle.v1, v2 := ofVector A triangle.v2,
    normal := ofVector A triangle.normal, cullMode := triangle.cullMode,
    materialIndex := triangle.materialIndex }

/-- A mesh converted to `float`. -/
def ofMesh (A : FloatArith F) (mesh : TriangleMesh ℚ) : TriangleMesh F :=
  { positions := mesh.positions.map (ofVector A), normals := mesh.normals.map (ofVector A),
    indices := mesh.indices, materialIndex := mesh.materialIndex, cullMode := mesh.cullMode,
    transformedPositions := mesh.transformedPositions.map (ofVector A),
    transformedNormals := mesh.transformedNormals.map (ofVector A),
    transformedMinAABB := ofVector A mesh.transformedMinAABB,
    transformedMaxAABB := ofVector A mesh.transformedMaxAABB }

end Fp

/-- The arithmetic of IEEE-754 single precision, the `float` of the compilers the
program is built with: every operation returns the exact result rounded to nearest,
ties to even, with overflow to the infinities and the NaN rules of the standard; no
intermediate result is kept in a wider format and no multiplication is fused with an
addition.  Zero has one sign (`+0`). -/
def binary32 : FloatArith (FloatVal ℚ) where
  ofRat := Binary32.round
  neg := Binary32.neg
  add := Binary32.add
  sub := Binary32.sub
  mul := Binary32.mul
  div := Binary32.div
  sqrtf := Binary32.sqrtf
  abs := Binary32.abs
  lt := FloatVal.lt
  le := fun a b => FloatVal.ge b a
  lt_asymm := by
    intro a b h
    cases a <;> cases b <;> simp_all [FloatVal.lt]
    exact le_of_lt h

/-! ### Inputs of the examples in single precision -/

/-- A ray along `+z` from `(0, 0, −4097)`, towards the unit sphere. -/
def rayFromFarAway : Ray ℚ :=
  { origin := ⟨0, 0, -4097⟩, direction := ⟨0, 0, 1⟩, min := 1 / 1024, max := 10000 }

/-- A ray from `(1, 2, −3)` towards the plane `z = 0`; the `z` component of its
direction is the `float` nearest to `0.7`. -/
def rayAcrossGroundPlane : Ray ℚ :=
  { origin := ⟨1, 2, -3⟩, direction := ⟨1 / 4, 1 / 2, 11744051 / 16777216⟩, min := 1 / 1024,
    max := 10000 }

/-- A ray onto the edge `v0 v1` of `unitTriangle`, which it meets in `(1/16, 0, 0)`
at `t = 1/7`. -/
def rayOntoEdgeOfUnitTriangle : Ray ℚ :=
  { origin := ⟨-7 / 16, 3 / 16, 1 / 16⟩, direction := ⟨7 / 2, -21 / 16, -7 / 16⟩, min := 1 / 1024,
    max := 10000 }

/-- A triangle whose legs have the length of the `float` nearest to `10²⁰`. -/
def hugeTriangle : Triangle ℚ :=
  { v0 := ⟨0, 0, 0⟩, v1 := ⟨100000002004087734272, 0, 0⟩, v2 := ⟨0, 100000002004087734272, 0⟩,
    normal := ⟨0, 0, 1⟩, cullMode := TriangleCullMode.NoCulling, materialIndex := 3 }

/-- A ray along `−z` from one unit above the plane of `hugeTriangle`; its origin is
`(−c, −c, 1)` for `c` the `float` nearest to `10¹⁹`. -/
def rayOntoHugeTriangle : Ray ℚ :=
  { origin := ⟨-9999999980506447872, -9999999980506447872, 1⟩, direction := ⟨0, 0, -1⟩,
    min := 1 / 1024, max := 10000 }

/-- A ray along `+z` from `(1/2, 0, −5)`, towards the unit sphere. -/
def rayOffAxis : Ray ℚ :=
  { origin := ⟨1 / 2, 0, -5⟩, direction := ⟨0, 0, 1⟩, min := 1 / 1024, max := 10000 }

/-- The triangle `(−3, 2, 0)`, `(3, −3, 0)`, `(0, 4, 0)` with normal `+z`; its
centroid is `(0, 1, 0)`. -/
def wideTriangle : Triangle ℚ :=
  { v0 := ⟨-3, 2, 0⟩, v1 := ⟨3, -3, 0⟩, v2 := ⟨0, 4, 0⟩, normal := ⟨0, 0, 1⟩,
    cullMode := TriangleCullMode.NoCulling, materialIndex := 3 }

/-- A ray along `−z` from `s = 5095163/262144` above the centroid of
`wideTriangle`. -/
def rayOntoWideTriangle : Ray ℚ :=
  { origin := ⟨0, 1, 5095163 / 262144⟩, direction := ⟨0, 0, -1⟩, min := 1 / 1024, max := 10000 }

/-- A mesh without faces whose world-space bounding box is flat on the x and on the
y axis: the segment `{a} × {b} × [−1, 1]` with `a = 2562569/2²¹`, `b = 6445303/2²²`. -/
def thinBoxMesh : TriangleMesh ℚ :=
  { positions := [], normals := [], indices := [], materialIndex := 0,
    cullMode := TriangleCullMode.NoCulling, transformedPositions := [],
    transformedNormals := [], transformedMinAABB := ⟨2562569 / 2097152, 6445303 / 4194304, -1⟩,
    transformedMaxAABB := ⟨2562569 / 2097152, 6445303 / 4194304, 1⟩ }

/-- A ray towards the centre of the box of `thinBoxMesh`: its direction is one third
of the vector from its origin to the centre `(2562569/2²¹, 6445303/2²², 0)`. -/
def rayTowardsThinBox : Ray ℚ :=
  { origin := ⟨2464265 / 2097152, -8599099 / 8388608, -3⟩,
    direction := ⟨1 / 64, 7163235 / 8388608, 1⟩, min := 1 / 1024, max := 10000 }

/-- Exact arithmetic as an arithmetic of `float`: the operations of a linearly
ordered field, with the square root a parameter.  The definitions of the first
sections are the tests on this arithmetic. -/
def exactArith (sqrtf : K → K) : FloatArith K where
  ofRat := fun q => (q : K)
  neg := fun a => -a
  add := fun a b => a + b
  sub := fun a b => a - b
  mul := fun a b => a * b
  div := fun a b => a / b
  sqrtf := sqrtf
  abs := fun a => |a|
  lt := fun a b => decide (a < b)
  le := fun a b => decide (a ≤ b)
  lt_asymm := by
    intro a b h
    simp only [decide_eq_true_eq] at h
    simp only [decide_eq_false_iff_not, not_lt]
    exact le_of_lt h

/-! # Theorems -/

/-! ## Vector algebra, unfolded -/

theorem Vector3.sub_def (a b : Vector3 K) : a - b = ⟨a.x - b.x, a.y - b.y, a.z - b.z⟩ := rfl

theorem Vector3.add_def (a b : Vector3 K) : a + b = ⟨a.x + b.x, a.y + b.y, a.z + b.z⟩ := rfl

theorem Vector3.smul_def (s : K) (a : Vector3 K) :
    s * a = (⟨s * a.x, s * a.y, s * a.z⟩ : Vector3 K) := rfl

theorem Vector3.muls_def (a : Vector3 K) (s : K) :
    a * s = (⟨s * a.x, s * a.y, s * a.z⟩ : Vector3 K) := rfl

/-! ## Sphere -/

/-- The discriminant the code computes is the discriminant of the specification. -/
theorem sphere_code_discriminant (sphere : Sphere K) (ray : Ray K) :
    Square (Vector3.Dot ((2 : K) * ray.direction) (ray.origin - sphere.origin))
      - 4 * (Vector3.Dot (ray.origin - sphere.origin) (ray.origin - sphere.origin)
        - Square sphere.radius) = sphereDiscriminant sphere ray := by
  simp only [sphereDiscriminant, sphereB, sphereC, Square, Vector3.Dot, Vector3.SqrMagnitude,
    Vector3.sub_def, Vector3.smul_def]
  ring

/-- The root the code computes is the near root of the specification. -/
theorem sphere_code_root (sqrtf : K → K) (sphere : Sphere K) (ray : Ray K) :
    (-(Vector3.Dot ((2 : K) * ray.direction) (ray.origin - sphere.origin))
      - sqrtf (sphereDiscriminant sphere ray)) * (1 / 2) = sphereNearRoot sqrtf sphere ray := by
  simp only [sphereNearRoot, sphereB, Vector3.Dot, Vector3.sub_def, Vector3.smul_def]
  ring

/-- The whole result of `HitTest_Sphere` when the discriminant is positive and the
near root is inside the interval of the ray. -/
theorem HitTest_Sphere_of_near_root (sqrtf : K → K) (sphere : Sphere K) (ray : Ray K)
    (hitRecord : HitRecord K) (ignoreHitRecord : Bool)
    (hdisc : sphereDiscriminant sphere ray > 0)
    (hmin : ray.min < sphereNearRoot sqrtf sphere ray)
    (hmax : sphereNearRoot sqrtf sphere ray < ray.max) :
    HitTest_Sphere sqrtf sphere ray hitRecord ignoreHitRecord =
      (true, { origin := ray.origin + sphereNearRoot sqrtf sphere ray * ray.direction,
               normal := Vector3.Normalized sqrtf
                 ((ray.origin + sphereNearRoot sqrtf sphere ray * ray.direction) - sphere.origin),
               t := sphereNearRoot sqrtf sphere ray,
               didHit := true,
               materialIndex := sphere.materialIndex }) := by
  unfold HitTest_Sphere
  simp only [sphere_code_discriminant, sphere_code_root]
  simp [hdisc, hmin, hmax, not_lt.mpr hmin.le]

/-- With a unit direction a positive discriminant forces a non-zero radius
(Lagrange's identity gives Cauchy–Schwarz). -/
theorem sphere_radius_sq_pos (sphere : Sphere K) (ray : Ray K)
    (hunit : Vector3.SqrMagnitude ray.direction = 1)
    (hdisc : sphereDiscriminant sphere ray > 0) : 0 < sphere.radius ^ 2 := by
  simp only [sphereDiscriminant, sphereB, sphereC, Vector3.Dot, Vector3.SqrMagnitude,
    Vector3.sub_def] at hunit hdisc
  nlinarith [sq_nonneg (ray.direction.x * (ray.origin.y - sphere.origin.y)
      - ray.direction.y * (ray.origin.x - sphere.origin.x)),
    sq_nonneg (ray.direction.y * (ray.origin.z - sphere.origin.z)
      - ray.direction.z * (ray.origin.y - sphere.origin.y)),
    sq_nonneg (ray.direction.z * (ray.origin.x - sphere.origin.x)
      - ray.direction.x * (ray.origin.z - sphere.origin.z))]

/-- The point of the ray at the near root is on the sphere. -/
theorem sphere_near_root_on_sphere (sqrtf : K → K) (sphere : Sphere K) (ray : Ray K)
    (hunit : Vector3.SqrMagnitude ray.direction = 1)
    (hsqrt : IsSqrt (sqrtf (sphereDiscriminant sphere ray)) (sphereDiscriminant sphere ray)) :
    Vector3.SqrMagnitude
      ((ray.origin + sphereNearRoot sqrtf sphere ray * ray.direction) - sphere.origin)
      = sphere.radius ^ 2 := by
  have h2 := hsqrt.2
  have hroot : sphereNearRoot sqrtf sphere ray ^ 2
      + sphereB sphere ray * sphereNearRoot sqrtf sphere ray + sphereC sphere ray = 0 := by
    simp only [sphereDiscriminant] at h2
    simp only [sphereNearRoot, sphereDiscriminant]
    linear_combination (1 / 4 : K) * h2
  generalize sphereNearRoot sqrtf sphere ray = t0 at hroot ⊢
  simp only [sphereB, sphereC, Vector3.Dot, Vector3.SqrMagnitude, Vector3.sub_def,
    Vector3.add_def, Vector3.smul_def] at hunit hroot ⊢
  linear_combination t0 ^ 2 * hunit + hroot

/-- In exact arithmetic. For a ray with unit direction (`|D|² = 1`), a positive discriminant
`b² − 4c` and the near root `t0 = (−b − √discriminant)/2` strictly inside
`(min, max)`, `HitTest_Sphere` returns true, records `t = t0` and the point
`O + t0·D`, that point is at distance `r` from the centre (`|P − C|² = r²`), and the
recorded normal is a positive multiple of `P − C`.  `sqrtf` is only asked to return
the non-negative root at the two arguments where the code calls it.  The
assumption that the origin is outside the sphere is not needed. -/
theorem HitTest_Sphere_near_root (sqrtf : K → K) (sphere : Sphere K) (ray : Ray K)
    (hitRecord : HitRecord K) (ignoreHitRecord : Bool)
    (hunit : Vector3.SqrMagnitude ray.direction = 1)
    (hdisc : sphereDiscriminant sphere ray > 0)
    (hsqrt : IsSqrt (sqrtf (sphereDiscriminant sphere ray)) (sphereDiscriminant sphere ray))
    (hmin : ray.min < sphereNearRoot sqrtf sphere ray)
    (hmax : sphereNearRoot sqrtf sphere ray < ray.max)
    (hmag : IsSqrt
      (Vector3.Magnitude sqrtf
        ((ray.origin + sphereNearRoot sqrtf sphere ray * ray.direction) - sphere.origin))
      (Vector3.SqrMagnitude
        ((ray.origin + sphereNearRoot sqrtf sphere ray * ray.direction) - sphere.origin))) :
    (HitTest_Sphere sqrtf sphere ray hitRecord ignoreHitRecord).1 = true
    ∧ (HitTest_Sphere sqrtf sphere ray hitRecord ignoreHitRecord).2.t
        = sphereNearRoot sqrtf sphere ray
    ∧ (HitTest_Sphere sqrtf sphere ray hitRecord ignoreHitRecord).2.origin
        = ray.origin + sphereNearRoot sqrtf sphere ray * ray.direction
    ∧ Vector3.SqrMagnitude
        ((HitTest_Sphere sqrtf sphere ray hitRecord ignoreHitRecord).2.origin - sphere.origin)
        = sphere.radius ^ 2
    ∧ ∃ k : K, 0 < k ∧
        (HitTest_Sphere sqrtf sphere ray hitRecord ignoreHitRecord).2.normal
          = k * ((HitTest_Sphere sqrtf sphere ray hitRecord ignoreHitRecord).2.origin
              - sphere.origin) := by
  rw [HitTest_Sphere_of_near_root sqrtf sphere ray hitRecord ignoreHitRecord hdisc hmin hmax]
  have hon := sphere_near_root_on_sphere sqrtf sphere ray hunit hsqrt
  have hr := sphere_radius_sq_pos sphere ray hunit hdisc
  refine ⟨rfl, rfl, rfl, hon, ?_⟩
  dsimp only
  rw [hon] at hmag
  have hm : 0 < Vector3.Magnitude sqrtf
      ((ray.origin + sphereNearRoot sqrtf sphere ray * ray.direction) - sphere.origin) := by
    rcases hmag with ⟨h0, h1⟩
    rcases h0.lt_or_eq with h | h
    · exact h
    · rw [← h, mul_zero] at h1
      exact absurd h1.symm (ne_of_gt hr)
  refine ⟨1 / Vector3.Magnitude sqrtf
      ((ray.origin + sphereNearRoot sqrtf sphere ray * ray.direction) - sphere.origin),
    by positivity, ?_⟩
  simp only [Vector3.Normalized, Vector3.smul_def]
  ext <;> simp only [] <;> ring

/-- An instance in exact arithmetic: the unit sphere seen from `(0, 0, −5)` along `+z` is hit at
`t = 4`, in the point `(0, 0, −1)`. -/
theorem HitTest_Sphere_near_root_witness :
    (HitTest_Sphere sqrtf_4_1 unitSphere rayTowardsUnitSphere HitRecord.fresh false).1 = true
    ∧ (HitTest_Sphere sqrtf_4_1 unitSphere rayTowardsUnitSphere HitRecord.fresh false).2.t = 4
    ∧ (HitTest_Sphere sqrtf_4_1 unitSphere rayTowardsUnitSphere HitRecord.fresh false).2.origin
        = ⟨0, 0, -1⟩ := by
  have hd : sphereDiscriminant unitSphere rayTowardsUnitSphere = 4 := by
    norm_num [sphereDiscriminant, sphereB, sphereC, unitSphere, rayTowardsUnitSphere,
      Vector3.Dot, Vector3.SqrMagnitude, Vector3.sub_def]
  have ht : sphereNearRoot sqrtf_4_1 unitSphere rayTowardsUnitSphere = 4 := by
    rw [sphereNearRoot, hd]
    norm_num [sphereB, sqrtf_4_1, unitSphere, rayTowardsUnitSphere, Vector3.Dot, Vector3.sub_def]
  have h := HitTest_Sphere_near_root sqrtf_4_1 unitSphere rayTowardsUnitSphere HitRecord.fresh
    false
    (by norm_num [Vector3.SqrMagnitude, rayTowardsUnitSphere])
    (by rw [hd]; norm_num)
    (by rw [hd]; norm_num [IsSqrt, sqrtf_4_1])
    (by rw [ht]; norm_num [rayTowardsUnitSphere])
    (by rw [ht]; norm_num [rayTowardsUnitSphere])
    (by rw [ht]; norm_num [IsSqrt, sqrtf_4_1, Vector3.Magnitude, Vector3.SqrMagnitude,
      unitSphere, rayTowardsUnitSphere, Vector3.sub_def, Vector3.add_def, Vector3.smul_def])
  rw [ht] at h
  refine ⟨h.1, h.2.1, ?_⟩
  rw [h.2.2.1]
  norm_num [rayTowardsUnitSphere, Vector3.add_def, Vector3.smul_def]

/-! ## Any-hit and closest-hit on one triangle -/

/-- The boolean result of the Möller–Trumbore test does not depend on the record it
is given. -/
theorem HitTest_Triangle_Moller_fst_indep (triangle : Triangle K) (ray : Ray K)
    (r1 r2 : HitRecord K) (ignoreHitRecord : Bool) :
    (HitTest_Triangle_Moller triangle ray r1 ignoreHitRecord).1
      = (HitTest_Triangle_Moller triangle ray r2 ignoreHitRecord).1 := by
  unfold HitTest_Triangle_Moller
  simp only []
  split_ifs <;> rfl

/-- C2, counterexample. A front-face-culled triangle seen by a ray that runs along
its normal: the closest-hit test reports a hit (at `t = 1`, `didHit` set) while the
any-hit overload returns false. -/
theorem HitTest_Triangle_anyHit_disagrees :
    HitTest_Triangle_anyHit (unitTriangle TriangleCullMode.FrontFaceCulling)
        rayThroughUnitTriangle = false
    ∧ HitTest_Triangle_Moller (unitTriangle TriangleCullMode.FrontFaceCulling)
        rayThroughUnitTriangle HitRecord.fresh false
      = (true, { origin := ⟨1 / 4, 1 / 4, 0⟩, normal := ⟨0, 0, 1⟩, t := 1, didHit := true,
                 materialIndex := 3 }) := by
  constructor
  · norm_num [HitTest_Triangle_anyHit, HitTest_Triangle_Moller, unitTriangle,
      rayThroughUnitTriangle, Vector3.Dot]
  · norm_num [HitTest_Triangle_Moller, unitTriangle, rayThroughUnitTriangle, Vector3.Dot,
      Vector3.Cross, Vector3.sub_def, Vector3.add_def, Vector3.smul_def, FLT_EPSILON,
      HitRecord.fresh]

/-- C2, amended. The any-hit overload returns what the closest-hit test returns on
the same triangle with the facing of its cull mode reversed (front for back, back
for front), whatever record the closest-hit test is given; so the two agree on
every triangle with `NoCulling`. -/
theorem HitTest_Triangle_anyHit_eq_reversed (triangle : Triangle K) (ray : Ray K)
    (hitRecord : HitRecord K) :
    HitTest_Triangle_anyHit triangle ray
      = (HitTest_Triangle_Moller { triangle with cullMode := reverseCullMode triangle.cullMode }
          ray hitRecord false).1
    ∧ HitTest_Triangle_anyHit { triangle with cullMode := TriangleCullMode.NoCulling } ray
      = (HitTest_Triangle_Moller { triangle with cullMode := TriangleCullMode.NoCulling }
          ray hitRecord false).1 := by
  have key : ∀ tri : Triangle K, HitTest_Triangle_anyHit tri ray
      = (HitTest_Triangle_Moller { tri with cullMode := reverseCullMode tri.cullMode }
          ray hitRecord false).1 := by
    intro tri
    unfold HitTest_Triangle_anyHit
    rw [HitTest_Triangle_Moller_fst_indep tri ray HitRecord.fresh hitRecord]
    unfold HitTest_Triangle_Moller
    cases h : tri.cullMode <;>
      simp only [reverseCullMode, h, if_true, Bool.false_eq_true, if_false, mul_neg, mul_one,
        neg_nonpos, neg_nonneg, abs_neg, ge_iff_le]
  exact ⟨key triangle, key { triangle with cullMode := TriangleCullMode.NoCulling }⟩

/-! ## What the closest-hit tests write into the record -/

/-- Normalising is scaling by the inverse of the length. -/
theorem Vector3.normalized_eq_scale (sqrtf : K → K) (a : Vector3 K) :
    Vector3.Normalized sqrtf a = (1 / Vector3.Magnitude sqrtf a) * a := by
  simp only [Vector3.Normalized, Vector3.smul_def]
  ext <;> simp only [] <;> ring

/-- The scalar products of the Möller–Trumbore test for a ray through the centroid
along the scaled cross product of the edges: polynomial identities. -/
theorem moller_centroid_identities (v0 v1 v2 : Vector3 K) (p s : K) :
    Vector3.Dot (p * Vector3.Cross (v1 - v0) (v2 - v0))
        ((-1 : K) * (p * Vector3.Cross (v1 - v0) (v2 - v0)))
      = -(p * p * Vector3.SqrMagnitude (Vector3.Cross (v1 - v0) (v2 - v0)))
    ∧ Vector3.Dot (v1 - v0)
        (Vector3.Cross ((-1 : K) * (p * Vector3.Cross (v1 - v0) (v2 - v0))) (v2 - v0))
      = p * Vector3.SqrMagnitude (Vector3.Cross (v1 - v0) (v2 - v0))
    ∧ Vector3.Dot
        (((1 / 3 : K) * ((v0 + v1) + v2) + s * (p * Vector3.Cross (v1 - v0) (v2 - v0))) - v0)
        (Vector3.Cross ((-1 : K) * (p * Vector3.Cross (v1 - v0) (v2 - v0))) (v2 - v0))
      = 1 / 3 * (p * Vector3.SqrMagnitude (Vector3.Cross (v1 - v0) (v2 - v0)))
    ∧ Vector3.Dot ((-1 : K) * (p * Vector3.Cross (v1 - v0) (v2 - v0)))
        (Vector3.Cross
          (((1 / 3 : K) * ((v0 + v1) + v2) + s * (p * Vector3.Cross (v1 - v0) (v2 - v0))) - v0)
          (v1 - v0))
      = 1 / 3 * (p * Vector3.SqrMagnitude (Vector3.Cross (v1 - v0) (v2 - v0)))
    ∧ Vector3.Dot (v2 - v0)
        (Vector3.Cross
          (((1 / 3 : K) * ((v0 + v1) + v2) + s * (p * Vector3.Cross (v1 - v0) (v2 - v0))) - v0)
          (v1 - v0))
      = s * (p * Vector3.SqrMagnitude (Vector3.Cross (v1 - v0) (v2 - v0))) := by
  obtain ⟨x0, y0, z0⟩ := v0
  obtain ⟨x1, y1, z1⟩ := v1
  obtain ⟨x2, y2, z2⟩ := v2
  simp only [Vector3.Dot, Vector3.Cross, Vector3.SqrMagnitude, Vector3.sub_def, Vector3.add_def,
    Vector3.smul_def]
  refine ⟨?_, ?_, ?_, ?_, ?_⟩ <;> ring

/-- The constant `FLT_EPSILON` is positive. -/
theorem FLT_EPSILON_pos : (0 : K) < FLT_EPSILON := by
  unfold FLT_EPSILON
  positivity

/-- The constant `FLT_EPSILON` is at most one. -/
theorem FLT_EPSILON_le_one : (FLT_EPSILON : K) ≤ 1 := by
  unfold FLT_EPSILON
  rw [div_le_one (by norm_num)]
  norm_num

/-- In exact arithmetic. For a `NoCulling` triangle whose edge cross product has length at
least `FLT_EPSILON`, whose stored normal is `normalize(cross(v1−v0, v2−v0))`, and a
ray with direction `−n` from `centroid + s·n` with `min ≤ s ≤ max`, the
Möller–Trumbore test returns true (for a closest-hit and for a shadow query), the
weights `(1−u−v, u, v)` it computes are each in `[0,1]` and sum to 1, the recorded
point is that barycentric combination and is the centroid, and the recorded `t` is
`s`. -/
theorem HitTest_Triangle_Moller_centroid (sqrtf : K → K) (triangle : Triangle K) (ray : Ray K)
    (hitRecord : HitRecord K) (ignoreHitRecord : Bool) (s : K)
    (hcull : triangle.cullMode = TriangleCullMode.NoCulling)
    (hn : triangle.normal = Vector3.Normalized sqrtf
      (Vector3.Cross (triangle.v1 - triangle.v0) (triangle.v2 - triangle.v0)))
    (hsq : IsSqrt
      (Vector3.Magnitude sqrtf
        (Vector3.Cross (triangle.v1 - triangle.v0) (triangle.v2 - triangle.v0)))
      (Vector3.SqrMagnitude
        (Vector3.Cross (triangle.v1 - triangle.v0) (triangle.v2 - triangle.v0))))
    (harea : FLT_EPSILON ≤ Vector3.Magnitude sqrtf
      (Vector3.Cross (triangle.v1 - triangle.v0) (triangle.v2 - triangle.v0)))
    (hdir : ray.direction = (-1 : K) * triangle.normal)
    (horg : ray.origin = triangle.centroid + s * triangle.normal)
    (hmin : ray.min ≤ s) (hmax : s ≤ ray.max) :
    (HitTest_Triangle_Moller triangle ray hitRecord ignoreHitRecord).1 = true
    ∧ (0 ≤ mollerU triangle ray ∧ mollerU triangle ray ≤ 1)
    ∧ (0 ≤ mollerV triangle ray ∧ mollerV triangle ray ≤ 1)
    ∧ (0 ≤ 1 - mollerU triangle ray - mollerV triangle ray
        ∧ 1 - mollerU triangle ray - mollerV triangle ray ≤ 1)
    ∧ (1 - mollerU triangle ray - mollerV triangle ray) + mollerU triangle ray
        + mollerV triangle ray = 1
    ∧ (HitTest_Triangle_Moller triangle ray hitRecord ignoreHitRecord).2.origin
        = ((1 - mollerU triangle ray - mollerV triangle ray) * triangle.v0
            + mollerU triangle ray * triangle.v1) + mollerV triangle ray * triangle.v2
    ∧ (HitTest_Triangle_Moller triangle ray hitRecord ignoreHitRecord).2.origin
        = triangle.centroid
    ∧ (HitTest_Triangle_Moller triangle ray hitRecord ignoreHitRecord).2.t = s := by
  have hpos : 0 < Vector3.Magnitude sqrtf
      (Vector3.Cross (triangle.v1 - triangle.v0) (triangle.v2 - triangle.v0)) :=
    lt_of_lt_of_le FLT_EPSILON_pos harea
  rw [Vector3.normalized_eq_scale] at hn
  obtain ⟨v0, v1, v2, n, cull, mat⟩ := triangle
  obtain ⟨o, d, mn, mx⟩ := ray
  simp only [Triangle.centroid] at hcull hn hsq harea hdir horg hmin hmax hpos
  subst hcull hdir horg hn
  obtain ⟨I0, I1, I2, I3, I4⟩ := moller_centroid_identities v0 v1 v2
    (1 / Vector3.Magnitude sqrtf (Vector3.Cross (v1 - v0) (v2 - v0))) s
  have hm := hsq.2
  rw [← hm] at I0 I1 I2 I3 I4
  generalize Vector3.Magnitude sqrtf (Vector3.Cross (v1 - v0) (v2 - v0)) = m at *
  have hm0 : m ≠ 0 := ne_of_gt hpos
  have e0 : -(1 / m * (1 / m) * (m * m)) = (-1 : K) := by field_simp
  have e1 : 1 / m * (m * m) = m := by field_simp
  rw [e0] at I0
  rw [e1] at I1 I2 I3 I4
  generalize htri : ({ v0 := v0, v1 := v1, v2 := v2,
                       normal := (1 / m) * Vector3.Cross (v1 - v0) (v2 - v0),
                       cullMode := TriangleCullMode.NoCulling,
                       materialIndex := mat } : Triangle K) = tri
  generalize hry : ({ origin := (1 / 3 : K) * ((v0 + v1) + v2)
                        + s * ((1 / m) * Vector3.Cross (v1 - v0) (v2 - v0)),
                      direction := (-1 : K) * ((1 / m) * Vector3.Cross (v1 - v0) (v2 - v0)),
                      min := mn, max := mx } : Ray K) = ry
  have hu : mollerU tri ry = 1 / 3 := by
    subst htri hry
    simp only [mollerU, I1, I2]
    rw [mul_assoc, mul_one_div_cancel hm0, mul_one]
  have hv : mollerV tri ry = 1 / 3 := by
    subst htri hry
    simp only [mollerV, I1, I3]
    rw [mul_assoc, mul_one_div_cancel hm0, mul_one]
  rw [hu, hv]
  have ht : s * m * (1 / m) = s := by rw [mul_assoc, mul_one_div_cancel hm0, mul_one]
  have h13 : (1 / 3 : K) * m * (1 / m) = 1 / 3 := by
    rw [mul_assoc, mul_one_div_cancel hm0, mul_one]
  have hres : HitTest_Triangle_Moller tri ry hitRecord ignoreHitRecord
      = (true, { origin := ((1 - 1 / 3 - 1 / 3 : K) * v0 + (1 / 3 : K) * v1) + (1 / 3 : K) * v2,
                 normal := (1 / m) * Vector3.Cross (v1 - v0) (v2 - v0),
                 t := s, didHit := true, materialIndex := mat }) := by
    subst htri hry
    unfold HitTest_Triangle_Moller
    simp only [I0, I1, I2, I3, I4, ht, h13]
    have hE := FLT_EPSILON_le_one (K := K)
    have hE0 := FLT_EPSILON_pos (K := K)
    have c2 : ¬ (m > -FLT_EPSILON ∧ m < FLT_EPSILON) := fun h => absurd h.2 (not_lt.mpr harea)
    cases ignoreHitRecord <;>
      simp [c2, not_lt.mpr hmin, not_lt.mpr hmax]
    · rw [if_neg (not_lt.mpr hE), if_neg (by norm_num), if_neg (by norm_num)]
    · rw [if_neg (not_lt.mpr hE), if_neg (by norm_num), if_neg (by norm_num)]
  rw [hres]
  subst htri hry
  refine ⟨rfl, ⟨by norm_num, by norm_num⟩, ⟨by norm_num, by norm_num⟩,
    ⟨by norm_num, by norm_num⟩, by norm_num, rfl, ?_, rfl⟩
  simp only [Triangle.centroid, Vector3.add_def, Vector3.smul_def]
  ext <;> simp only [] <;> ring

/-- An instance in exact arithmetic: the unit triangle seen from two units above its centroid is hit in
the centroid `(1/3, 1/3, 0)` at `t = 2`. -/
theorem HitTest_Triangle_Moller_centroid_witness :
    (HitTest_Triangle_Moller (unitTriangle TriangleCullMode.NoCulling) rayOntoUnitTriangle
        HitRecord.fresh false).1 = true
    ∧ (HitTest_Triangle_Moller (unitTriangle TriangleCullMode.NoCulling) rayOntoUnitTriangle
        HitRecord.fresh false).2.origin = (unitTriangle TriangleCullMode.NoCulling).centroid
    ∧ (HitTest_Triangle_Moller (unitTriangle TriangleCullMode.NoCulling) rayOntoUnitTriangle
        HitRecord.fresh false).2.t = 2 := by
  have h := HitTest_Triangle_Moller_centroid sqrtf_4_1 (unitTriangle TriangleCullMode.NoCulling)
    rayOntoUnitTriangle HitRecord.fresh false 2 rfl
    (by norm_num [unitTriangle, Vector3.Normalized, Vector3.Magnitude, Vector3.SqrMagnitude,
      Vector3.Cross, Vector3.sub_def, sqrtf_4_1])
    (by norm_num [IsSqrt, unitTriangle, Vector3.Magnitude, Vector3.SqrMagnitude,
      Vector3.Cross, Vector3.sub_def, sqrtf_4_1])
    (by norm_num [FLT_EPSILON, unitTriangle, Vector3.Magnitude, Vector3.SqrMagnitude,
      Vector3.Cross, Vector3.sub_def, sqrtf_4_1])
    (by norm_num [unitTriangle, rayOntoUnitTriangle, Vector3.smul_def])
    (by norm_num [unitTriangle, rayOntoUnitTriangle, Triangle.centroid, Vector3.smul_def,
      Vector3.add_def])
    (by norm_num [rayOntoUnitTriangle])
    (by norm_num [rayOntoUnitTriangle])
  exact ⟨h.1, h.2.2.2.2.2.2.1, h.2.2.2.2.2.2.2⟩

/-- In exact arithmetic. `smallTriangle` has non-zero area, `NoCulling` and the normal
`normalize(cross(v1−v0, v2−v0))`; the ray starts at `centroid + 1·n`, runs along
`−n` and has `1` inside its interval; yet the Möller–Trumbore test returns false,
because the determinant `9·2⁻²⁷` is below `FLT_EPSILON`. -/
theorem HitTest_Triangle_Moller_centroid_small_triangle :
    smallTriangle.cullMode = TriangleCullMode.NoCulling
    ∧ Vector3.Cross (smallTriangle.v1 - smallTriangle.v0) (smallTriangle.v2 - smallTriangle.v0)
        ≠ ⟨0, 0, 0⟩
    ∧ smallTriangle.normal = Vector3.Normalized sqrtf_small
        (Vector3.Cross (smallTriangle.v1 - smallTriangle.v0)
          (smallTriangle.v2 - smallTriangle.v0))
    ∧ IsSqrt
        (Vector3.Magnitude sqrtf_small
          (Vector3.Cross (smallTriangle.v1 - smallTriangle.v0)
            (smallTriangle.v2 - smallTriangle.v0)))
        (Vector3.SqrMagnitude
          (Vector3.Cross (smallTriangle.v1 - smallTriangle.v0)
            (smallTriangle.v2 - smallTriangle.v0)))
    ∧ rayOntoSmallTriangle.direction = (-1 : ℚ) * smallTriangle.normal
    ∧ rayOntoSmallTriangle.origin = smallTriangle.centroid + (1 : ℚ) * smallTriangle.normal
    ∧ (rayOntoSmallTriangle.min < 1 ∧ 1 < rayOntoSmallTriangle.max)
    ∧ HitTest_Triangle_Moller smallTriangle rayOntoSmallTriangle HitRecord.fresh false
        = (false, HitRecord.fresh) := by
  refine ⟨rfl, ?_, ?_, ?_, ?_, ?_, ?_, ?_⟩
  · norm_num [smallTriangle, Vector3.Cross, Vector3.sub_def]
  · norm_num [smallTriangle, Vector3.Normalized, Vector3.Magnitude, Vector3.SqrMagnitude,
      Vector3.Cross, Vector3.sub_def, sqrtf_small]
  · norm_num [IsSqrt, smallTriangle, Vector3.Magnitude, Vector3.SqrMagnitude,
      Vector3.Cross, Vector3.sub_def, sqrtf_small]
  · norm_num [smallTriangle, rayOntoSmallTriangle, Vector3.smul_def]
  · norm_num [smallTriangle, rayOntoSmallTriangle, Triangle.centroid, Vector3.smul_def,
      Vector3.add_def]
  · norm_num [rayOntoSmallTriangle]
  · norm_num [HitTest_Triangle_Moller, smallTriangle, rayOntoSmallTriangle, Vector3.Dot,
      Vector3.Cross, Vector3.sub_def, FLT_EPSILON]

/-! ## Plane -/

/-- The whole result of `HitTest_Plane` in terms of the quantities of the
specification. -/
theorem HitTest_Plane_eq (plane : Plane K) (ray : Ray K) (hitRecord : HitRecord K)
    (ignoreHitRecord : Bool) :
    HitTest_Plane plane ray hitRecord ignoreHitRecord =
      if Vector3.Dot ray.direction plane.normal ≥ 0 then (false, hitRecord)
      else if ray.min < planeT plane ray ∧ planeT plane ray < ray.max then
        (true, { origin := ray.origin + planeT plane ray * ray.direction,
                 normal := plane.normal,
                 t := planeT plane ray,
                 didHit := true,
                 materialIndex := plane.materialIndex })
      else (false, { hitRecord with didHit := false }) := by
  unfold HitTest_Plane planeT
  simp only []
  split_ifs <;> simp_all

/-- The point of the ray at `planeT` lies on the plane when the ray is not parallel
to it. -/
theorem planeT_on_plane (plane : Plane K) (ray : Ray K)
    (h : Vector3.Dot ray.direction plane.normal ≠ 0) :
    Vector3.Dot ((ray.origin + planeT plane ray * ray.direction) - plane.origin) plane.normal
      = 0 := by
  have key : Vector3.Dot ((ray.origin + planeT plane ray * ray.direction) - plane.origin)
      plane.normal
      = planeT plane ray * Vector3.Dot ray.direction plane.normal
        - Vector3.Dot (plane.origin - ray.origin) plane.normal := by
    simp only [Vector3.Dot, Vector3.sub_def, Vector3.add_def, Vector3.smul_def]
    ring
  rw [key, planeT, div_mul_cancel₀ _ h, sub_self]

/-- In exact arithmetic. `HitTest_Plane` returns true exactly when `dot(direction, normal) < 0` and
`t = dot(planeOrigin − rayOrigin, normal) / dot(direction, normal)` satisfies
`min < t < max`; it returns false for every ray parallel to the plane; and when it
returns true the record holds that `t`, the point `rayOrigin + t·direction`, which
lies on the plane, the normal of the plane and its material index. -/
theorem HitTest_Plane_spec (plane : Plane K) (ray : Ray K) (hitRecord : HitRecord K)
    (ignoreHitRecord : Bool) :
    ((HitTest_Plane plane ray hitRecord ignoreHitRecord).1 = true ↔
      (Vector3.Dot ray.direction plane.normal < 0
        ∧ ray.min < planeT plane ray ∧ planeT plane ray < ray.max))
    ∧ (Vector3.Dot ray.direction plane.normal = 0 →
        (HitTest_Plane plane ray hitRecord ignoreHitRecord).1 = false)
    ∧ ((HitTest_Plane plane ray hitRecord ignoreHitRecord).1 = true →
        (HitTest_Plane plane ray hitRecord ignoreHitRecord).2.t = planeT plane ray
        ∧ (HitTest_Plane plane ray hitRecord ignoreHitRecord).2.origin
            = ray.origin + planeT plane ray * ray.direction
        ∧ Vector3.Dot
            ((HitTest_Plane plane ray hitRecord ignoreHitRecord).2.origin - plane.origin)
            plane.normal = 0
        ∧ (HitTest_Plane plane ray hitRecord ignoreHitRecord).2.normal = plane.normal
        ∧ (HitTest_Plane plane ray hitRecord ignoreHitRecord).2.materialIndex
            = plane.materialIndex) := by
  rw [HitTest_Plane_eq]
  refine ⟨?_, ?_, ?_⟩
  · split_ifs with h1 h2
    · simp only [Bool.false_eq_true, false_iff, not_and]
      intro h
      exact absurd h (not_lt.mpr h1)
    · simp only [true_iff]
      exact ⟨not_le.mp h1, h2⟩
    · simp only [Bool.false_eq_true, false_iff]
      intro h
      exact h2 h.2
  · intro h
    rw [if_pos (ge_of_eq h)]
  · split_ifs with h1 h2
    · intro h
      exact h.elim
    · intro _
      exact ⟨rfl, rfl, planeT_on_plane plane ray (ne_of_lt (not_le.mp h1)), rfl, rfl⟩
    · intro h
      exact h.elim

/-- An instance in exact arithmetic: the plane `z = 0` seen from `(0, 0, −5)` along `+z` is hit at
`t = 5` in the world origin. -/
theorem HitTest_Plane_spec_witness :
    (HitTest_Plane groundPlane rayTowardsUnitSphere HitRecord.fresh false).1 = true
    ∧ (HitTest_Plane groundPlane rayTowardsUnitSphere HitRecord.fresh false).2.t = 5
    ∧ (HitTest_Plane groundPlane rayTowardsUnitSphere HitRecord.fresh false).2.origin
        = ⟨0, 0, 0⟩ := by
  have h := HitTest_Plane_spec groundPlane rayTowardsUnitSphere HitRecord.fresh false
  have ht : planeT groundPlane rayTowardsUnitSphere = 5 := by
    norm_num [planeT, groundPlane, rayTowardsUnitSphere, Vector3.Dot, Vector3.sub_def]
  have hit : (HitTest_Plane groundPlane rayTowardsUnitSphere HitRecord.fresh false).1 = true :=
    h.1.mpr ⟨by norm_num [groundPlane, rayTowardsUnitSphere, Vector3.Dot],
      by rw [ht]; norm_num [rayTowardsUnitSphere],
      by rw [ht]; norm_num [rayTowardsUnitSphere]⟩
  obtain ⟨h1, h2, -⟩ := h.2.2 hit
  refine ⟨hit, by rw [h1, ht], ?_⟩
  rw [h2, ht]
  norm_num [rayTowardsUnitSphere, Vector3.add_def, Vector3.smul_def]

/-! ## Lighting mode -/

/-- C10, the code at the failing input. Four calls of `CycleLightMode` from
`ObservedArea` leave the mode at `Radiance`: the remainder is taken modulo
`int(LightingMode::Combined) = 3`, so the modes visited are `ObservedArea`,
`Radiance`, `BRDF` and `ObservedArea` again, and `Combined` is never reached. -/
theorem CycleLightMode_four_times :
    CycleLightMode LightingMode.ObservedArea = LightingMode.Radiance
    ∧ CycleLightMode (CycleLightMode LightingMode.ObservedArea) = LightingMode.BRDF
    ∧ CycleLightMode (CycleLightMode (CycleLightMode LightingMode.ObservedArea))
        = LightingMode.ObservedArea
    ∧ CycleLightMode (CycleLightMode (CycleLightMode (CycleLightMode
        LightingMode.ObservedArea))) = LightingMode.Radiance
    ∧ LightingMode.Radiance ≠ LightingMode.ObservedArea := by
  decide

/-! ## Slab test -/

/-- Nothing is below NaN. -/
theorem FloatVal.lt_nan (a : FloatVal K) : FloatVal.lt a FloatVal.nan = false := by
  cases a <;> rfl

/-- A value below zero is not above zero. -/
theorem FloatVal.not_pos_of_neg (v : FloatVal K)
    (h : FloatVal.lt v (FloatVal.finite 0) = true) :
    FloatVal.lt (FloatVal.finite 0) v = false := by
  cases v <;> simp_all [FloatVal.lt]
  exact le_of_lt h

/-- The running maximum `tmax` stays non-positive once it is. -/
theorem FloatVal.min_not_pos_left (a b : FloatVal K)
    (h : FloatVal.lt (FloatVal.finite 0) a = false) :
    FloatVal.lt (FloatVal.finite 0) (FloatVal.min a b) = false := by
  cases a <;> cases b <;> simp_all [FloatVal.min, FloatVal.lt]
  split_ifs <;> simp [FloatVal.lt] <;> linarith

/-- The running maximum `tmax` becomes non-positive when an axis ends below zero. -/
theorem FloatVal.min_not_pos_right (a b : FloatVal K)
    (h : FloatVal.lt b (FloatVal.finite 0) = true) :
    FloatVal.lt (FloatVal.finite 0) (FloatVal.min a b) = false := by
  cases a <;> cases b <;> simp_all [FloatVal.min, FloatVal.lt]
  · exact le_of_lt h
  · split_ifs <;> simp [FloatVal.lt] <;> linarith

/-- On an axis where the origin is beyond the box and the direction points away,
the slab is left at a negative parameter. -/
theorem slab_axis_away (mn mx o d : K) (hbox : mn ≤ mx)
    (h : (mx < o ∧ 0 < d) ∨ (o < mn ∧ d < 0)) :
    FloatVal.lt (FloatVal.max (FloatVal.div (mn - o) d) (FloatVal.div (mx - o) d))
      (FloatVal.finite 0) = true := by
  have hd : d ≠ 0 := by
    rcases h with h | h
    · exact ne_of_gt h.2
    · exact ne_of_lt h.2
  have h1 : (mn - o) / d < 0 := by
    rcases h with h | h
    · exact div_neg_of_neg_of_pos (by linarith) h.2
    · exact div_neg_of_pos_of_neg (by linarith) h.2
  have h2 : (mx - o) / d < 0 := by
    rcases h with h | h
    · exact div_neg_of_neg_of_pos (by linarith) h.2
    · exact div_neg_of_pos_of_neg (by linarith) h.2
  simp only [FloatVal.div, if_neg hd, FloatVal.max, FloatVal.lt]
  split_ifs <;> simp [FloatVal.lt, h1, h2]

/-- C7. For a mesh whose world-space box has `min ≤ max` on each axis and a ray that
on some axis starts beyond the box's max with a positive direction component, or
below the box's min with a negative one, `SlabTest_TriangleMesh` returns false
(whatever the other direction components are, zero included). -/
theorem SlabTest_TriangleMesh_pointing_away (mesh : TriangleMesh K) (ray : Ray K)
    (hbox : mesh.transformedMinAABB.x ≤ mesh.transformedMaxAABB.x
      ∧ mesh.transformedMinAABB.y ≤ mesh.transformedMaxAABB.y
      ∧ mesh.transformedMinAABB.z ≤ mesh.transformedMaxAABB.z)
    (haway :
      ((mesh.transformedMaxAABB.x < ray.origin.x ∧ 0 < ray.direction.x)
        ∨ (ray.origin.x < mesh.transformedMinAABB.x ∧ ray.direction.x < 0))
      ∨ ((mesh.transformedMaxAABB.y < ray.origin.y ∧ 0 < ray.direction.y)
        ∨ (ray.origin.y < mesh.transformedMinAABB.y ∧ ray.direction.y < 0))
      ∨ ((mesh.transformedMaxAABB.z < ray.origin.z ∧ 0 < ray.direction.z)
        ∨ (ray.origin.z < mesh.transformedMinAABB.z ∧ ray.direction.z < 0))) :
    SlabTest_TriangleMesh mesh ray = false := by
  unfold SlabTest_TriangleMesh
  simp only []
  rw [Bool.and_eq_false_iff]
  left
  rcases haway with hx | hy | hz
  · exact FloatVal.min_not_pos_left _ _ (FloatVal.min_not_pos_left _ _
      (FloatVal.not_pos_of_neg _ (slab_axis_away _ _ _ _ hbox.1 hx)))
  · exact FloatVal.min_not_pos_left _ _ (FloatVal.min_not_pos_right _ _
      (slab_axis_away _ _ _ _ hbox.2.1 hy))
  · exact FloatVal.min_not_pos_right _ _ (slab_axis_away _ _ _ _ hbox.2.2 hz)

/-- Witness of C7: the cube `[−1, 1]³` and the ray from `(0, 0, −5)` along `−z`. -/
theorem SlabTest_TriangleMesh_pointing_away_witness :
    SlabTest_TriangleMesh cubeBoxMesh rayAwayFromCube = false :=
  SlabTest_TriangleMesh_pointing_away cubeBoxMesh rayAwayFromCube
    (by norm_num [cubeBoxMesh])
    (by norm_num [cubeBoxMesh, rayAwayFromCube])
/-- Two finite quotients on either side of `τ`: their `std::min` is at most `τ` and
their `std::max` at least `τ`. -/
theorem slab_axis_finite (a b τ : K) (h : (a ≤ τ ∧ τ ≤ b) ∨ (b ≤ τ ∧ τ ≤ a)) :
    FloatVal.AtMost (FloatVal.min (FloatVal.finite a) (FloatVal.finite b)) τ
    ∧ FloatVal.AtLeast (FloatVal.max (FloatVal.finite a) (FloatVal.finite b)) τ := by
  simp only [FloatVal.min, FloatVal.max, FloatVal.lt, decide_eq_true_eq]
  constructor <;> split_ifs <;> simp only [FloatVal.AtMost, FloatVal.AtLeast] <;>
    rcases h with h | h <;> linarith

/-- One axis of the slab test for a ray aimed at the centre of the box: the slab is
entered no later and left no earlier than the parameter `1/k` of the centre, or
both quotients are `0/0`, which happens only where the box is flat on the axis and
the origin lies in its plane. -/
theorem slab_axis_towards (mn mx o d k : K) (hbox : mn ≤ mx) (hk : 0 < k)
    (hd : d = k * (1 / 2 * (mn + mx) - o)) :
    (FloatVal.AtMost (FloatVal.min (FloatVal.div (mn - o) d) (FloatVal.div (mx - o) d)) (1 / k)
      ∧ FloatVal.AtLeast (FloatVal.max (FloatVal.div (mn - o) d) (FloatVal.div (mx - o) d))
          (1 / k))
    ∨ (FloatVal.min (FloatVal.div (mn - o) d) (FloatVal.div (mx - o) d) = FloatVal.nan
      ∧ FloatVal.max (FloatVal.div (mn - o) d) (FloatVal.div (mx - o) d) = FloatVal.nan
      ∧ mn = mx ∧ o = mn) := by
  by_cases hd0 : d = 0
  · have ho : 1 / 2 * (mn + mx) - o = 0 := by
      rw [hd0] at hd
      rcases mul_eq_zero.mp hd.symm with h | h
      · exact absurd h (ne_of_gt hk)
      · exact h
    rcases hbox.lt_or_eq with hlt | heq
    · left
      have h1 : mn - o < 0 := by linarith
      have h2 : 0 < mx - o := by linarith
      simp [FloatVal.div, hd0, ne_of_lt h1, ne_of_gt h2, not_lt.mpr h1.le, h2, FloatVal.min,
        FloatVal.max, FloatVal.lt, FloatVal.AtMost, FloatVal.AtLeast]
    · right
      have h1 : mn - o = 0 := by linarith
      have h2 : mx - o = 0 := by linarith
      refine ⟨?_, ?_, heq, by linarith⟩ <;>
        simp [FloatVal.div, hd0, h1, h2, FloatVal.min, FloatVal.max, FloatVal.lt]
  · left
    have hc : 1 / 2 * (mn + mx) - o ≠ 0 := by
      intro h
      rw [h, mul_zero] at hd
      exact hd0 hd
    have hτ : 1 / k = (1 / 2 * (mn + mx) - o) / d := by
      rw [hd, eq_div_iff (mul_ne_zero (ne_of_gt hk) hc), one_div, ← mul_assoc,
        inv_mul_cancel₀ (ne_of_gt hk), one_mul]
    have hle1 : mn - o ≤ 1 / 2 * (mn + mx) - o := by linarith
    have hle2 : 1 / 2 * (mn + mx) - o ≤ mx - o := by linarith
    simp only [FloatVal.div, if_neg hd0, hτ]
    apply slab_axis_finite
    rcases lt_or_gt_of_ne hd0 with hneg | hpos
    · right
      exact ⟨(div_le_div_right_of_neg hneg).mpr hle2, (div_le_div_right_of_neg hneg).mpr hle1⟩
    · left
      exact ⟨div_le_div_of_nonneg_right hle1 (le_of_lt hpos),
        div_le_div_of_nonneg_right hle2 (le_of_lt hpos)⟩

/-- One axis more keeps the running `tmin` at most `τ` and the running `tmax` at
least `τ`; an axis whose two quotients are NaN changes neither. -/
theorem slab_step (tmin tmax lo hi : FloatVal K) (τ : K)
    (h1 : FloatVal.AtMost tmin τ) (h2 : FloatVal.AtLeast tmax τ)
    (h : (FloatVal.AtMost lo τ ∧ FloatVal.AtLeast hi τ)
      ∨ (lo = FloatVal.nan ∧ hi = FloatVal.nan)) :
    FloatVal.AtMost (FloatVal.max tmin lo) τ ∧ FloatVal.AtLeast (FloatVal.min tmax hi) τ := by
  rcases h with ⟨h3, h4⟩ | ⟨h3, h4⟩
  · constructor
    · unfold FloatVal.max
      split_ifs
      · exact h3
      · exact h1
    · unfold FloatVal.min
      split_ifs
      · exact h4
      · exact h2
  · subst h3 h4
    simp only [FloatVal.max, FloatVal.min, FloatVal.lt_nan, Bool.false_eq_true, if_false]
    refine ⟨h1, ?_⟩
    cases tmax <;> simp_all [FloatVal.lt, FloatVal.AtLeast]

/-- The final comparison of the slab test holds when `tmin ≤ τ ≤ tmax` for a
positive `τ`. -/
theorem slab_final (tmin tmax : FloatVal K) (τ : K) (hτ : 0 < τ)
    (h1 : FloatVal.AtMost tmin τ) (h2 : FloatVal.AtLeast tmax τ) :
    (FloatVal.lt (FloatVal.finite 0) tmax && FloatVal.ge tmax tmin) = true := by
  cases tmin <;> cases tmax <;>
    simp_all [FloatVal.lt, FloatVal.ge, FloatVal.AtMost, FloatVal.AtLeast] <;>
    (try constructor) <;> linarith

/-- In exact arithmetic. For a mesh whose world-space box has `min ≤ max` on each axis and a
ray whose direction is a positive multiple of `boxCentre − origin`,
`SlabTest_TriangleMesh` returns true unless the box is flat on the x axis and the
origin lies in its plane (`transformedMinAABB.x = transformedMaxAABB.x = origin.x`).
The origin need not be outside the box. -/
theorem SlabTest_TriangleMesh_aimed_at_centre (mesh : TriangleMesh K) (ray : Ray K) (k : K)
    (hbox : mesh.transformedMinAABB.x ≤ mesh.transformedMaxAABB.x
      ∧ mesh.transformedMinAABB.y ≤ mesh.transformedMaxAABB.y
      ∧ mesh.transformedMinAABB.z ≤ mesh.transformedMaxAABB.z)
    (hk : 0 < k)
    (hdir : ray.direction = k * (boxCentre mesh - ray.origin))
    (hx : ¬ (mesh.transformedMinAABB.x = mesh.transformedMaxAABB.x
      ∧ ray.origin.x = mesh.transformedMinAABB.x)) :
    SlabTest_TriangleMesh mesh ray = true := by
  have hdx : ray.direction.x = k * (1 / 2 * (mesh.transformedMinAABB.x
      + mesh.transformedMaxAABB.x) - ray.origin.x) := by
    rw [hdir]; rfl
  have hdy : ray.direction.y = k * (1 / 2 * (mesh.transformedMinAABB.y
      + mesh.transformedMaxAABB.y) - ray.origin.y) := by
    rw [hdir]; rfl
  have hdz : ray.direction.z = k * (1 / 2 * (mesh.transformedMinAABB.z
      + mesh.transformedMaxAABB.z) - ray.origin.z) := by
    rw [hdir]; rfl
  have ax := slab_axis_towards _ _ _ _ k hbox.1 hk hdx
  have ay := slab_axis_towards _ _ _ _ k hbox.2.1 hk hdy
  have az := slab_axis_towards _ _ _ _ k hbox.2.2 hk hdz
  have ax2 : FloatVal.AtMost (FloatVal.min
        (FloatVal.div (mesh.transformedMinAABB.x - ray.origin.x) ray.direction.x)
        (FloatVal.div (mesh.transformedMaxAABB.x - ray.origin.x) ray.direction.x)) (1 / k)
      ∧ FloatVal.AtLeast (FloatVal.max
        (FloatVal.div (mesh.transformedMinAABB.x - ray.origin.x) ray.direction.x)
        (FloatVal.div (mesh.transformedMaxAABB.x - ray.origin.x) ray.direction.x)) (1 / k) := by
    rcases ax with h | h
    · exact h
    · exact absurd ⟨h.2.2.1, h.2.2.2⟩ hx
  have sy := slab_step _ _ _ _ (1 / k) ax2.1 ax2.2
    (ay.imp id (fun h => ⟨h.1, h.2.1⟩))
  have sz := slab_step _ _ _ _ (1 / k) sy.1 sy.2
    (az.imp id (fun h => ⟨h.1, h.2.1⟩))
  unfold SlabTest_TriangleMesh
  exact slab_final _ _ (1 / k) (by positivity) sz.1 sz.2

/-- An instance in exact arithmetic: the cube `[−1, 1]³` and the ray from `(0, 0, −5)` along `+z`,
one fifth of the vector to the centre. -/
theorem SlabTest_TriangleMesh_aimed_at_centre_witness :
    SlabTest_TriangleMesh cubeBoxMesh rayTowardsUnitSphere = true :=
  SlabTest_TriangleMesh_aimed_at_centre cubeBoxMesh rayTowardsUnitSphere (1 / 5)
    (by norm_num [cubeBoxMesh])
    (by norm_num)
    (by norm_num [cubeBoxMesh, rayTowardsUnitSphere, boxCentre, Vector3.sub_def,
      Vector3.add_def, Vector3.smul_def])
    (by norm_num [cubeBoxMesh])

/-- In exact arithmetic. The box of `flatBoxMesh` has `min ≤ max` on each axis, the
origin `(0, 5, 0)` is outside it and the direction `(0, −1, 0)` is one fifth of the
vector from the origin to the centre of the box, yet the slab test returns false:
on the x axis both quotients are `0/0`. -/
theorem SlabTest_TriangleMesh_flat_box :
    (flatBoxMesh.transformedMinAABB.x ≤ flatBoxMesh.transformedMaxAABB.x
      ∧ flatBoxMesh.transformedMinAABB.y ≤ flatBoxMesh.transformedMaxAABB.y
      ∧ flatBoxMesh.transformedMinAABB.z ≤ flatBoxMesh.transformedMaxAABB.z)
    ∧ flatBoxMesh.transformedMaxAABB.y < rayInPlaneOfFlatBox.origin.y
    ∧ rayInPlaneOfFlatBox.direction
        = (1 / 5 : ℚ) * (boxCentre flatBoxMesh - rayInPlaneOfFlatBox.origin)
    ∧ FloatVal.div (flatBoxMesh.transformedMinAABB.x - rayInPlaneOfFlatBox.origin.x)
        rayInPlaneOfFlatBox.direction.x = FloatVal.nan
    ∧ SlabTest_TriangleMesh flatBoxMesh rayInPlaneOfFlatBox = false := by
  refine ⟨by norm_num [flatBoxMesh], by norm_num [flatBoxMesh, rayInPlaneOfFlatBox], ?_, ?_, ?_⟩
  · norm_num [flatBoxMesh, rayInPlaneOfFlatBox, boxCentre, Vector3.sub_def, Vector3.add_def,
      Vector3.smul_def]
  · norm_num [flatBoxMesh, rayInPlaneOfFlatBox, FloatVal.div]
  · norm_num [SlabTest_TriangleMesh, flatBoxMesh, rayInPlaneOfFlatBox, FloatVal.div,
      FloatVal.min, FloatVal.max, FloatVal.lt, FloatVal.ge]

/-! ## Triangle mesh -/

/-- The raw-vertex Möller–Trumbore test: its boolean result does not depend on the
record it is given, and when it returns true neither does the record it leaves. -/
theorem HitTest_Triangle_Moller_raw_indep (v0 v1 v2 normal : Vector3 K)
    (cullmode : TriangleCullMode) (materialIndex : Nat) (ray : Ray K) (r1 r2 : HitRecord K)
    (ignoreHitRecord : Bool) :
    (HitTest_Triangle_Moller_raw v0 v1 v2 normal cullmode materialIndex ray r1
        ignoreHitRecord).1
      = (HitTest_Triangle_Moller_raw v0 v1 v2 normal cullmode materialIndex ray r2
        ignoreHitRecord).1
    ∧ ((HitTest_Triangle_Moller_raw v0 v1 v2 normal cullmode materialIndex ray r1
        ignoreHitRecord).1 = true →
      (HitTest_Triangle_Moller_raw v0 v1 v2 normal cullmode materialIndex ray r1
        ignoreHitRecord).2
      = (HitTest_Triangle_Moller_raw v0 v1 v2 normal cullmode materialIndex ray r2
        ignoreHitRecord).2) := by
  unfold HitTest_Triangle_Moller_raw
  simp only []
  split_ifs <;> simp

/-- What the loop sees of face `index`, in terms of `faceHit`. -/
theorem faceHit_of_meshFace (mesh : TriangleMesh K) (ray : Ray K) (index : Nat)
    (v0 v1 v2 normal : Vector3 K) (temp : HitRecord K)
    (hface : meshFace mesh index = some (v0, v1, v2, normal)) :
    faceHit mesh ray index =
      if (HitTest_Triangle_Moller_raw v0 v1 v2 normal mesh.cullMode mesh.materialIndex ray
          temp false).1 = true
      then some (HitTest_Triangle_Moller_raw v0 v1 v2 normal mesh.cullMode mesh.materialIndex
          ray temp false).2
      else none := by
  obtain ⟨h1, h2⟩ := HitTest_Triangle_Moller_raw_indep v0 v1 v2 normal mesh.cullMode
    mesh.materialIndex ray temp HitRecord.fresh false
  simp only [faceHit, hface]
  by_cases h : (HitTest_Triangle_Moller_raw v0 v1 v2 normal mesh.cullMode mesh.materialIndex
      ray temp false).1 = true
  · rw [if_pos h, ← h2 h, ← h1, if_pos h]
  · rw [if_neg h, ← h1, if_neg h]

/-- The face loop of the closest-hit mesh test: it ends, and either no face of the
range improves on the record, which is then unchanged, or the record is the hit of
a face of the range, nearer than the record was and nearest of the range. -/
theorem meshLoop_closest (mesh : TriangleMesh K) (ray : Ray K) (remaining : Nat) :
    ∀ (index : Nat) (temp hitRecord : HitRecord K) (didHit : Bool),
    (∀ i, index ≤ i → i < index + remaining → (meshFace mesh i).isSome = true) →
    ∃ b r, meshLoop mesh ray false remaining index temp hitRecord didHit = some (b, r)
      ∧ ((b = didHit ∧ r = hitRecord
          ∧ ∀ i h, index ≤ i → i < index + remaining → faceHit mesh ray i = some h →
              hitRecord.t ≤ h.t)
        ∨ (b = true ∧ r.t < hitRecord.t
          ∧ (∃ i, index ≤ i ∧ i < index + remaining ∧ faceHit mesh ray i = some r)
          ∧ ∀ i h, index ≤ i → i < index + remaining → faceHit mesh ray i = some h →
              r.t ≤ h.t)) := by
  induction remaining with
  | zero =>
    intro index temp hitRecord didHit _
    exact ⟨didHit, hitRecord, rfl, Or.inl ⟨rfl, rfl, fun i h h1 h2 => by omega⟩⟩
  | succ n ih =>
    intro index temp hitRecord didHit hwf
    have hsome := hwf index (le_refl _) (by omega)
    obtain ⟨⟨v0, v1, v2, normal⟩, hface⟩ := Option.isSome_iff_exists.mp hsome
    have hwf2 : ∀ i, index + 1 ≤ i → i < index + 1 + n → (meshFace mesh i).isSome = true :=
      fun i h1 h2 => hwf i (by omega) (by omega)
    have hfh := faceHit_of_meshFace mesh ray index v0 v1 v2 normal temp hface
    simp only [meshLoop, hface]
    generalize HitTest_Triangle_Moller_raw v0 v1 v2 normal mesh.cullMode mesh.materialIndex
      ray temp false = res at hfh ⊢
    by_cases hr : res.1 = true
    · rw [if_pos hr] at hfh
      simp only [hr, if_true, Bool.false_eq_true, if_false]
      by_cases hlt : res.2.t < hitRecord.t
      · rw [if_pos hlt]
        obtain ⟨b, r, heq, hcase⟩ := ih (index + 1) res.2 res.2 true hwf2
        refine ⟨b, r, heq, Or.inr ?_⟩
        rcases hcase with ⟨hb, hrr, hall⟩ | ⟨hb, hrt, ⟨i, hi1, hi2, hi3⟩, hall⟩
        · subst hrr
          refine ⟨hb, hlt, ⟨index, le_refl _, by omega, hfh⟩, ?_⟩
          intro i h h1 h2 h3
          rcases Nat.eq_or_lt_of_le h1 with he | hl
          · subst he
            rw [hfh] at h3
            cases h3
            exact le_refl _
          · exact hall i h hl (by omega) h3
        · refine ⟨hb, lt_trans hrt hlt, ⟨i, by omega, by omega, hi3⟩, ?_⟩
          intro j h h1 h2 h3
          rcases Nat.eq_or_lt_of_le h1 with he | hl
          · subst he
            rw [hfh] at h3
            cases h3
            exact le_of_lt hrt
          · exact hall j h hl (by omega) h3
      · rw [if_neg hlt]
        obtain ⟨b, r, heq, hcase⟩ := ih (index + 1) res.2 hitRecord didHit hwf2
        refine ⟨b, r, heq, ?_⟩
        rcases hcase with ⟨hb, hrr, hall⟩ | ⟨hb, hrt, ⟨i, hi1, hi2, hi3⟩, hall⟩
        · left
          refine ⟨hb, hrr, ?_⟩
          intro i h h1 h2 h3
          rcases Nat.eq_or_lt_of_le h1 with he | hl
          · subst he
            rw [hfh] at h3
            cases h3
            exact not_lt.mp hlt
          · exact hall i h hl (by omega) h3
        · right
          refine ⟨hb, hrt, ⟨i, by omega, by omega, hi3⟩, ?_⟩
          intro j h h1 h2 h3
          rcases Nat.eq_or_lt_of_le h1 with he | hl
          · subst he
            rw [hfh] at h3
            cases h3
            exact le_trans (le_of_lt hrt) (not_lt.mp hlt)
          · exact hall j h hl (by omega) h3
    · rw [if_neg hr] at hfh
      simp only [hr, Bool.false_eq_true, if_false]
      obtain ⟨b, r, heq, hcase⟩ := ih (index + 1) res.2 hitRecord didHit hwf2
      refine ⟨b, r, heq, ?_⟩
      rcases hcase with ⟨hb, hrr, hall⟩ | ⟨hb, hrt, ⟨i, hi1, hi2, hi3⟩, hall⟩
      · left
        refine ⟨hb, hrr, ?_⟩
        intro i h h1 h2 h3
        rcases Nat.eq_or_lt_of_le h1 with he | hl
        · subst he
          rw [hfh] at h3
          cases h3
        · exact hall i h hl (by omega) h3
      · right
        refine ⟨hb, hrt, ⟨i, by omega, by omega, hi3⟩, ?_⟩
        intro j h h1 h2 h3
        rcases Nat.eq_or_lt_of_le h1 with he | hl
        · subst he
          rw [hfh] at h3
          cases h3
        · exact hall j h hl (by omega) h3
/-- An in-range `int` index reads an element. -/
theorem vectorAt_some {α : Type} (xs : List α) (i : Int) (h0 : 0 ≤ i)
    (h1 : i < (xs.length : Int)) : ∃ v, vectorAt xs i = some v := by
  have h2 : i.toNat < xs.length := by omega
  exact ⟨xs[i.toNat], by rw [vectorAt, if_neg (not_lt.mpr h0), List.getElem?_eq_getElem h2]⟩

/-- On a well-formed mesh every face of the loop is read within range. -/
theorem meshFace_isSome (mesh : TriangleMesh K)
    (hsize : mesh.indices.length = 3 * mesh.normals.length)
    (hidx : ∀ i ∈ mesh.indices, 0 ≤ i ∧ i < (mesh.transformedPositions.length : Int))
    (hnormals : mesh.normals.length ≤ mesh.transformedNormals.length)
    (index : Nat) (h : index < mesh.normals.length) :
    (meshFace mesh index).isSome = true := by
  have h0 : index * 3 < mesh.indices.length := by omega
  have h1 : index * 3 + 1 < mesh.indices.length := by omega
  have h2 : index * 3 + 2 < mesh.indices.length := by omega
  have hn : index < mesh.transformedNormals.length := by omega
  obtain ⟨a0, e0⟩ := vectorAt_some mesh.transformedPositions _
    (hidx _ (List.getElem_mem h0)).1 (hidx _ (List.getElem_mem h0)).2
  obtain ⟨a1, e1⟩ := vectorAt_some mesh.transformedPositions _
    (hidx _ (List.getElem_mem h1)).1 (hidx _ (List.getElem_mem h1)).2
  obtain ⟨a2, e2⟩ := vectorAt_some mesh.transformedPositions _
    (hidx _ (List.getElem_mem h2)).1 (hidx _ (List.getElem_mem h2)).2
  unfold meshFace
  simp only [List.getElem?_eq_getElem h0, List.getElem?_eq_getElem h1,
    List.getElem?_eq_getElem h2, List.getElem?_eq_getElem hn, e0, e1, e2, Option.isSome_some]

/-- C6. On a mesh with `indices.size() == 3·normals.size()`, every index within the
world-space positions and a world-space normal for every face, for a ray that
passes the slab test and a record with current value `t0`, the closest-hit
`HitTest_TriangleMesh` returns; it returns true exactly when some face's
Möller–Trumbore test hits with `t < t0`; when it returns true the record is the hit
of a face and its `t` is the least `t` of all faces that hit; when it returns
false the record is unchanged. -/
theorem HitTest_TriangleMesh_closest (mesh : TriangleMesh K) (ray : Ray K)
    (hitRecord : HitRecord K)
    (hsize : mesh.indices.length = 3 * mesh.normals.length)
    (hidx : ∀ i ∈ mesh.indices, 0 ≤ i ∧ i < (mesh.transformedPositions.length : Int))
    (hnormals : mesh.normals.length ≤ mesh.transformedNormals.length)
    (hslab : SlabTest_TriangleMesh mesh ray = true) :
    ∃ b r, HitTest_TriangleMesh mesh ray hitRecord false = some (b, r)
      ∧ (b = true ↔
          ∃ i h, i < mesh.normals.length ∧ faceHit mesh ray i = some h ∧ h.t < hitRecord.t)
      ∧ (b = true →
          (∃ i, i < mesh.normals.length ∧ faceHit mesh ray i = some r)
          ∧ ∀ i h, i < mesh.normals.length → faceHit mesh ray i = some h → r.t ≤ h.t)
      ∧ (b = false → r = hitRecord) := by
  obtain ⟨b, r, heq, hcase⟩ := meshLoop_closest mesh ray mesh.normals.length 0
    HitRecord.fresh hitRecord false
    (fun i _ hi => meshFace_isSome mesh hsize hidx hnormals i (by omega))
  refine ⟨b, r, ?_, ?_⟩
  · unfold HitTest_TriangleMesh
    rw [if_neg (by rw [hslab]; decide)]
    exact heq
  rcases hcase with ⟨hb, hrr, hall⟩ | ⟨hb, hrt, ⟨i, _, hi2, hi3⟩, hall⟩
  · subst hb hrr
    refine ⟨?_, ?_, fun _ => rfl⟩
    · constructor
      · intro h
        exact absurd h (by decide)
      · rintro ⟨i, h, hi, hf, hlt⟩
        exact absurd hlt (not_lt.mpr (hall i h (Nat.zero_le _) (by omega) hf))
    · intro h
      exact absurd h (by decide)
  · subst hb
    refine ⟨?_, ?_, ?_⟩
    · constructor
      · intro _
        exact ⟨i, r, by omega, hi3, hrt⟩
      · intro _
        rfl
    · intro _
      exact ⟨⟨i, by omega, hi3⟩, fun j h hj hf => hall j h (Nat.zero_le _) (by omega) hf⟩
    · intro h
      exact absurd h (by decide)

/-- Witness of C6: a mesh of two faces met by the ray at `t = 2` (first face) and at
`t = 1` (second face). -/
theorem HitTest_TriangleMesh_closest_witness :
    ∃ b r, HitTest_TriangleMesh twoFaceMesh rayThroughUnitTriangle HitRecord.fresh false
        = some (b, r)
      ∧ (b = true ↔
          ∃ i h, i < twoFaceMesh.normals.length
            ∧ faceHit twoFaceMesh rayThroughUnitTriangle i = some h
            ∧ h.t < (HitRecord.fresh : HitRecord ℚ).t)
      ∧ (b = true →
          (∃ i, i < twoFaceMesh.normals.length
            ∧ faceHit twoFaceMesh rayThroughUnitTriangle i = some r)
          ∧ ∀ i h, i < twoFaceMesh.normals.length →
              faceHit twoFaceMesh rayThroughUnitTriangle i = some h → r.t ≤ h.t)
      ∧ (b = false → r = HitRecord.fresh) :=
  HitTest_TriangleMesh_closest twoFaceMesh rayThroughUnitTriangle HitRecord.fresh
    (by simp [twoFaceMesh])
    (by simp [twoFaceMesh])
    (by simp [twoFaceMesh])
    (by norm_num [SlabTest_TriangleMesh, twoFaceMesh, rayThroughUnitTriangle, FloatVal.div,
      FloatVal.min, FloatVal.max, FloatVal.lt, FloatVal.ge])

/-- The closest-hit mesh test on the two-face mesh, evaluated: the record is the hit
of the second, nearer face. -/
theorem HitTest_TriangleMesh_twoFaceMesh :
    HitTest_TriangleMesh twoFaceMesh rayThroughUnitTriangle HitRecord.fresh false
      = some (true, { origin := ⟨1 / 4, 1 / 4, 0⟩, normal := ⟨0, 0, 1⟩, t := 1, didHit := true,
                      materialIndex := 4 }) := by
  have hslab : SlabTest_TriangleMesh twoFaceMesh rayThroughUnitTriangle = true := by
    norm_num [SlabTest_TriangleMesh, twoFaceMesh, rayThroughUnitTriangle, FloatVal.div,
      FloatVal.min, FloatVal.max, FloatVal.lt, FloatVal.ge]
  have f0 : meshFace twoFaceMesh 0
      = some ((⟨0, 0, 1⟩ : Vector3 ℚ), (⟨1, 0, 1⟩ : Vector3 ℚ), (⟨0, 1, 1⟩ : Vector3 ℚ),
          (⟨0, 0, 1⟩ : Vector3 ℚ)) := rfl
  have f1 : meshFace twoFaceMesh (0 + 1)
      = some ((⟨0, 0, 0⟩ : Vector3 ℚ), (⟨1, 0, 0⟩ : Vector3 ℚ), (⟨0, 1, 0⟩ : Vector3 ℚ),
          (⟨0, 0, 1⟩ : Vector3 ℚ)) := rfl
  have hn : twoFaceMesh.normals.length = 2 := rfl
  simp only [HitTest_TriangleMesh, hslab, hn, meshLoop, f0, f1]
  norm_num [twoFaceMesh, rayThroughUnitTriangle, HitTest_Triangle_Moller_raw, Vector3.Dot,
    Vector3.Cross, Vector3.sub_def, Vector3.add_def, Vector3.smul_def, FLT_EPSILON,
    HitRecord.fresh, FLT_MAX]

/-! ## Lighting mode, the order of the cycle -/

/-- C11, the code at the failing inputs. From `BRDF` the mode cycles to
`ObservedArea`, not to `Combined`; from `Combined` it cycles to `Radiance`, not to
`ObservedArea`; and no mode at all cycles to `Combined`. -/
theorem CycleLightMode_skips_Combined :
    CycleLightMode LightingMode.BRDF = LightingMode.ObservedArea
    ∧ CycleLightMode LightingMode.Combined = LightingMode.Radiance
    ∧ ∀ m : LightingMode, CycleLightMode m ≠ LightingMode.Combined := by
  refine ⟨by decide, by decide, ?_⟩
  intro m h
  have h3 : Int.tmod (m + 1) 3 < 3 := Int.tmod_lt_of_pos (m + 1) (by decide)
  have hc : CycleLightMode m = Int.tmod (m + 1) 3 := rfl
  have h4 : LightingMode.Combined = 3 := rfl
  rw [hc, h4] at h
  exact ne_of_lt h3 h

/-! ## Sphere, the whole result -/

/-- The whole result of `HitTest_Sphere` in terms of the quantities of the
specification. -/
theorem HitTest_Sphere_eq (sqrtf : K → K) (sphere : Sphere K) (ray : Ray K)
    (hitRecord : HitRecord K) (ignoreHitRecord : Bool) :
    HitTest_Sphere sqrtf sphere ray hitRecord ignoreHitRecord =
      if sphereDiscriminant sphere ray > 0
          ∧ ray.min < sphereNearRoot sqrtf sphere ray ∧ sphereNearRoot sqrtf sphere ray < ray.max
      then
        (true, { origin := ray.origin + sphereNearRoot sqrtf sphere ray * ray.direction,
                 normal := Vector3.Normalized sqrtf
                   ((ray.origin + sphereNearRoot sqrtf sphere ray * ray.direction)
                     - sphere.origin),
                 t := sphereNearRoot sqrtf sphere ray,
                 didHit := true,
                 materialIndex := sphere.materialIndex })
      else (false, { hitRecord with didHit := false }) := by
  by_cases h : sphereDiscriminant sphere ray > 0
      ∧ ray.min < sphereNearRoot sqrtf sphere ray ∧ sphereNearRoot sqrtf sphere ray < ray.max
  · rw [if_pos h]
    exact HitTest_Sphere_of_near_root sqrtf sphere ray hitRecord ignoreHitRecord h.1 h.2.1 h.2.2
  · rw [if_neg h]
    unfold HitTest_Sphere
    simp only [sphere_code_discriminant, sphere_code_root]
    by_cases hd : sphereDiscriminant sphere ray > 0
    · have h2 : ¬ (ray.min < sphereNearRoot sqrtf sphere ray
          ∧ sphereNearRoot sqrtf sphere ray < ray.max) := fun h3 => h ⟨hd, h3⟩
      simp [hd, h2]
    · simp [hd]

/-- In exact arithmetic. The unit sphere and a ray from `(0, 0, −4)` with the
direction `(0, 0, 2)` of length two: the test reports a hit at `t = 1` in the point
`(0, 0, −2)`, whose squared distance from the centre is `4`, not `radius² = 1`. -/
theorem HitTest_Sphere_non_unit_direction :
    rayOfLengthTwo.direction ≠ ⟨0, 0, 0⟩
    ∧ IsSqrt (sqrtf_196_4 (sphereDiscriminant unitSphere rayOfLengthTwo))
        (sphereDiscriminant unitSphere rayOfLengthTwo)
    ∧ (HitTest_Sphere sqrtf_196_4 unitSphere rayOfLengthTwo HitRecord.fresh false).1 = true
    ∧ (HitTest_Sphere sqrtf_196_4 unitSphere rayOfLengthTwo HitRecord.fresh false).2.t = 1
    ∧ (HitTest_Sphere sqrtf_196_4 unitSphere rayOfLengthTwo HitRecord.fresh false).2.origin
        = ⟨0, 0, -2⟩
    ∧ Vector3.SqrMagnitude
        ((HitTest_Sphere sqrtf_196_4 unitSphere rayOfLengthTwo HitRecord.fresh false).2.origin
          - unitSphere.origin) = 4
    ∧ unitSphere.radius ^ 2 = 1 := by
  have hd : sphereDiscriminant unitSphere rayOfLengthTwo = 196 := by
    norm_num [sphereDiscriminant, sphereB, sphereC, unitSphere, rayOfLengthTwo,
      Vector3.Dot, Vector3.SqrMagnitude, Vector3.sub_def]
  have hr : HitTest_Sphere sqrtf_196_4 unitSphere rayOfLengthTwo HitRecord.fresh false
      = (true, { origin := ⟨0, 0, -2⟩, normal := ⟨0, 0, -1⟩, t := 1, didHit := true,
                 materialIndex := 7 }) := by
    norm_num [HitTest_Sphere, unitSphere, rayOfLengthTwo, sqrtf_196_4, Vector3.Dot,
      Vector3.sub_def, Vector3.add_def, Vector3.smul_def, Square, Vector3.Normalized,
      Vector3.Magnitude, Vector3.SqrMagnitude, HitRecord.fresh]
  rw [hr, hd]
  refine ⟨by norm_num [rayOfLengthTwo], by norm_num [IsSqrt, sqrtf_196_4], rfl, rfl, rfl, ?_, ?_⟩
  · norm_num [unitSphere, Vector3.SqrMagnitude, Vector3.sub_def]
  · norm_num [unitSphere]

/-- In exact arithmetic. For a ray with a direction of unit length (`|D|² = 1`), whenever
`HitTest_Sphere` reports a hit the recorded point `ray.origin + t·ray.direction`
lies on the sphere: `|hitPoint − centre|² = radius²`. -/
theorem HitTest_Sphere_hit_on_sphere (sqrtf : K → K) (sphere : Sphere K) (ray : Ray K)
    (hitRecord : HitRecord K) (ignoreHitRecord : Bool)
    (hunit : Vector3.SqrMagnitude ray.direction = 1)
    (hsqrt : IsSqrt (sqrtf (sphereDiscriminant sphere ray)) (sphereDiscriminant sphere ray))
    (hhit : (HitTest_Sphere sqrtf sphere ray hitRecord ignoreHitRecord).1 = true) :
    (HitTest_Sphere sqrtf sphere ray hitRecord ignoreHitRecord).2.origin
        = ray.origin
          + (HitTest_Sphere sqrtf sphere ray hitRecord ignoreHitRecord).2.t * ray.direction
    ∧ Vector3.SqrMagnitude
        ((HitTest_Sphere sqrtf sphere ray hitRecord ignoreHitRecord).2.origin - sphere.origin)
        = sphere.radius ^ 2 := by
  rw [HitTest_Sphere_eq] at hhit ⊢
  split_ifs at hhit ⊢ with h
  exact ⟨rfl, sphere_near_root_on_sphere sqrtf sphere ray hunit hsqrt⟩

/-- An instance in exact arithmetic: the unit sphere seen from `(0, 0, −5)` along the unit direction
`+z`; the recorded point is at squared distance `1` from the centre. -/
theorem HitTest_Sphere_hit_on_sphere_witness :
    Vector3.SqrMagnitude
      ((HitTest_Sphere sqrtf_4_1 unitSphere rayTowardsUnitSphere HitRecord.fresh false).2.origin
        - unitSphere.origin) = unitSphere.radius ^ 2 := by
  have hd : sphereDiscriminant unitSphere rayTowardsUnitSphere = 4 := by
    norm_num [sphereDiscriminant, sphereB, sphereC, unitSphere, rayTowardsUnitSphere,
      Vector3.Dot, Vector3.SqrMagnitude, Vector3.sub_def]
  exact (HitTest_Sphere_hit_on_sphere sqrtf_4_1 unitSphere rayTowardsUnitSphere HitRecord.fresh
    false
    (by norm_num [Vector3.SqrMagnitude, rayTowardsUnitSphere])
    (by rw [hd]; norm_num [IsSqrt, sqrtf_4_1])
    (by norm_num [HitTest_Sphere, unitSphere, rayTowardsUnitSphere, sqrtf_4_1, Vector3.Dot,
      Vector3.sub_def, Vector3.smul_def, Square])).2

/-- The whole result of the Möller–Trumbore test on a `Triangle`, step by step. -/
theorem HitTest_Triangle_Moller_eq (triangle : Triangle K) (ray : Ray K)
    (hitRecord : HitRecord K) (ignoreHitRecord : Bool) :
    HitTest_Triangle_Moller triangle ray hitRecord ignoreHitRecord =
      if cullStepRejects triangle.cullMode (cullDot triangle.normal ray ignoreHitRecord) = true
      then (false, hitRecord)
      else if mollerAccepts triangle ray then
        (true, { origin := ((1 - mollerU triangle ray - mollerV triangle ray) * triangle.v0
                    + mollerU triangle ray * triangle.v1) + mollerV triangle ray * triangle.v2,
                 normal := triangle.normal,
                 t := mollerT triangle ray,
                 didHit := true,
                 materialIndex := triangle.materialIndex })
      else (false, hitRecord) := by
  have hcull : (match triangle.cullMode with
      | TriangleCullMode.FrontFaceCulling =>
        decide ((if ignoreHitRecord then Vector3.Dot triangle.normal ray.direction * (-1)
          else Vector3.Dot triangle.normal ray.direction) ≤ 0)
      | TriangleCullMode.BackFaceCulling =>
        decide ((if ignoreHitRecord then Vector3.Dot triangle.normal ray.direction * (-1)
          else Vector3.Dot triangle.normal ray.direction) ≥ 0)
      | TriangleCullMode.NoCulling =>
        decide (|(if ignoreHitRecord then Vector3.Dot triangle.normal ray.direction * (-1)
          else Vector3.Dot triangle.normal ray.direction)| < FLT_EPSILON))
      = cullStepRejects triangle.cullMode (cullDot triangle.normal ray ignoreHitRecord) := by
    unfold cullStepRejects cullDot
    cases triangle.cullMode <;> cases ignoreHitRecord <;> simp
  unfold HitTest_Triangle_Moller
  simp only [hcull]
  by_cases hc : cullStepRejects triangle.cullMode
      (cullDot triangle.normal ray ignoreHitRecord) = true
  · simp only [hc, if_true]
  · simp only [hc, Bool.false_eq_true, if_false]
    unfold mollerAccepts mollerDet mollerU mollerV mollerT
    simp only [abs_lt]
    split_ifs <;> simp_all

/-- The raw-vertex overload returns what the `Triangle` overload returns on the
triangle made of its arguments. -/
theorem HitTest_Triangle_Moller_raw_eq (v0 v1 v2 normal : Vector3 K)
    (cullmode : TriangleCullMode) (materialIndex : Nat) (ray : Ray K)
    (hitRecord : HitRecord K) (ignoreHitRecord : Bool) :
    HitTest_Triangle_Moller_raw v0 v1 v2 normal cullmode materialIndex ray hitRecord
        ignoreHitRecord
      = HitTest_Triangle_Moller
          { v0 := v0, v1 := v1, v2 := v2, normal := normal, cullMode := cullmode,
            materialIndex := materialIndex } ray hitRecord ignoreHitRecord := by
  unfold HitTest_Triangle_Moller_raw HitTest_Triangle_Moller
  simp only [abs_lt]

/-- Cramer's rule for the system the Möller–Trumbore test solves: with a non-zero
determinant the barycentric point is the point of the ray at the computed `t`. -/
theorem moller_point_on_ray (triangle : Triangle K) (ray : Ray K)
    (hdet : mollerDet triangle ray ≠ 0) :
    ((1 - mollerU triangle ray - mollerV triangle ray) * triangle.v0
        + mollerU triangle ray * triangle.v1) + mollerV triangle ray * triangle.v2
      = ray.origin + mollerT triangle ray * ray.direction := by
  obtain ⟨⟨x0, y0, z0⟩, ⟨x1, y1, z1⟩, ⟨x2, y2, z2⟩, n, cull, mat⟩ := triangle
  obtain ⟨⟨ox, oy, oz⟩, ⟨dx, dy, dz⟩, mn, mx⟩ := ray
  simp only [mollerDet, mollerU, mollerV, mollerT, Vector3.Dot, Vector3.Cross, Vector3.sub_def,
    Vector3.add_def, Vector3.smul_def] at hdet ⊢
  have h1 : 1 / ((x1 - x0) * (dy * (z2 - z0) - dz * (y2 - y0))
      + (y1 - y0) * (dz * (x2 - x0) - dx * (z2 - z0))
      + (z1 - z0) * (dx * (y2 - y0) - dy * (x2 - x0)))
      * ((x1 - x0) * (dy * (z2 - z0) - dz * (y2 - y0))
      + (y1 - y0) * (dz * (x2 - x0) - dx * (z2 - z0))
      + (z1 - z0) * (dx * (y2 - y0) - dy * (x2 - x0))) = 1 := one_div_mul_cancel hdet
  generalize 1 / ((x1 - x0) * (dy * (z2 - z0) - dz * (y2 - y0))
      + (y1 - y0) * (dz * (x2 - x0) - dx * (z2 - z0))
      + (z1 - z0) * (dx * (y2 - y0) - dy * (x2 - x0))) = i at h1 ⊢
  ext
  · simp only []
    linear_combination (ox - x0) * h1
  · simp only []
    linear_combination (oy - y0) * h1
  · simp only []
    linear_combination (oz - z0) * h1

/-- In exact arithmetic. The ray meets `unitTriangle` at `t = 1`, which is exactly
its `max`: both variants of the Möller–Trumbore test report the hit and record
`t = ray.max`. -/
theorem HitTest_Triangle_Moller_accepts_t_eq_max :
    rayEndingOnUnitTriangle.max = 1
    ∧ HitTest_Triangle_Moller (unitTriangle TriangleCullMode.NoCulling) rayEndingOnUnitTriangle
        HitRecord.fresh false
      = (true, { origin := ⟨1 / 4, 1 / 4, 0⟩, normal := ⟨0, 0, 1⟩, t := 1, didHit := true,
                 materialIndex := 3 })
    ∧ HitTest_Triangle_Moller_raw ⟨0, 0, 0⟩ ⟨1, 0, 0⟩ ⟨0, 1, 0⟩ ⟨0, 0, 1⟩
        TriangleCullMode.NoCulling 3 rayEndingOnUnitTriangle HitRecord.fresh false
      = (true, { origin := ⟨1 / 4, 1 / 4, 0⟩, normal := ⟨0, 0, 1⟩, t := 1, didHit := true,
                 materialIndex := 3 }) := by
  refine ⟨rfl, ?_, ?_⟩
  · norm_num [HitTest_Triangle_Moller, unitTriangle, rayEndingOnUnitTriangle, Vector3.Dot,
      Vector3.Cross, Vector3.sub_def, Vector3.add_def, Vector3.smul_def, FLT_EPSILON,
      HitRecord.fresh]
  · norm_num [HitTest_Triangle_Moller_raw, rayEndingOnUnitTriangle, Vector3.Dot,
      Vector3.Cross, Vector3.sub_def, Vector3.add_def, Vector3.smul_def, FLT_EPSILON,
      HitRecord.fresh]

/-- In exact arithmetic. For both variants of the Möller–Trumbore test a computed `t`
outside the closed interval `[min, max]` is rejected: whenever the test reports a
hit the recorded `t` satisfies `ray.min ≤ t ≤ ray.max` (the two ends are hits). -/
theorem HitTest_Triangle_Moller_t_in_range (triangle : Triangle K) (ray : Ray K)
    (hitRecord : HitRecord K) (ignoreHitRecord : Bool) :
    ((HitTest_Triangle_Moller triangle ray hitRecord ignoreHitRecord).1 = true →
      ray.min ≤ (HitTest_Triangle_Moller triangle ray hitRecord ignoreHitRecord).2.t
      ∧ (HitTest_Triangle_Moller triangle ray hitRecord ignoreHitRecord).2.t ≤ ray.max)
    ∧ ((HitTest_Triangle_Moller_raw triangle.v0 triangle.v1 triangle.v2 triangle.normal
          triangle.cullMode triangle.materialIndex ray hitRecord ignoreHitRecord).1 = true →
      ray.min ≤ (HitTest_Triangle_Moller_raw triangle.v0 triangle.v1 triangle.v2
          triangle.normal triangle.cullMode triangle.materialIndex ray hitRecord
          ignoreHitRecord).2.t
      ∧ (HitTest_Triangle_Moller_raw triangle.v0 triangle.v1 triangle.v2 triangle.normal
          triangle.cullMode triangle.materialIndex ray hitRecord ignoreHitRecord).2.t
        ≤ ray.max) := by
  rw [HitTest_Triangle_Moller_raw_eq, and_self, HitTest_Triangle_Moller_eq]
  intro h
  split_ifs at h ⊢ with h1 h2
  have h3 := h2.2.2.2
  rw [not_or, not_lt, not_lt] at h3
  exact h3

/-- An instance in exact arithmetic: the hit of `unitTriangle` at `t = 1` lies in the interval of
the ray. -/
theorem HitTest_Triangle_Moller_t_in_range_witness :
    rayThroughUnitTriangle.min
        ≤ (HitTest_Triangle_Moller (unitTriangle TriangleCullMode.NoCulling)
            rayThroughUnitTriangle HitRecord.fresh false).2.t
    ∧ (HitTest_Triangle_Moller (unitTriangle TriangleCullMode.NoCulling)
        rayThroughUnitTriangle HitRecord.fresh false).2.t ≤ rayThroughUnitTriangle.max :=
  (HitTest_Triangle_Moller_t_in_range (unitTriangle TriangleCullMode.NoCulling)
    rayThroughUnitTriangle HitRecord.fresh false).1
    (by norm_num [HitTest_Triangle_Moller, unitTriangle, rayThroughUnitTriangle, Vector3.Dot,
      Vector3.Cross, Vector3.sub_def, FLT_EPSILON])

/-- In exact arithmetic. Whenever either variant of the Möller–Trumbore test reports a hit, the
recorded point `(1−u−v)·v0 + u·v1 + v·v2` is `ray.origin + t·ray.direction` for the
recorded `t`; nothing is assumed of the stored normal. -/
theorem HitTest_Triangle_Moller_point_on_ray (triangle : Triangle K) (ray : Ray K)
    (hitRecord : HitRecord K) (ignoreHitRecord : Bool) :
    ((HitTest_Triangle_Moller triangle ray hitRecord ignoreHitRecord).1 = true →
      (HitTest_Triangle_Moller triangle ray hitRecord ignoreHitRecord).2.origin
        = ((1 - mollerU triangle ray - mollerV triangle ray) * triangle.v0
            + mollerU triangle ray * triangle.v1) + mollerV triangle ray * triangle.v2
      ∧ (HitTest_Triangle_Moller triangle ray hitRecord ignoreHitRecord).2.origin
        = ray.origin
          + (HitTest_Triangle_Moller triangle ray hitRecord ignoreHitRecord).2.t
            * ray.direction)
    ∧ ((HitTest_Triangle_Moller_raw triangle.v0 triangle.v1 triangle.v2 triangle.normal
          triangle.cullMode triangle.materialIndex ray hitRecord ignoreHitRecord).1 = true →
      (HitTest_Triangle_Moller_raw triangle.v0 triangle.v1 triangle.v2 triangle.normal
          triangle.cullMode triangle.materialIndex ray hitRecord ignoreHitRecord).2.origin
        = ((1 - mollerU triangle ray - mollerV triangle ray) * triangle.v0
            + mollerU triangle ray * triangle.v1) + mollerV triangle ray * triangle.v2
      ∧ (HitTest_Triangle_Moller_raw triangle.v0 triangle.v1 triangle.v2 triangle.normal
          triangle.cullMode triangle.materialIndex ray hitRecord ignoreHitRecord).2.origin
        = ray.origin
          + (HitTest_Triangle_Moller_raw triangle.v0 triangle.v1 triangle.v2 triangle.normal
              triangle.cullMode triangle.materialIndex ray hitRecord ignoreHitRecord).2.t
            * ray.direction) := by
  rw [HitTest_Triangle_Moller_raw_eq, and_self, HitTest_Triangle_Moller_eq]
  intro h
  split_ifs at h ⊢ with h1 h2
  refine ⟨rfl, ?_⟩
  apply moller_point_on_ray
  intro h0
  apply h2.1
  rw [h0, abs_zero]
  exact FLT_EPSILON_pos

/-- An instance in exact arithmetic: the hit of `unitTriangle` is recorded in `(1/4, 1/4, 0)`, the
point of the ray at the recorded `t = 1`. -/
theorem HitTest_Triangle_Moller_point_on_ray_witness :
    (HitTest_Triangle_Moller (unitTriangle TriangleCullMode.NoCulling) rayThroughUnitTriangle
        HitRecord.fresh false).2.origin
      = rayThroughUnitTriangle.origin
        + (HitTest_Triangle_Moller (unitTriangle TriangleCullMode.NoCulling)
            rayThroughUnitTriangle HitRecord.fresh false).2.t
          * rayThroughUnitTriangle.direction :=
  ((HitTest_Triangle_Moller_point_on_ray (unitTriangle TriangleCullMode.NoCulling)
    rayThroughUnitTriangle HitRecord.fresh false).1
    (by norm_num [HitTest_Triangle_Moller, unitTriangle, rayThroughUnitTriangle, Vector3.Dot,
      Vector3.Cross, Vector3.sub_def, FLT_EPSILON])).2

/-! ## The per-light loop of Render -/

/-- In exact arithmetic. On `smallTriangle`, whose normal is
`normalize(cross(v1−v0, v2−v0))`, and the ray down its normal onto its centroid,
the plane-projection test reports a hit at `t = 1` in the centroid while the
Möller–Trumbore test returns false. -/
theorem HitTest_Triangle_differs_on_small_triangle :
    smallTriangle.normal = Vector3.Normalized sqrtf_small
        (Vector3.Cross (smallTriangle.v1 - smallTriangle.v0)
          (smallTriangle.v2 - smallTriangle.v0))
    ∧ HitTest_Triangle smallTriangle rayOntoSmallTriangle HitRecord.fresh false
        = (true, { origin := ⟨1 / 8192, 1 / 16384, 0⟩, normal := ⟨0, 0, 1⟩, t := 1,
                   didHit := true, materialIndex := 3 })
    ∧ HitTest_Triangle_Moller smallTriangle rayOntoSmallTriangle HitRecord.fresh false
        = (false, HitRecord.fresh) := by
  refine ⟨?_, ?_, ?_⟩
  · norm_num [smallTriangle, Vector3.Normalized, Vector3.Magnitude, Vector3.SqrMagnitude,
      Vector3.Cross, Vector3.sub_def, sqrtf_small]
  · norm_num [HitTest_Triangle, smallTriangle, rayOntoSmallTriangle, Vector3.Dot,
      Vector3.Cross, Vector3.sub_def, Vector3.add_def, Vector3.muls_def, FLT_EPSILON,
      HitRecord.fresh, List.range, List.range.loop]
  · norm_num [HitTest_Triangle_Moller, smallTriangle, rayOntoSmallTriangle, Vector3.Dot,
      Vector3.Cross, Vector3.sub_def, FLT_EPSILON]

/-- A vector of squared length zero has zero components. -/
theorem Vector3.eq_zero_of_sqrMagnitude (a : Vector3 K) (h : Vector3.SqrMagnitude a = 0) :
    a.x = 0 ∧ a.y = 0 ∧ a.z = 0 := by
  simp only [Vector3.SqrMagnitude] at h
  refine ⟨?_, ?_, ?_⟩ <;> apply mul_self_eq_zero.mp <;>
    linarith [mul_self_nonneg a.x, mul_self_nonneg a.y, mul_self_nonneg a.z]

/-- The scalar products of the plane-projection test in terms of those of the
Möller–Trumbore test, for a normal that is the edge cross product scaled by `p` and
a point given by barycentric coordinates `u`, `v`: polynomial identities. -/
theorem plane_projection_identities (v0 v1 v2 o d : Vector3 K) (p u v : K) :
    Vector3.Dot (v0 - o) (p * Vector3.Cross (v1 - v0) (v2 - v0))
      = -(p * Vector3.Dot (v2 - v0) (Vector3.Cross (o - v0) (v1 - v0)))
    ∧ Vector3.Dot d (p * Vector3.Cross (v1 - v0) (v2 - v0))
      = -(p * Vector3.Dot (v1 - v0) (Vector3.Cross d (v2 - v0)))
    ∧ Vector3.Dot (Vector3.Cross (v1 - v0) ((((1 - u - v) * v0 + u * v1) + v * v2) - v0))
        (p * Vector3.Cross (v1 - v0) (v2 - v0))
      = v * (p * Vector3.SqrMagnitude (Vector3.Cross (v1 - v0) (v2 - v0)))
    ∧ Vector3.Dot (Vector3.Cross (v2 - v1) ((((1 - u - v) * v0 + u * v1) + v * v2) - v1))
        (p * Vector3.Cross (v1 - v0) (v2 - v0))
      = (1 - u - v) * (p * Vector3.SqrMagnitude (Vector3.Cross (v1 - v0) (v2 - v0)))
    ∧ Vector3.Dot (Vector3.Cross (v0 - v2) ((((1 - u - v) * v0 + u * v1) + v * v2) - v2))
        (p * Vector3.Cross (v1 - v0) (v2 - v0))
      = u * (p * Vector3.SqrMagnitude (Vector3.Cross (v1 - v0) (v2 - v0))) := by
  obtain ⟨x0, y0, z0⟩ := v0
  obtain ⟨x1, y1, z1⟩ := v1
  obtain ⟨x2, y2, z2⟩ := v2
  obtain ⟨ox, oy, oz⟩ := o
  obtain ⟨dx, dy, dz⟩ := d
  simp only [Vector3.Dot, Vector3.Cross, Vector3.SqrMagnitude, Vector3.sub_def, Vector3.add_def,
    Vector3.smul_def]
  refine ⟨?_, ?_, ?_, ?_, ?_⟩ <;> ring

/-- With the normal `normalize(cross(v1−v0, v2−v0))` and a determinant that is not
zero, the quantities the plane-projection test computes are those of the
Möller–Trumbore test: the same `t`, the same point, and edge sign tests that are
`v`, `1−u−v` and `u` times the length of the cross product. -/
theorem plane_projection_quantities (sqrtf : K → K) (triangle : Triangle K) (ray : Ray K)
    (hn : triangle.normal = Vector3.Normalized sqrtf
      (Vector3.Cross (triangle.v1 - triangle.v0) (triangle.v2 - triangle.v0)))
    (hsq : IsSqrt
      (Vector3.Magnitude sqrtf
        (Vector3.Cross (triangle.v1 - triangle.v0) (triangle.v2 - triangle.v0)))
      (Vector3.SqrMagnitude
        (Vector3.Cross (triangle.v1 - triangle.v0) (triangle.v2 - triangle.v0))))
    (hdet : mollerDet triangle ray ≠ 0) :
    ∃ m : K, 0 < m
    ∧ Vector3.Dot (triangle.v0 - ray.origin) triangle.normal
        / Vector3.Dot ray.direction triangle.normal = mollerT triangle ray
    ∧ ray.origin + ray.direction * mollerT triangle ray
      = ((1 - mollerU triangle ray - mollerV triangle ray) * triangle.v0
          + mollerU triangle ray * triangle.v1) + mollerV triangle ray * triangle.v2
    ∧ Vector3.Dot (Vector3.Cross (triangle.v1 - triangle.v0)
        ((((1 - mollerU triangle ray - mollerV triangle ray) * triangle.v0
          + mollerU triangle ray * triangle.v1) + mollerV triangle ray * triangle.v2)
          - triangle.v0)) triangle.normal = mollerV triangle ray * m
    ∧ Vector3.Dot (Vector3.Cross (triangle.v2 - triangle.v1)
        ((((1 - mollerU triangle ray - mollerV triangle ray) * triangle.v0
          + mollerU triangle ray * triangle.v1) + mollerV triangle ray * triangle.v2)
          - triangle.v1)) triangle.normal
        = (1 - mollerU triangle ray - mollerV triangle ray) * m
    ∧ Vector3.Dot (Vector3.Cross (triangle.v0 - triangle.v2)
        ((((1 - mollerU triangle ray - mollerV triangle ray) * triangle.v0
          + mollerU triangle ray * triangle.v1) + mollerV triangle ray * triangle.v2)
          - triangle.v2)) triangle.normal = mollerU triangle ray * m := by
  rw [Vector3.normalized_eq_scale] at hn
  obtain ⟨I1, I2, I3, I4, I5⟩ := plane_projection_identities triangle.v0 triangle.v1
    triangle.v2 ray.origin ray.direction
    (1 / Vector3.Magnitude sqrtf
      (Vector3.Cross (triangle.v1 - triangle.v0) (triangle.v2 - triangle.v0)))
    (mollerU triangle ray) (mollerV triangle ray)
  obtain ⟨hm0, hm⟩ := hsq
  rw [← hm] at I3 I4 I5
  rw [← hn] at I1 I2 I3 I4 I5
  have hdc : Vector3.Dot ray.direction
      (Vector3.Cross (triangle.v1 - triangle.v0) (triangle.v2 - triangle.v0))
      = -mollerDet triangle ray := by
    have := (plane_projection_identities triangle.v0 triangle.v1 triangle.v2 ray.origin
      ray.direction 1 0 0).2.1
    simp only [Vector3.smul_def, one_mul] at this
    simpa [mollerDet] using this
  generalize Vector3.Magnitude sqrtf
    (Vector3.Cross (triangle.v1 - triangle.v0) (triangle.v2 - triangle.v0)) = m at *
  have hmne : m ≠ 0 := by
    intro h0
    rw [h0, mul_zero] at hm
    obtain ⟨hx, hy, hz⟩ := Vector3.eq_zero_of_sqrMagnitude _ hm.symm
    apply hdet
    have : Vector3.Dot ray.direction
        (Vector3.Cross (triangle.v1 - triangle.v0) (triangle.v2 - triangle.v0)) = 0 := by
      simp only [Vector3.Dot, hx, hy, hz, mul_zero, add_zero]
    rw [hdc] at this
    exact neg_eq_zero.mp this
  have hmpos : 0 < m := lt_of_le_of_ne hm0 (Ne.symm hmne)
  have e1 : 1 / m * (m * m) = m := by
    rw [← mul_assoc, one_div_mul_cancel hmne, one_mul]
  rw [e1] at I3 I4 I5
  refine ⟨m, hmpos, ?_, ?_, I3, I4, I5⟩
  · rw [I1, I2, mollerT, neg_div_neg_eq, mul_div_mul_left _ _ (one_div_ne_zero hmne),
      mul_one_div]
  · exact (moller_point_on_ray triangle ray hdet).symm

/-- In exact arithmetic. For a triangle whose stored normal is
`normalize(cross(v1−v0, v2−v0))` and a ray for which the determinant guard of the
Möller–Trumbore test does not fire (`|det| ≥ FLT_EPSILON`), the plane-projection
test and the Möller–Trumbore test return the same boolean and leave the same
record (the same `t` and the same hit point on a hit), for both values of
`ignoreHitRecord`. -/
theorem HitTest_Triangle_eq_Moller (sqrtf : K → K) (triangle : Triangle K) (ray : Ray K)
    (hitRecord : HitRecord K) (ignoreHitRecord : Bool)
    (hn : triangle.normal = Vector3.Normalized sqrtf
      (Vector3.Cross (triangle.v1 - triangle.v0) (triangle.v2 - triangle.v0)))
    (hsq : IsSqrt
      (Vector3.Magnitude sqrtf
        (Vector3.Cross (triangle.v1 - triangle.v0) (triangle.v2 - triangle.v0)))
      (Vector3.SqrMagnitude
        (Vector3.Cross (triangle.v1 - triangle.v0) (triangle.v2 - triangle.v0))))
    (hdet : FLT_EPSILON ≤ |mollerDet triangle ray|) :
    HitTest_Triangle triangle ray hitRecord ignoreHitRecord
      = HitTest_Triangle_Moller triangle ray hitRecord ignoreHitRecord := by
  have hdet0 : mollerDet triangle ray ≠ 0 := by
    intro h0
    rw [h0, abs_zero] at hdet
    exact absurd FLT_EPSILON_pos (not_lt.mpr hdet)
  obtain ⟨m, hm, Ft, FP, E0, E1, E2⟩ := plane_projection_quantities sqrtf triangle ray hn hsq
    hdet0
  have hx : ∀ x : K, x * m < 0 ↔ x < 0 := fun x =>
    ⟨fun h => by
      by_contra hc
      have := mul_nonneg (not_lt.mp hc) hm.le
      exact absurd h (not_lt.mpr this),
     fun h => mul_neg_of_neg_of_pos h hm⟩
  have hiff : mollerAccepts triangle ray ↔
      (¬ (mollerT triangle ray < ray.min ∨ mollerT triangle ray > ray.max)
        ∧ ¬ (mollerV triangle ray < 0)
        ∧ ¬ (1 - mollerU triangle ray - mollerV triangle ray < 0)
        ∧ ¬ (mollerU triangle ray < 0)) := by
    unfold mollerAccepts
    constructor
    · rintro ⟨_, h2, h3, h4⟩
      rw [not_or, not_lt, not_lt] at h2 h3
      exact ⟨h4, not_lt.mpr h3.1, not_lt.mpr (by linarith [h3.2]), not_lt.mpr h2.1⟩
    · rintro ⟨h1, h2, h3, h4⟩
      rw [not_lt] at h2 h3 h4
      refine ⟨not_lt.mpr hdet, ?_, ?_, h1⟩
      · rw [not_or, not_lt, not_lt]
        exact ⟨h4, by linarith⟩
      · rw [not_or, not_lt, not_lt]
        exact ⟨h2, by linarith⟩
  have hcull : (match triangle.cullMode with
      | TriangleCullMode.FrontFaceCulling =>
        decide ((if ignoreHitRecord then Vector3.Dot triangle.normal ray.direction * (-1)
          else Vector3.Dot triangle.normal ray.direction) ≤ 0)
      | TriangleCullMode.BackFaceCulling =>
        decide ((if ignoreHitRecord then Vector3.Dot triangle.normal ray.direction * (-1)
          else Vector3.Dot triangle.normal ray.direction) ≥ 0)
      | TriangleCullMode.NoCulling =>
        decide (|(if ignoreHitRecord then Vector3.Dot triangle.normal ray.direction * (-1)
          else Vector3.Dot triangle.normal ray.direction)| < FLT_EPSILON))
      = cullStepRejects triangle.cullMode (cullDot triangle.normal ray ignoreHitRecord) := by
    unfold cullStepRejects cullDot
    cases triangle.cullMode <;> cases ignoreHitRecord <;> simp
  rw [HitTest_Triangle_Moller_eq]
  unfold HitTest_Triangle
  simp only [hcull]
  by_cases hc : cullStepRejects triangle.cullMode
      (cullDot triangle.normal ray ignoreHitRecord) = true
  · simp only [hc, if_true]
  · simp only [hc, Bool.false_eq_true, if_false, Ft, FP]
    have hr : List.range 3 = [0, 1, 2] := rfl
    simp only [List.length_cons, List.length_nil, Nat.zero_add, Nat.reduceAdd, Nat.reduceMod,
      hr, List.any_cons, List.any_nil, List.getD_cons_zero, List.getD_cons_succ, E0, E1, E2, hx,
      Bool.or_false, Bool.or_eq_true, decide_eq_true_eq]
    by_cases ha : mollerAccepts triangle ray
    · obtain ⟨h1, h2, h3, h4⟩ := hiff.mp ha
      have h5 : ¬ (mollerV triangle ray < 0
          ∨ 1 - mollerU triangle ray - mollerV triangle ray < 0
          ∨ mollerU triangle ray < 0) := by
        rintro (h | h | h)
        · exact h2 h
        · exact h3 h
        · exact h4 h
      rw [if_pos ha, if_neg h1, if_neg h5]
    · rw [if_neg ha]
      by_cases h1 : mollerT triangle ray < ray.min ∨ mollerT triangle ray > ray.max
      · rw [if_pos h1]
      · rw [if_neg h1]
        by_cases h2 : mollerV triangle ray < 0
            ∨ 1 - mollerU triangle ray - mollerV triangle ray < 0
            ∨ mollerU triangle ray < 0
        · rw [if_pos h2]
        · exact absurd (hiff.mpr ⟨h1, fun h => h2 (Or.inl h),
            fun h => h2 (Or.inr (Or.inl h)), fun h => h2 (Or.inr (Or.inr h))⟩) ha

/-- An instance in exact arithmetic: on the unit triangle and the ray through `(1/4, 1/4, 0)` the
two tests return the same result, a hit at `t = 1`. -/
theorem HitTest_Triangle_eq_Moller_witness :
    HitTest_Triangle (unitTriangle TriangleCullMode.NoCulling) rayThroughUnitTriangle
        HitRecord.fresh false
      = HitTest_Triangle_Moller (unitTriangle TriangleCullMode.NoCulling)
          rayThroughUnitTriangle HitRecord.fresh false :=
  HitTest_Triangle_eq_Moller sqrtf_4_1 (unitTriangle TriangleCullMode.NoCulling)
    rayThroughUnitTriangle HitRecord.fresh false
    (by norm_num [unitTriangle, Vector3.Normalized, Vector3.Magnitude, Vector3.SqrMagnitude,
      Vector3.Cross, Vector3.sub_def, sqrtf_4_1])
    (by norm_num [IsSqrt, unitTriangle, Vector3.Magnitude, Vector3.SqrMagnitude,
      Vector3.Cross, Vector3.sub_def, sqrtf_4_1])
    (by norm_num [mollerDet, unitTriangle, rayThroughUnitTriangle, Vector3.Dot, Vector3.Cross,
      Vector3.sub_def, FLT_EPSILON])

/-! ## The OBJ parser -/

/-- The defect of the reading loop. When the last line of the text ended with a line
feed, the loop is entered once more with all the text consumed and `eofbit` not
yet set; `file >> sCommand` then fails and leaves `sCommand` as it was, so after an
`f` line the `f` branch runs again and pushes three indices converted from floats
that were never assigned. -/
theorem parseLoop_after_last_line [FloorRing K] (parseFloat : List Char → Option K)
    (uninit : K × K × K) (fuel : Nat) (positions : List (Vector3 K)) (indices : List Int) :
    parseLoop parseFloat uninit (fuel + 1) { rest := [], eofbit := false, failbit := false }
        ['f'] positions indices
      = some (positions,
          indices ++ [truncToInt uninit.1 - 1, truncToInt uninit.2.1 - 1,
            truncToInt uninit.2.2 - 1]) := by
  have h1 : (['f'] : List Char) ≠ [Char.ofNat 35] := by decide
  have h2 : (['f'] : List Char) ≠ ['v'] := by decide
  simp [parseLoop, IfStream.readString, IfStream.readFloat, IfStream.sentry, IfStream.good,
    IfStream.ignore, h1, h2]

/-- C18, the code at the failing input. The text `v 0 0 0`, `v 1 0 0`, `v 0 1 0`,
`f 1 2 3` with every line ended by a line feed, parsed into empty vectors: the
reading loop leaves six indices, not three.  When the unassigned floats hold the
values `1, 2, 3` of the line before, the face is doubled (two normals); when they
hold `7, 8, 9` the normals loop reads `positions` out of range.  The same text
without the last line feed gives the three indices and the one normal of the
claim. -/
theorem ParseOBJ_trailing_line_feed :
    parseLoop parseDigit ((1 : ℚ), (2 : ℚ), (3 : ℚ)) (objText.length + 2)
        { rest := objText, eofbit := false, failbit := false } [] [] []
      = some ([⟨0, 0, 0⟩, ⟨1, 0, 0⟩, ⟨0, 1, 0⟩], [0, 1, 2, 0, 1, 2])
    ∧ ParseOBJ sqrtf_4_1 parseDigit ((1 : ℚ), (2 : ℚ), (3 : ℚ)) (some objText) [] [] []
      = some (true, [⟨0, 0, 0⟩, ⟨1, 0, 0⟩, ⟨0, 1, 0⟩], [⟨0, 0, 1⟩, ⟨0, 0, 1⟩],
          [0, 1, 2, 0, 1, 2])
    ∧ parseLoop parseDigit ((7 : ℚ), (8 : ℚ), (9 : ℚ)) (objText.length + 2)
        { rest := objText, eofbit := false, failbit := false } [] [] []
      = some ([⟨0, 0, 0⟩, ⟨1, 0, 0⟩, ⟨0, 1, 0⟩], [0, 1, 2, 6, 7, 8])
    ∧ ParseOBJ sqrtf_4_1 parseDigit ((7 : ℚ), (8 : ℚ), (9 : ℚ)) (some objText) [] [] [] = none
    ∧ ParseOBJ sqrtf_4_1 parseDigit ((7 : ℚ), (8 : ℚ), (9 : ℚ)) (some objTextUnterminated)
        [] [] []
      = some (true, [⟨0, 0, 0⟩, ⟨1, 0, 0⟩, ⟨0, 1, 0⟩], [⟨0, 0, 1⟩], [0, 1, 2]) := by
  have hl1 : parseLoop parseDigit ((1 : ℚ), (2 : ℚ), (3 : ℚ)) (objText.length + 2)
      { rest := objText, eofbit := false, failbit := false } [] [] []
      = some ([⟨0, 0, 0⟩, ⟨1, 0, 0⟩, ⟨0, 1, 0⟩], [0, 1, 2, 0, 1, 2]) := by decide
  have hl2 : parseLoop parseDigit ((7 : ℚ), (8 : ℚ), (9 : ℚ)) (objText.length + 2)
      { rest := objText, eofbit := false, failbit := false } [] [] []
      = some ([⟨0, 0, 0⟩, ⟨1, 0, 0⟩, ⟨0, 1, 0⟩], [0, 1, 2, 6, 7, 8]) := by decide
  have hl3 : parseLoop parseDigit ((7 : ℚ), (8 : ℚ), (9 : ℚ)) (objTextUnterminated.length + 2)
      { rest := objTextUnterminated, eofbit := false, failbit := false } [] [] []
      = some ([⟨0, 0, 0⟩, ⟨1, 0, 0⟩, ⟨0, 1, 0⟩], [0, 1, 2]) := by decide
  have hv0 : vectorAt [(⟨0, 0, 0⟩ : Vector3 ℚ), ⟨1, 0, 0⟩, ⟨0, 1, 0⟩] 0 = some ⟨0, 0, 0⟩ := rfl
  have hv1 : vectorAt [(⟨0, 0, 0⟩ : Vector3 ℚ), ⟨1, 0, 0⟩, ⟨0, 1, 0⟩] 1 = some ⟨1, 0, 0⟩ := rfl
  have hv2 : vectorAt [(⟨0, 0, 0⟩ : Vector3 ℚ), ⟨1, 0, 0⟩, ⟨0, 1, 0⟩] 2 = some ⟨0, 1, 0⟩ := rfl
  have hv6 : vectorAt [(⟨0, 0, 0⟩ : Vector3 ℚ), ⟨1, 0, 0⟩, ⟨0, 1, 0⟩] 6 = none := rfl
  have hnormal : Vector3.Normalized sqrtf_4_1
      (Vector3.Cross ((⟨1, 0, 0⟩ : Vector3 ℚ) - ⟨0, 0, 0⟩) ((⟨0, 1, 0⟩ : Vector3 ℚ) - ⟨0, 0, 0⟩))
      = ⟨0, 0, 1⟩ := by
    norm_num [Vector3.Normalized, Vector3.Magnitude, Vector3.SqrMagnitude, Vector3.Cross,
      Vector3.sub_def, sqrtf_4_1]
  refine ⟨hl1, ?_, hl2, ?_, ?_⟩
  · simp only [ParseOBJ, hl1, precomputeNormals, hv0, hv1, hv2, hnormal, List.nil_append,
      List.cons_append]
  · simp only [ParseOBJ, hl2, precomputeNormals, hv0, hv1, hv2, hv6, hnormal, List.nil_append]
  · simp only [ParseOBJ, hl3, precomputeNormals, hv0, hv1, hv2, hnormal, List.nil_append]

/-! ## Single precision on known values -/

/-- Single precision on a few known values: `0.1f`; ties, which go to the even
significand; the least subnormal `2⁻¹⁴⁹` and the underflow below it; `FLT_MAX` and
the overflow above it; `sqrtf(2)`; and `3 * (1 / 3)`, which is `1`. -/
theorem Binary32_known_values :
    Binary32.round (1 / 10) = FloatVal.finite (13421773 / 134217728)
    ∧ Binary32.round (1 + 1 / 16777216) = FloatVal.finite 1
    ∧ Binary32.round (1 + 3 / 16777216) = FloatVal.finite (1 + 1 / 4194304)
    ∧ Binary32.round (1 / 2 ^ 149) = FloatVal.finite (1 / 2 ^ 149)
    ∧ Binary32.round (1 / 2 ^ 150) = FloatVal.finite 0
    ∧ Binary32.round (3 / 2 ^ 150) = FloatVal.finite (1 / 2 ^ 148)
    ∧ Binary32.round FLT_MAX = FloatVal.finite FLT_MAX
    ∧ Binary32.round (FLT_MAX + 2 ^ 103) = FloatVal.posInf
    ∧ Binary32.round (FLT_MAX + 2 ^ 103 - 1) = FloatVal.finite FLT_MAX
    ∧ Binary32.sqrtf (FloatVal.finite 2) = FloatVal.finite (11863283 / 8388608)
    ∧ Binary32.div (FloatVal.finite 1) (FloatVal.finite 3)
        = FloatVal.finite (11184811 / 33554432)
    ∧ Binary32.mul (FloatVal.finite 3) (FloatVal.finite (11184811 / 33554432))
        = FloatVal.finite 1 := by
  decide!

/-! ## The hit tests on the operations of `float` -/

/-- The whole result of the sphere test on `float` in terms of the values it
computes. -/
theorem HitTest_Sphere_float_eq {F : Type} (A : FloatArith F) (sphere : Sphere F) (ray : Ray F)
    (hitRecord : HitRecord F) (ignoreHitRecord : Bool) :
    Fp.HitTest_Sphere A sphere ray hitRecord ignoreHitRecord =
      if A.lt (A.ofRat 0) (Fp.sphereDiscriminant A sphere ray) = true
          ∧ A.lt ray.min (Fp.sphereNearRoot A sphere ray) = true
          ∧ A.lt (Fp.sphereNearRoot A sphere ray) ray.max = true then
        (true,
          { origin := Fp.pointAt A ray (Fp.sphereNearRoot A sphere ray),
            normal := Fp.Normalized A
              (Fp.sub A (Fp.pointAt A ray (Fp.sphereNearRoot A sphere ray)) sphere.origin),
            t := Fp.sphereNearRoot A sphere ray,
            didHit := true,
            materialIndex := sphere.materialIndex })
      else (false, { hitRecord with didHit := false }) := by
  by_cases h1 : A.lt (A.ofRat 0) (Fp.sphereDiscriminant A sphere ray) = true
  · by_cases h2 : A.lt ray.min (Fp.sphereNearRoot A sphere ray) = true
    · by_cases h3 : A.lt (Fp.sphereNearRoot A sphere ray) ray.max = true
      · have h4 := A.lt_asymm _ _ h2
        simp only [Fp.sphereDiscriminant, Fp.sphereB, Fp.sphereC, Fp.sphereNearRoot,
          Fp.pointAt] at h1 h2 h3 h4 ⊢
        simp [-one_div, Fp.HitTest_Sphere, h1, h2, h3, h4]
      · simp only [Fp.sphereDiscriminant, Fp.sphereB, Fp.sphereC, Fp.sphereNearRoot,
          Fp.pointAt] at h1 h2 h3 ⊢
        simp [-one_div, Fp.HitTest_Sphere, h1, h2, h3]
    · simp only [Fp.sphereDiscriminant, Fp.sphereB, Fp.sphereC, Fp.sphereNearRoot,
        Fp.pointAt] at h1 h2 ⊢
      simp [-one_div, Fp.HitTest_Sphere, h1, h2]
  · simp only [Fp.sphereDiscriminant, Fp.sphereB, Fp.sphereC, Fp.sphereNearRoot,
      Fp.pointAt] at h1 ⊢
    simp [-one_div, Fp.HitTest_Sphere, h1]

/-- The whole result of the plane test on `float` in terms of the values it
computes. -/
theorem HitTest_Plane_float_eq {F : Type} (A : FloatArith F) (plane : Plane F) (ray : Ray F)
    (hitRecord : HitRecord F) (ignoreHitRecord : Bool) :
    Fp.HitTest_Plane A plane ray hitRecord ignoreHitRecord =
      if A.le (A.ofRat 0) (Fp.planeProjection A plane ray) = true then (false, hitRecord)
      else if A.lt ray.min (Fp.planeT A plane ray) = true
          ∧ A.lt (Fp.planeT A plane ray) ray.max = true then
        (true,
          { origin := Fp.pointAt A ray (Fp.planeT A plane ray),
            normal := plane.normal,
            t := Fp.planeT A plane ray,
            didHit := true,
            materialIndex := plane.materialIndex })
      else (false, { hitRecord with didHit := false }) := by
  by_cases h1 : A.le (A.ofRat 0) (Fp.planeProjection A plane ray) = true
  · simp only [Fp.planeProjection] at h1 ⊢
    simp [Fp.HitTest_Plane, h1]
  · by_cases h2 : A.lt ray.min (Fp.planeT A plane ray) = true
    · by_cases h3 : A.lt (Fp.planeT A plane ray) ray.max = true
      · simp only [Fp.planeProjection, Fp.planeT, Fp.pointAt] at h1 h2 h3 ⊢
        simp [Fp.HitTest_Plane, h1, h2, h3]
      · simp only [Fp.planeProjection, Fp.planeT, Fp.pointAt] at h1 h2 h3 ⊢
        simp [Fp.HitTest_Plane, h1, h2, h3]
    · simp only [Fp.planeProjection, Fp.planeT, Fp.pointAt] at h1 h2 ⊢
      simp [Fp.HitTest_Plane, h1, h2]

/-- The whole result of the `Triangle` variant of the Möller–Trumbore test on
`float` in terms of the values it computes. -/
theorem HitTest_Triangle_Moller_float_eq {F : Type} (A : FloatArith F) (triangle : Triangle F)
    (ray : Ray F) (hitRecord : HitRecord F) (ignoreHitRecord : Bool) :
    Fp.HitTest_Triangle_Moller A triangle ray hitRecord ignoreHitRecord =
      if (Fp.cullStep A triangle.normal triangle.cullMode ray ignoreHitRecord
          || Fp.mollerDetNearZero A triangle.v0 triangle.v1 triangle.v2 ray
          || Fp.mollerOutside A triangle.v0 triangle.v1 triangle.v2 ray) = true then
        (false, hitRecord)
      else
        (true,
          { origin := Fp.mollerPoint A triangle.v0 triangle.v1 triangle.v2 ray,
            normal := triangle.normal,
            t := Fp.mollerT A triangle.v0 triangle.v1 triangle.v2 ray,
            didHit := true,
            materialIndex := triangle.materialIndex }) := by
  simp only [Fp.HitTest_Triangle_Moller, Fp.cullStep, Fp.mollerDetNearZero, Fp.mollerOutside,
    Fp.mollerDet, Fp.mollerU, Fp.mollerV, Fp.mollerT, Fp.mollerPoint]
  split_ifs <;> simp_all

/-- The whole result of the raw-vertex variant of the Möller–Trumbore test on
`float` in terms of the values it computes. -/
theorem HitTest_Triangle_Moller_raw_float_eq {F : Type} (A : FloatArith F)
    (v0 v1 v2 normal : Vector3 F) (cullmode : TriangleCullMode) (materialIndex : Nat)
    (ray : Ray F) (hitRecord : HitRecord F) (ignoreHitRecord : Bool) :
    Fp.HitTest_Triangle_Moller_raw A v0 v1 v2 normal cullmode materialIndex ray hitRecord
        ignoreHitRecord =
      if (Fp.cullStep A normal cullmode ray ignoreHitRecord
          || Fp.mollerDetNearZero_raw A v0 v1 v2 ray
          || Fp.mollerOutside A v0 v1 v2 ray) = true then
        (false, hitRecord)
      else
        (true,
          { origin := Fp.mollerPoint A v0 v1 v2 ray,
            normal := normal,
            t := Fp.mollerT A v0 v1 v2 ray,
            didHit := true,
            materialIndex := materialIndex }) := by
  simp only [Fp.HitTest_Triangle_Moller_raw, Fp.cullStep, Fp.mollerDetNearZero_raw,
    Fp.mollerOutside, Fp.mollerDet, Fp.mollerU, Fp.mollerV, Fp.mollerT, Fp.mollerPoint]
  split_ifs <;> simp_all

/-- Vector addition on exact arithmetic. -/
theorem exactArith_add (sqrtf : K → K) (a b : Vector3 K) :
    Fp.add (exactArith sqrtf) a b = a + b := rfl

/-- Vector subtraction on exact arithmetic. -/
theorem exactArith_sub (sqrtf : K → K) (a b : Vector3 K) :
    Fp.sub (exactArith sqrtf) a b = a - b := rfl

/-- Scaling of a vector on exact arithmetic. -/
theorem exactArith_scale (sqrtf : K → K) (s : K) (a : Vector3 K) :
    Fp.scale (exactArith sqrtf) s a = s * a := rfl

/-- Scaling of a vector from the right on exact arithmetic. -/
theorem exactArith_scaleRight (sqrtf : K → K) (a : Vector3 K) (s : K) :
    Fp.scaleRight (exactArith sqrtf) a s = a * s := by
  simp [Fp.scaleRight, exactArith, Vector3.muls_def, mul_comm]

/-- The dot product on exact arithmetic. -/
theorem exactArith_Dot (sqrtf : K → K) (a b : Vector3 K) :
    Fp.Dot (exactArith sqrtf) a b = Vector3.Dot a b := rfl

/-- The cross product on exact arithmetic. -/
theorem exactArith_Cross (sqrtf : K → K) (a b : Vector3 K) :
    Fp.Cross (exactArith sqrtf) a b = Vector3.Cross a b := rfl

/-- Normalisation on exact arithmetic. -/
theorem exactArith_Normalized (sqrtf : K → K) (a : Vector3 K) :
    Fp.Normalized (exactArith sqrtf) a = Vector3.Normalized sqrtf a := rfl

/-- The plane test of the first sections is the plane test on exact arithmetic. -/
theorem HitTest_Plane_exactArith (sqrtf : K → K) (plane : Plane K) (ray : Ray K)
    (hitRecord : HitRecord K) (ignoreHitRecord : Bool) :
    Fp.HitTest_Plane (exactArith sqrtf) plane ray hitRecord ignoreHitRecord
      = HitTest_Plane plane ray hitRecord ignoreHitRecord := by
  simp only [Fp.HitTest_Plane, HitTest_Plane, exactArith_add, exactArith_sub, exactArith_scale,
    exactArith_Dot]
  simp [exactArith]

/-- The sphere test of the first sections is the sphere test on exact arithmetic. -/
theorem HitTest_Sphere_exactArith (sqrtf : K → K) (sphere : Sphere K) (ray : Ray K)
    (hitRecord : HitRecord K) (ignoreHitRecord : Bool) :
    Fp.HitTest_Sphere (exactArith sqrtf) sphere ray hitRecord ignoreHitRecord
      = HitTest_Sphere sqrtf sphere ray hitRecord ignoreHitRecord := by
  simp only [Fp.HitTest_Sphere, HitTest_Sphere, exactArith_add, exactArith_sub, exactArith_scale,
    exactArith_Dot, exactArith_Normalized, Fp.Square, Square]
  simp [exactArith]

/-- The Möller–Trumbore test of the first sections is the Möller–Trumbore test on
exact arithmetic. -/
theorem HitTest_Triangle_Moller_exactArith (sqrtf : K → K) (triangle : Triangle K) (ray : Ray K)
    (hitRecord : HitRecord K) (ignoreHitRecord : Bool) :
    Fp.HitTest_Triangle_Moller (exactArith sqrtf) triangle ray hitRecord ignoreHitRecord
      = HitTest_Triangle_Moller triangle ray hitRecord ignoreHitRecord := by
  simp only [Fp.HitTest_Triangle_Moller, HitTest_Triangle_Moller, exactArith_add, exactArith_sub,
    exactArith_scale, exactArith_Dot, exactArith_Cross]
  simp [exactArith, FLT_EPSILON]

/-- The raw-vertex Möller–Trumbore test of the first sections is the raw-vertex
Möller–Trumbore test on exact arithmetic. -/
theorem HitTest_Triangle_Moller_raw_exactArith (sqrtf : K → K) (v0 v1 v2 normal : Vector3 K)
    (cullmode : TriangleCullMode) (materialIndex : Nat) (ray : Ray K) (hitRecord : HitRecord K)
    (ignoreHitRecord : Bool) :
    Fp.HitTest_Triangle_Moller_raw (exactArith sqrtf) v0 v1 v2 normal cullmode materialIndex ray
        hitRecord ignoreHitRecord
      = HitTest_Triangle_Moller_raw v0 v1 v2 normal cullmode materialIndex ray hitRecord
          ignoreHitRecord := by
  simp only [Fp.HitTest_Triangle_Moller_raw, HitTest_Triangle_Moller_raw, exactArith_add,
    exactArith_sub, exactArith_scale, exactArith_Dot, exactArith_Cross]
  simp [exactArith, FLT_EPSILON]

/-- The plane-projection triangle test of the first sections is the plane-projection
triangle test on exact arithmetic. -/
theorem HitTest_Triangle_exactArith (sqrtf : K → K) (triangle : Triangle K) (ray : Ray K)
    (hitRecord : HitRecord K) (ignoreHitRecord : Bool) :
    Fp.HitTest_Triangle (exactArith sqrtf) triangle ray hitRecord ignoreHitRecord
      = HitTest_Triangle triangle ray hitRecord ignoreHitRecord := by
  simp only [Fp.HitTest_Triangle, HitTest_Triangle, exactArith_add, exactArith_sub,
    exactArith_scaleRight, exactArith_Dot, exactArith_Cross]
  simp [exactArith, FLT_EPSILON]


/-! ## Sphere, on `float` -/

/-- C1, counterexample. The unit sphere and the ray from `(0, 0, −4097)` along `+z`
meet every hypothesis of the claim in exact arithmetic: the direction has length
one, the origin is outside the sphere, the discriminant is `4 > 0` and the near
root `4096` lies inside `(min, max)`.  In single precision `4097² − 1` rounds to
`4097²`, the computed discriminant is `0` and the test returns false. -/
theorem HitTest_Sphere_binary32_misses_near_root :
    Vector3.SqrMagnitude rayFromFarAway.direction = 1
    ∧ unitSphere.radius ^ 2
        < Vector3.SqrMagnitude (rayFromFarAway.origin - unitSphere.origin)
    ∧ sphereDiscriminant unitSphere rayFromFarAway = 4
    ∧ IsSqrt (sqrtf_4_1 (sphereDiscriminant unitSphere rayFromFarAway))
        (sphereDiscriminant unitSphere rayFromFarAway)
    ∧ sphereNearRoot sqrtf_4_1 unitSphere rayFromFarAway = 4096
    ∧ (rayFromFarAway.min < 4096 ∧ 4096 < rayFromFarAway.max)
    ∧ Fp.ofRay binary32 rayFromFarAway
        = { origin := ⟨FloatVal.finite 0, FloatVal.finite 0, FloatVal.finite (-4097)⟩,
            direction := ⟨FloatVal.finite 0, FloatVal.finite 0, FloatVal.finite 1⟩,
            min := FloatVal.finite (1 / 1024), max := FloatVal.finite 10000 }
    ∧ Fp.sphereDiscriminant binary32 (Fp.ofSphere binary32 unitSphere)
        (Fp.ofRay binary32 rayFromFarAway) = FloatVal.finite 0
    ∧ (Fp.HitTest_Sphere binary32 (Fp.ofSphere binary32 unitSphere)
        (Fp.ofRay binary32 rayFromFarAway) (Fp.ofHitRecord binary32 HitRecord.fresh) false).1
        = false := by
  have hd : sphereDiscriminant unitSphere rayFromFarAway = 4 := by
    norm_num [sphereDiscriminant, sphereB, sphereC, unitSphere, rayFromFarAway,
      Vector3.Dot, Vector3.SqrMagnitude, Vector3.sub_def]
  refine ⟨?_, ?_, hd, ?_, ?_, ?_, ?_, ?_, ?_⟩
  · norm_num [rayFromFarAway, Vector3.SqrMagnitude]
  · norm_num [rayFromFarAway, unitSphere, Vector3.SqrMagnitude, Vector3.sub_def]
  · rw [hd]
    norm_num [IsSqrt, sqrtf_4_1]
  · rw [sphereNearRoot, hd]
    norm_num [sphereB, unitSphere, rayFromFarAway, Vector3.Dot, Vector3.sub_def, sqrtf_4_1]
  · norm_num [rayFromFarAway]
  · decide!
  · decide!
  · decide!

/-- C1, amended. For every arithmetic of `float`, every sphere and every ray: if the
discriminant the test computes is `> 0` and the near root it computes lies strictly
inside `(min, max)`, then `HitTest_Sphere` returns true and leaves in the record the
computed near root as `t`, the computed point `ray.origin + t * ray.direction`, the
computed normalisation of `hitRecord.origin - sphere.origin`, `didHit = true` and the
sphere's material index. -/
theorem HitTest_Sphere_float_near_root {F : Type} (A : FloatArith F) (sphere : Sphere F)
    (ray : Ray F) (hitRecord : HitRecord F) (ignoreHitRecord : Bool)
    (hdisc : A.lt (A.ofRat 0) (Fp.sphereDiscriminant A sphere ray) = true)
    (hmin : A.lt ray.min (Fp.sphereNearRoot A sphere ray) = true)
    (hmax : A.lt (Fp.sphereNearRoot A sphere ray) ray.max = true) :
    Fp.HitTest_Sphere A sphere ray hitRecord ignoreHitRecord =
      (true,
        { origin := Fp.pointAt A ray (Fp.sphereNearRoot A sphere ray),
          normal := Fp.Normalized A
            (Fp.sub A (Fp.pointAt A ray (Fp.sphereNearRoot A sphere ray)) sphere.origin),
          t := Fp.sphereNearRoot A sphere ray,
          didHit := true,
          materialIndex := sphere.materialIndex }) := by
  rw [HitTest_Sphere_float_eq, if_pos ⟨hdisc, hmin, hmax⟩]

/-- The hypotheses of `HitTest_Sphere_float_near_root` hold in single precision for
the unit sphere and the ray from `(0, 0, −5)` along `+z`; the record then holds
`t = 4`, the point `(0, 0, −1)` and the normal `(0, 0, −1)`. -/
theorem HitTest_Sphere_float_near_root_witness :
    (binary32.lt (binary32.ofRat 0)
        (Fp.sphereDiscriminant binary32 (Fp.ofSphere binary32 unitSphere)
          (Fp.ofRay binary32 rayTowardsUnitSphere)) = true
      ∧ Fp.sphereNearRoot binary32 (Fp.ofSphere binary32 unitSphere)
          (Fp.ofRay binary32 rayTowardsUnitSphere) = FloatVal.finite 4
      ∧ Fp.pointAt binary32 (Fp.ofRay binary32 rayTowardsUnitSphere) (FloatVal.finite 4)
          = ⟨FloatVal.finite 0, FloatVal.finite 0, FloatVal.finite (-1)⟩)
    ∧ Fp.HitTest_Sphere binary32 (Fp.ofSphere binary32 unitSphere)
        (Fp.ofRay binary32 rayTowardsUnitSphere) (Fp.ofHitRecord binary32 nearRecord) false
      = (true,
          { origin := Fp.pointAt binary32 (Fp.ofRay binary32 rayTowardsUnitSphere)
              (Fp.sphereNearRoot binary32 (Fp.ofSphere binary32 unitSphere)
                (Fp.ofRay binary32 rayTowardsUnitSphere)),
            normal := Fp.Normalized binary32
              (Fp.sub binary32
                (Fp.pointAt binary32 (Fp.ofRay binary32 rayTowardsUnitSphere)
                  (Fp.sphereNearRoot binary32 (Fp.ofSphere binary32 unitSphere)
                    (Fp.ofRay binary32 rayTowardsUnitSphere)))
                (Fp.ofSphere binary32 unitSphere).origin),
            t := Fp.sphereNearRoot binary32 (Fp.ofSphere binary32 unitSphere)
              (Fp.ofRay binary32 rayTowardsUnitSphere),
            didHit := true,
            materialIndex := (Fp.ofSphere binary32 unitSphere).materialIndex }) :=
  ⟨by decide!,
    HitTest_Sphere_float_near_root binary32 (Fp.ofSphere binary32 unitSphere)
      (Fp.ofRay binary32 rayTowardsUnitSphere) (Fp.ofHitRecord binary32 nearRecord) false
      (by decide!) (by decide!) (by decide!)⟩

/-- C13, counterexample. The unit sphere and the ray from `(0, 0, −4)` with the
direction `(0, 0, 2)` of length two, in single precision (every value met is exact):
the test reports a hit at `t = 1` in the point `(0, 0, −2)`, whose squared distance
from the centre is `4`, not `radius² = 1`. -/
theorem HitTest_Sphere_binary32_non_unit_direction :
    rayOfLengthTwo.direction ≠ ⟨0, 0, 0⟩
    ∧ Fp.HitTest_Sphere binary32 (Fp.ofSphere binary32 unitSphere)
        (Fp.ofRay binary32 rayOfLengthTwo) (Fp.ofHitRecord binary32 HitRecord.fresh) false
      = (true,
          { origin := ⟨FloatVal.finite 0, FloatVal.finite 0, FloatVal.finite (-2)⟩,
            normal := ⟨FloatVal.finite 0, FloatVal.finite 0, FloatVal.finite (-1)⟩,
            t := FloatVal.finite 1, didHit := true, materialIndex := 7 })
    ∧ Fp.Dot binary32
        (Fp.sub binary32 ⟨FloatVal.finite 0, FloatVal.finite 0, FloatVal.finite (-2)⟩
          (Fp.ofSphere binary32 unitSphere).origin)
        (Fp.sub binary32 ⟨FloatVal.finite 0, FloatVal.finite 0, FloatVal.finite (-2)⟩
          (Fp.ofSphere binary32 unitSphere).origin) = FloatVal.finite 4
    ∧ Fp.Square binary32 (Fp.ofSphere binary32 unitSphere).radius = FloatVal.finite 1
    ∧ Vector3.SqrMagnitude ((⟨0, 0, -2⟩ : Vector3 ℚ) - unitSphere.origin) = 4
    ∧ unitSphere.radius ^ 2 = 1 := by
  refine ⟨by norm_num [rayOfLengthTwo], by decide!, by decide!, by decide!, ?_, ?_⟩
  · norm_num [unitSphere, Vector3.SqrMagnitude, Vector3.sub_def]
  · norm_num [unitSphere]

/-- For a direction of unit length the recorded point is on the sphere only up to
rounding: in single precision the ray from `(1/2, 0, −5)` along `+z` hits the unit
sphere in a point whose squared distance from the centre is `1 + 335641/2⁴²`. -/
theorem HitTest_Sphere_binary32_point_off_sphere :
    Vector3.SqrMagnitude rayOffAxis.direction = 1
    ∧ Fp.HitTest_Sphere binary32 (Fp.ofSphere binary32 unitSphere)
        (Fp.ofRay binary32 rayOffAxis) (Fp.ofHitRecord binary32 HitRecord.fresh) false
      = (true,
          { origin := ⟨FloatVal.finite (1 / 2), FloatVal.finite 0,
              FloatVal.finite (-1816187 / 2097152)⟩,
            normal := ⟨FloatVal.finite (1 / 2), FloatVal.finite 0,
              FloatVal.finite (-1816187 / 2097152)⟩,
            t := FloatVal.finite (8669573 / 2097152), didHit := true, materialIndex := 7 })
    ∧ Vector3.SqrMagnitude ((⟨1 / 2, 0, -1816187 / 2097152⟩ : Vector3 ℚ) - unitSphere.origin)
        = unitSphere.radius ^ 2 + 335641 / 4398046511104 := by
  refine ⟨by norm_num [rayOffAxis, Vector3.SqrMagnitude], by decide!, ?_⟩
  norm_num [unitSphere, Vector3.SqrMagnitude, Vector3.sub_def]

/-- C13, amended. For every arithmetic of `float`, every sphere and every ray:
whenever `HitTest_Sphere` reports a hit, the discriminant it computed is `> 0`, the
recorded `t` is the near root `(-b - sqrtf(discriminant)) * 0.5f` of
`t² + b·t + c = 0` with `b = dot(2·D, O − C)` and `c = dot(O − C, O − C) − r²` as it
computed them, and the recorded point is `ray.origin + t * ray.direction` as it
computed it.  The quadratic has no coefficient `|D|²`. -/
theorem HitTest_Sphere_float_hit_point {F : Type} (A : FloatArith F) (sphere : Sphere F)
    (ray : Ray F) (hitRecord : HitRecord F) (ignoreHitRecord : Bool)
    (h : (Fp.HitTest_Sphere A sphere ray hitRecord ignoreHitRecord).1 = true) :
    A.lt (A.ofRat 0)
        (A.sub (Fp.Square A (Fp.sphereB A sphere ray))
          (A.mul (A.ofRat 4) (Fp.sphereC A sphere ray))) = true
    ∧ (Fp.HitTest_Sphere A sphere ray hitRecord ignoreHitRecord).2.t
        = A.mul
            (A.sub (A.neg (Fp.sphereB A sphere ray))
              (A.sqrtf
                (A.sub (Fp.Square A (Fp.sphereB A sphere ray))
                  (A.mul (A.ofRat 4) (Fp.sphereC A sphere ray)))))
            (A.ofRat (1 / 2))
    ∧ (Fp.HitTest_Sphere A sphere ray hitRecord ignoreHitRecord).2.origin
        = Fp.add A ray.origin
            (Fp.scale A (Fp.HitTest_Sphere A sphere ray hitRecord ignoreHitRecord).2.t
              ray.direction) := by
  rw [HitTest_Sphere_float_eq] at h ⊢
  split_ifs at h ⊢ with hc
  exact ⟨hc.1, rfl, rfl⟩

/-- The hypothesis of `HitTest_Sphere_float_hit_point` holds in single precision for
the unit sphere and the ray from `(0, 0, −5)` along `+z`. -/
theorem HitTest_Sphere_float_hit_point_witness :
    (Fp.HitTest_Sphere binary32 (Fp.ofSphere binary32 unitSphere)
        (Fp.ofRay binary32 rayTowardsUnitSphere) (Fp.ofHitRecord binary32 nearRecord) false).1
      = true
    ∧ (Fp.HitTest_Sphere binary32 (Fp.ofSphere binary32 unitSphere)
        (Fp.ofRay binary32 rayTowardsUnitSphere) (Fp.ofHitRecord binary32 nearRecord) false).2.origin
      = Fp.add binary32 (Fp.ofRay binary32 rayTowardsUnitSphere).origin
          (Fp.scale binary32
            (Fp.HitTest_Sphere binary32 (Fp.ofSphere binary32 unitSphere)
              (Fp.ofRay binary32 rayTowardsUnitSphere) (Fp.ofHitRecord binary32 nearRecord)
              false).2.t
            (Fp.ofRay binary32 rayTowardsUnitSphere).direction) :=
  ⟨by decide!,
    (HitTest_Sphere_float_hit_point binary32 (Fp.ofSphere binary32 unitSphere)
      (Fp.ofRay binary32 rayTowardsUnitSphere) (Fp.ofHitRecord binary32 nearRecord) false
      (by decide!)).2.2⟩


/-! ## Plane, on `float` -/

/-- C9, counterexample. The plane `z = 0` facing `−z` and the ray from `(1, 2, −3)`
along `(1/4, 1/2, 0.7f)` in single precision: the test reports a hit, the computed
`t = 4493897/2²⁰` puts the recorded point at `z = −2⁻²²`, and
`dot(point − planeOrigin, normal)` is `2⁻²²`, not `0`: the recorded point is not on
the plane. -/
theorem HitTest_Plane_binary32_point_off_plane :
    Fp.HitTest_Plane binary32 (Fp.ofPlane binary32 groundPlane)
        (Fp.ofRay binary32 rayAcrossGroundPlane) (Fp.ofHitRecord binary32 HitRecord.fresh) false
      = (true,
          { origin := ⟨FloatVal.finite (8688201 / 4194304), FloatVal.finite (8688201 / 2097152),
              FloatVal.finite (-1 / 4194304)⟩,
            normal := ⟨FloatVal.finite 0, FloatVal.finite 0, FloatVal.finite (-1)⟩,
            t := FloatVal.finite (4493897 / 1048576), didHit := true, materialIndex := 2 })
    ∧ Fp.Dot binary32
        (Fp.sub binary32
          ⟨FloatVal.finite (8688201 / 4194304), FloatVal.finite (8688201 / 2097152),
            FloatVal.finite (-1 / 4194304)⟩
          (Fp.ofPlane binary32 groundPlane).origin)
        (Fp.ofPlane binary32 groundPlane).normal = FloatVal.finite (1 / 4194304)
    ∧ Vector3.Dot
        ((⟨8688201 / 4194304, 8688201 / 2097152, -1 / 4194304⟩ : Vector3 ℚ) - groundPlane.origin)
        groundPlane.normal = 1 / 4194304 := by
  refine ⟨by decide!, by decide!, ?_⟩
  norm_num [groundPlane, Vector3.Dot, Vector3.sub_def]

/-- In single precision `0 <= x` fails exactly for a NaN and for a value below
zero. -/
theorem binary32_not_zero_le (x : FloatVal ℚ) :
    binary32.le (binary32.ofRat 0) x = false
      ↔ x = FloatVal.nan ∨ binary32.lt x (binary32.ofRat 0) = true := by
  have h0 : binary32.ofRat 0 = FloatVal.finite 0 := rfl
  rw [h0]
  cases x <;> simp [binary32, FloatVal.ge, FloatVal.lt]

/-- In single precision a quotient by NaN is NaN. -/
theorem binary32_div_nan (a : FloatVal ℚ) : binary32.div a FloatVal.nan = FloatVal.nan := by
  cases a <;> rfl

/-- C9, amended. In single precision, for every plane and ray, with
`t = dot(planeOrigin − rayOrigin, normal) / dot(direction, normal)` as the test
computes it: `HitTest_Plane` returns true exactly when `dot(direction, normal) < 0`
and `min < t < max`; for a ray parallel to the plane (`dot(direction, normal) == 0`)
it returns false and leaves the record as it was; and when it returns true the
record holds that `t`, the point `rayOrigin + t * direction` as computed, the
plane's own normal, `didHit = true` and the plane's material index. -/
theorem HitTest_Plane_binary32_spec (plane : Plane (FloatVal ℚ)) (ray : Ray (FloatVal ℚ))
    (hitRecord : HitRecord (FloatVal ℚ)) (ignoreHitRecord : Bool) :
    ((Fp.HitTest_Plane binary32 plane ray hitRecord ignoreHitRecord).1 = true
        ↔ binary32.lt (Fp.Dot binary32 ray.direction plane.normal) (binary32.ofRat 0) = true
          ∧ binary32.lt ray.min (Fp.planeT binary32 plane ray) = true
          ∧ binary32.lt (Fp.planeT binary32 plane ray) ray.max = true)
    ∧ (Fp.Dot binary32 ray.direction plane.normal = FloatVal.finite 0
        → Fp.HitTest_Plane binary32 plane ray hitRecord ignoreHitRecord = (false, hitRecord))
    ∧ ((Fp.HitTest_Plane binary32 plane ray hitRecord ignoreHitRecord).1 = true
        → (Fp.HitTest_Plane binary32 plane ray hitRecord ignoreHitRecord).2
          = { origin := Fp.add binary32 ray.origin
                (Fp.scale binary32 (Fp.planeT binary32 plane ray) ray.direction),
              normal := plane.normal,
              t := Fp.planeT binary32 plane ray,
              didHit := true,
              materialIndex := plane.materialIndex }) := by
  rw [HitTest_Plane_float_eq]
  simp only [Fp.planeProjection, Fp.pointAt]
  refine ⟨?_, ?_, ?_⟩
  · by_cases h1 : binary32.le (binary32.ofRat 0) (Fp.Dot binary32 ray.direction plane.normal) = true
    · rw [if_pos h1]
      constructor
      · intro h
        exact absurd h (by simp)
      · intro h
        have h2 := (binary32_not_zero_le _).mpr (Or.inr h.1)
        rw [h1] at h2
        exact absurd h2 (by simp)
    · rw [if_neg h1]
      have h1' : binary32.le (binary32.ofRat 0) (Fp.Dot binary32 ray.direction plane.normal)
          = false := by simpa using h1
      rcases (binary32_not_zero_le _).mp h1' with hnan | hlt
      · have ht : Fp.planeT binary32 plane ray = FloatVal.nan := by
          simp only [Fp.planeT, Fp.planeProjection]
          rw [hnan]
          exact binary32_div_nan _
        have hmin : binary32.lt ray.min FloatVal.nan = false := FloatVal.lt_nan ray.min
        rw [ht, hmin]
        simp
      · split_ifs with h2
        · simp [hlt, h2.1, h2.2]
        · constructor
          · intro h
            exact absurd h (by simp)
          · intro h
            exact absurd ⟨h.2.1, h.2.2⟩ h2
  · intro h
    have h1 : binary32.le (binary32.ofRat 0) (Fp.Dot binary32 ray.direction plane.normal)
        = true := by
      rw [h]
      rfl
    rw [if_pos h1]
  · intro h
    split_ifs at h ⊢
    rfl

/-- The plane `z = 0` and the ray from `(1, 2, −3)` along `(1/4, 1/2, 0.7f)` in single
precision: the three conditions of `HitTest_Plane_binary32_spec` hold and the test
returns true. -/
theorem HitTest_Plane_binary32_spec_witness :
    (binary32.lt
        (Fp.Dot binary32 (Fp.ofRay binary32 rayAcrossGroundPlane).direction
          (Fp.ofPlane binary32 groundPlane).normal) (binary32.ofRat 0) = true
      ∧ binary32.lt (Fp.ofRay binary32 rayAcrossGroundPlane).min
          (Fp.planeT binary32 (Fp.ofPlane binary32 groundPlane)
            (Fp.ofRay binary32 rayAcrossGroundPlane)) = true
      ∧ binary32.lt
          (Fp.planeT binary32 (Fp.ofPlane binary32 groundPlane)
            (Fp.ofRay binary32 rayAcrossGroundPlane))
          (Fp.ofRay binary32 rayAcrossGroundPlane).max = true)
    ∧ (Fp.HitTest_Plane binary32 (Fp.ofPlane binary32 groundPlane)
        (Fp.ofRay binary32 rayAcrossGroundPlane) (Fp.ofHitRecord binary32 nearRecord) false).1
      = true :=
  ⟨by decide!,
    (HitTest_Plane_binary32_spec (Fp.ofPlane binary32 groundPlane)
      (Fp.ofRay binary32 rayAcrossGroundPlane) (Fp.ofHitRecord binary32 nearRecord) false).1.2
      (by decide!)⟩

/-! ## The Möller–Trumbore test, on `float` -/

/-- A NaN passes the range tests.  In single precision the determinant of
`hugeTriangle` overflows to `+∞`, `invDet` is `0`, and `u`, `v` and `t` are NaN
(`∞ · 0`); no comparison with NaN holds, so no test rejects, and both variants report
a hit with `t = NaN` and a NaN point. -/
theorem HitTest_Triangle_Moller_binary32_accepts_nan :
    Fp.mollerDet binary32 (Fp.ofVector binary32 hugeTriangle.v0)
        (Fp.ofVector binary32 hugeTriangle.v1) (Fp.ofVector binary32 hugeTriangle.v2)
        (Fp.ofRay binary32 rayOntoHugeTriangle) = FloatVal.posInf
    ∧ Fp.HitTest_Triangle_Moller binary32 (Fp.ofTriangle binary32 hugeTriangle)
        (Fp.ofRay binary32 rayOntoHugeTriangle) (Fp.ofHitRecord binary32 HitRecord.fresh) false
      = (true,
          { origin := ⟨FloatVal.nan, FloatVal.nan, FloatVal.nan⟩,
            normal := ⟨FloatVal.finite 0, FloatVal.finite 0, FloatVal.finite 1⟩,
            t := FloatVal.nan, didHit := true, materialIndex := 3 })
    ∧ Fp.HitTest_Triangle_Moller_raw binary32 (Fp.ofVector binary32 hugeTriangle.v0)
        (Fp.ofVector binary32 hugeTriangle.v1) (Fp.ofVector binary32 hugeTriangle.v2)
        (Fp.ofVector binary32 hugeTriangle.normal) TriangleCullMode.NoCulling 3
        (Fp.ofRay binary32 rayOntoHugeTriangle) (Fp.ofHitRecord binary32 HitRecord.fresh) false
      = (true,
          { origin := ⟨FloatVal.nan, FloatVal.nan, FloatVal.nan⟩,
            normal := ⟨FloatVal.finite 0, FloatVal.finite 0, FloatVal.finite 1⟩,
            t := FloatVal.nan, didHit := true, materialIndex := 3 }) := by
  refine ⟨by decide!, by decide!, by decide!⟩

/-- C20, counterexample. On `unitTriangle` and the ray from `(−7/16, 3/16, 1/16)`
along `(7/2, −21/16, −7/16)` the Möller–Trumbore test in single precision reports a
hit with the recorded point `(1/16, 0, 0)` and the recorded `t = 9586981/2²⁶`.  The
point `ray.origin + t * ray.direction` is another one, whether it is evaluated in
single precision, `(1/16, −2⁻²⁶, 0)`, or exactly,
`(8388611/2²⁷, −9/2³⁰, −3/2³⁰)`. -/
theorem HitTest_Triangle_Moller_binary32_point_off_ray :
    Fp.HitTest_Triangle_Moller binary32
        (Fp.ofTriangle binary32 (unitTriangle TriangleCullMode.NoCulling))
        (Fp.ofRay binary32 rayOntoEdgeOfUnitTriangle) (Fp.ofHitRecord binary32 HitRecord.fresh)
        false
      = (true,
          { origin := ⟨FloatVal.finite (1 / 16), FloatVal.finite 0, FloatVal.finite 0⟩,
            normal := ⟨FloatVal.finite 0, FloatVal.finite 0, FloatVal.finite 1⟩,
            t := FloatVal.finite (9586981 / 67108864), didHit := true, materialIndex := 3 })
    ∧ Fp.pointAt binary32 (Fp.ofRay binary32 rayOntoEdgeOfUnitTriangle)
        (FloatVal.finite (9586981 / 67108864))
      = ⟨FloatVal.finite (1 / 16), FloatVal.finite (-1 / 67108864), FloatVal.finite 0⟩
    ∧ rayOntoEdgeOfUnitTriangle.origin
        + (9586981 / 67108864 : ℚ) * rayOntoEdgeOfUnitTriangle.direction
      = ⟨8388611 / 134217728, -9 / 1073741824, -3 / 1073741824⟩
    ∧ Fp.ofRay binary32 rayOntoEdgeOfUnitTriangle
      = { origin := ⟨FloatVal.finite (-7 / 16), FloatVal.finite (3 / 16), FloatVal.finite (1 / 16)⟩,
          direction := ⟨FloatVal.finite (7 / 2), FloatVal.finite (-21 / 16),
            FloatVal.finite (-7 / 16)⟩,
          min := FloatVal.finite (1 / 1024), max := FloatVal.finite 10000 } := by
  refine ⟨by decide!, by decide!, ?_, by decide!⟩
  norm_num [rayOntoEdgeOfUnitTriangle, Vector3.add_def, Vector3.smul_def]

/-- C20, amended. For every arithmetic of `float`, every triangle and ray and both
variants of the Möller–Trumbore test: whenever the test reports a hit, the recorded
point is `(1 − u − v) * v0 + u * v1 + v * v2` for the `u` and `v` the test computed,
and the recorded `t` is `dot(edge2, qVec) * invDet`, each as computed on `float`. -/
theorem HitTest_Triangle_Moller_float_point {F : Type} (A : FloatArith F)
    (triangle : Triangle F) (ray : Ray F) (hitRecord : HitRecord F) (ignoreHitRecord : Bool) :
    ((Fp.HitTest_Triangle_Moller A triangle ray hitRecord ignoreHitRecord).1 = true
      → (Fp.HitTest_Triangle_Moller A triangle ray hitRecord ignoreHitRecord).2.origin
          = Fp.add A
              (Fp.add A
                (Fp.scale A
                  (A.sub (A.sub (A.ofRat 1) (Fp.mollerU A triangle.v0 triangle.v1 triangle.v2 ray))
                    (Fp.mollerV A triangle.v0 triangle.v1 triangle.v2 ray))
                  triangle.v0)
                (Fp.scale A (Fp.mollerU A triangle.v0 triangle.v1 triangle.v2 ray) triangle.v1))
              (Fp.scale A (Fp.mollerV A triangle.v0 triangle.v1 triangle.v2 ray) triangle.v2)
        ∧ (Fp.HitTest_Triangle_Moller A triangle ray hitRecord ignoreHitRecord).2.t
          = Fp.mollerT A triangle.v0 triangle.v1 triangle.v2 ray)
    ∧ ((Fp.HitTest_Triangle_Moller_raw A triangle.v0 triangle.v1 triangle.v2 triangle.normal
          triangle.cullMode triangle.materialIndex ray hitRecord ignoreHitRecord).1 = true
      → (Fp.HitTest_Triangle_Moller_raw A triangle.v0 triangle.v1 triangle.v2 triangle.normal
            triangle.cullMode triangle.materialIndex ray hitRecord ignoreHitRecord).2.origin
          = Fp.add A
              (Fp.add A
                (Fp.scale A
                  (A.sub (A.sub (A.ofRat 1) (Fp.mollerU A triangle.v0 triangle.v1 triangle.v2 ray))
                    (Fp.mollerV A triangle.v0 triangle.v1 triangle.v2 ray))
                  triangle.v0)
                (Fp.scale A (Fp.mollerU A triangle.v0 triangle.v1 triangle.v2 ray) triangle.v1))
              (Fp.scale A (Fp.mollerV A triangle.v0 triangle.v1 triangle.v2 ray) triangle.v2)
        ∧ (Fp.HitTest_Triangle_Moller_raw A triangle.v0 triangle.v1 triangle.v2 triangle.normal
            triangle.cullMode triangle.materialIndex ray hitRecord ignoreHitRecord).2.t
          = Fp.mollerT A triangle.v0 triangle.v1 triangle.v2 ray) := by
  rw [HitTest_Triangle_Moller_float_eq, HitTest_Triangle_Moller_raw_float_eq]
  constructor
  · intro h
    split_ifs at h ⊢
    exact ⟨rfl, rfl⟩
  · intro h
    split_ifs at h ⊢
    exact ⟨rfl, rfl⟩

/-- The ray through `unitTriangle` in `(1/4, 1/4, 0)`, in single precision: the test
reports the hit and the recorded `t` is the computed `dot(edge2, qVec) * invDet`. -/
theorem HitTest_Triangle_Moller_float_point_witness :
    (Fp.HitTest_Triangle_Moller binary32
        (Fp.ofTriangle binary32 (unitTriangle TriangleCullMode.NoCulling))
        (Fp.ofRay binary32 rayThroughUnitTriangle) (Fp.ofHitRecord binary32 nearRecord) false).1
      = true
    ∧ (Fp.HitTest_Triangle_Moller binary32
        (Fp.ofTriangle binary32 (unitTriangle TriangleCullMode.NoCulling))
        (Fp.ofRay binary32 rayThroughUnitTriangle) (Fp.ofHitRecord binary32 nearRecord) false).2.t
      = Fp.mollerT binary32 (Fp.ofTriangle binary32 (unitTriangle TriangleCullMode.NoCulling)).v0
          (Fp.ofTriangle binary32 (unitTriangle TriangleCullMode.NoCulling)).v1
          (Fp.ofTriangle binary32 (unitTriangle TriangleCullMode.NoCulling)).v2
          (Fp.ofRay binary32 rayThroughUnitTriangle) :=
  ⟨by decide!,
    ((HitTest_Triangle_Moller_float_point binary32
      (Fp.ofTriangle binary32 (unitTriangle TriangleCullMode.NoCulling))
      (Fp.ofRay binary32 rayThroughUnitTriangle) (Fp.ofHitRecord binary32 nearRecord) false).1
      (by decide!)).2⟩


/-- The weights are `1/3` and the point the centroid only up to rounding.
`wideTriangle` has the normal `normalize(cross(v1−v0, v2−v0))` and the centroid
`(0, 1, 0)`; the ray starts `s = 5095163/2¹⁸` above the centroid and runs along `−n`.
In single precision the test reports a hit with `t = s + 2⁻¹⁹`, the weights
`u = v = 11184811/2²⁵` and the point `(2⁻²³, 1 − 2⁻²⁴, 0)`. -/
theorem HitTest_Triangle_Moller_binary32_centroid_rounded :
    (Fp.ofTriangle binary32 wideTriangle).normal
        = Fp.Normalized binary32
            (Fp.Cross binary32
              (Fp.sub binary32 (Fp.ofTriangle binary32 wideTriangle).v1
                (Fp.ofTriangle binary32 wideTriangle).v0)
              (Fp.sub binary32 (Fp.ofTriangle binary32 wideTriangle).v2
                (Fp.ofTriangle binary32 wideTriangle).v0))
    ∧ rayOntoWideTriangle.direction = (-1 : ℚ) * wideTriangle.normal
    ∧ rayOntoWideTriangle.origin
        = wideTriangle.centroid + (5095163 / 262144 : ℚ) * wideTriangle.normal
    ∧ wideTriangle.centroid = ⟨0, 1, 0⟩
    ∧ Fp.mollerU binary32 (Fp.ofTriangle binary32 wideTriangle).v0
        (Fp.ofTriangle binary32 wideTriangle).v1 (Fp.ofTriangle binary32 wideTriangle).v2
        (Fp.ofRay binary32 rayOntoWideTriangle) = FloatVal.finite (11184811 / 33554432)
    ∧ Fp.mollerV binary32 (Fp.ofTriangle binary32 wideTriangle).v0
        (Fp.ofTriangle binary32 wideTriangle).v1 (Fp.ofTriangle binary32 wideTriangle).v2
        (Fp.ofRay binary32 rayOntoWideTriangle) = FloatVal.finite (11184811 / 33554432)
    ∧ Fp.HitTest_Triangle_Moller binary32 (Fp.ofTriangle binary32 wideTriangle)
        (Fp.ofRay binary32 rayOntoWideTriangle) (Fp.ofHitRecord binary32 HitRecord.fresh) false
      = (true,
          { origin := ⟨FloatVal.finite (1 / 8388608), FloatVal.finite (16777215 / 16777216),
              FloatVal.finite 0⟩,
            normal := ⟨FloatVal.finite 0, FloatVal.finite 0, FloatVal.finite 1⟩,
            t := FloatVal.finite (5095163 / 262144 + 1 / 524288), didHit := true,
            materialIndex := 3 }) := by
  refine ⟨by decide!, ?_, ?_, ?_, by decide!, by decide!, by decide!⟩
  · norm_num [wideTriangle, rayOntoWideTriangle, Vector3.smul_def]
  · norm_num [wideTriangle, rayOntoWideTriangle, Triangle.centroid, Vector3.smul_def,
      Vector3.add_def]
  · norm_num [wideTriangle, Triangle.centroid, Vector3.smul_def, Vector3.add_def]

/-- Rounding alone fails a ray aimed at the centre of a thin box.  The box of
`thinBoxMesh` is flat on x and on y, the origin of `rayTowardsThinBox` is outside it
and its direction is exactly one third of the vector from the origin to the centre of
the box, so that in exact arithmetic every axis is met at `t = 3`.  In single
precision the x quotients are `3` and the y quotients `3 − 2⁻²²`, so `tmax < tmin`
and the slab test returns false. -/
theorem SlabTest_TriangleMesh_binary32_thin_box_fails :
    (thinBoxMesh.transformedMinAABB.x ≤ thinBoxMesh.transformedMaxAABB.x
      ∧ thinBoxMesh.transformedMinAABB.y ≤ thinBoxMesh.transformedMaxAABB.y
      ∧ thinBoxMesh.transformedMinAABB.z ≤ thinBoxMesh.transformedMaxAABB.z)
    ∧ rayTowardsThinBox.origin.z < thinBoxMesh.transformedMinAABB.z
    ∧ rayTowardsThinBox.direction
        = (1 / 3 : ℚ) * (boxCentre thinBoxMesh - rayTowardsThinBox.origin)
    ∧ Fp.ofRay binary32 rayTowardsThinBox
        = { origin := ⟨FloatVal.finite (2464265 / 2097152), FloatVal.finite (-8599099 / 8388608),
              FloatVal.finite (-3)⟩,
            direction := ⟨FloatVal.finite (1 / 64), FloatVal.finite (7163235 / 8388608),
              FloatVal.finite 1⟩,
            min := FloatVal.finite (1 / 1024), max := FloatVal.finite 10000 }
    ∧ (Fp.ofMesh binary32 thinBoxMesh).transformedMinAABB
        = ⟨FloatVal.finite (2562569 / 2097152), FloatVal.finite (6445303 / 4194304),
            FloatVal.finite (-1)⟩
    ∧ binary32.div
        (binary32.sub (Fp.ofMesh binary32 thinBoxMesh).transformedMinAABB.x
          (Fp.ofRay binary32 rayTowardsThinBox).origin.x)
        (Fp.ofRay binary32 rayTowardsThinBox).direction.x = FloatVal.finite 3
    ∧ binary32.div
        (binary32.sub (Fp.ofMesh binary32 thinBoxMesh).transformedMinAABB.y
          (Fp.ofRay binary32 rayTowardsThinBox).origin.y)
        (Fp.ofRay binary32 rayTowardsThinBox).direction.y = FloatVal.finite (12582911 / 4194304)
    ∧ Fp.SlabTest_TriangleMesh binary32 (Fp.ofMesh binary32 thinBoxMesh)
        (Fp.ofRay binary32 rayTowardsThinBox) = false := by
  refine ⟨by norm_num [thinBoxMesh], by norm_num [thinBoxMesh, rayTowardsThinBox], ?_,
    by decide!, by decide!, by decide!, by decide!, by decide!⟩
  norm_num [thinBoxMesh, rayTowardsThinBox, boxCentre, Vector3.sub_def, Vector3.add_def,
    Vector3.smul_def]

end dae
